import Mathlib

/-!
# mod_prometheus: metrics, label sets, registry

A shallow embedding of the metric layer of ProFTPD's `mod_prometheus`.

The repository's `metric.c` and `registry.c` are not among the sources at hand;
what is at hand is their test suite (`t/api/metric.c`), their caller
(`mod_prometheus.c`) and the specification.  The definitions of this part are
therefore modelled from the specification and checked against the assertions of
the test suite; each of them says so in its doc comment.
-/

namespace Prometheus

/-! ## Error codes -/

/-- The `errno` values the metric and registry API report, and those of the
system calls the module makes. -/
inductive Errno where
  | EINVAL
  | EPERM
  | EEXIST
  | ENOENT
  | ESRCH
  | EINTR
  | ECHILD
  | EIO
deriving DecidableEq, Repr

deriving instance DecidableEq for Except

/-- A memory pool argument (`pool *`); only its being null or not matters. -/
abbrev Pool := Unit

/-- A sample store handle (`struct prom_dbh *`); only its identity matters here. -/
abbrev Dbh := Nat

/-! ## Sample values -/

/-- Modelled from the spec: the store keeps `sample_value` as a floating-point
number; the arithmetic of `metric.c` on it is not in the sources.  A value is
modelled as an exact decimal `mant / 10 ^ scale`, so that increments by
32-bit amounts and observations such as `76.42` are represented without
rounding. -/
structure Dec where
  mant : Int
  scale : Nat
deriving DecidableEq, Repr

/-- The decimal of an unsigned amount (`uint32_t val`). -/
def Dec.ofNat (n : Nat) : Dec := ⟨(n : Int), 0⟩

/-- The mantissa of a decimal brought to the scale `s`. -/
def Dec.mantAt (a : Dec) (s : Nat) : Int := a.mant * ((10 ^ (s - a.scale) : Nat) : Int)

/-- Exact sum of two decimals, at the larger of the two scales. -/
def Dec.add (a b : Dec) : Dec :=
  ⟨a.mantAt (max a.scale b.scale) + b.mantAt (max a.scale b.scale), max a.scale b.scale⟩

/-- Exact difference of two decimals, at the larger of the two scales. -/
def Dec.sub (a b : Dec) : Dec :=
  ⟨a.mantAt (max a.scale b.scale) - b.mantAt (max a.scale b.scale), max a.scale b.scale⟩

/-- Comparison `a <= b` of two decimals. -/
def Dec.le (a b : Dec) : Bool :=
  decide (a.mantAt (max a.scale b.scale) ≤ b.mantAt (max a.scale b.scale))

/-- The `s` fractional digits of `f < 10 ^ s`, most significant first. -/
def fracDigits : Nat → Nat → List Char
  | 0, _ => []
  | s + 1, f => Nat.digitChar (f / 10 ^ s) :: fracDigits s (f % 10 ^ s)

/-- Drops the zeros at the end of a digit list. -/
def trimZeros (l : List Char) : List Char :=
  (l.reverse.dropWhile (fun c => c == '0')).reverse

/-- Modelled from the spec: how `metric.c` prints a sample value is not in the
sources; the test suite shows `6`, `8`, `1` and `76.42`.  A value is printed as
its integer part, followed by a point and the fractional digits without
trailing zeros when there are any. -/
def Dec.text (a : Dec) : String :=
  let p := 10 ^ a.scale
  let n := a.mant.natAbs
  let frac := trimZeros (fracDigits a.scale (n % p))
  (if a.mant < 0 then "-" else "") ++ toString (n / p) ++
    (if frac = [] then "" else "." ++ String.mk frac)

/-! ## Label sets -/

/-- Lexical comparison `a <= b` of two character sequences by code point, the
order `strcmp` gives on UTF-8 text. -/
def lexLe : List Char → List Char → Bool
  | [], _ => true
  | _ :: _, [] => false
  | a :: as, b :: bs =>
    if a.toNat < b.toNat then true
    else if b.toNat < a.toNat then false
    else lexLe as bs

/-- Lexical comparison of two label names. -/
def keyLe (a b : String) : Bool := lexLe a.data b.data

/-- A label set as the caller builds it (`pr_table_t *labels`): the name/value
pairs in the order of their `pr_table_add` calls.  Names are unique within a
valid label set. -/
abbrev Labels := List (String × String)

/-- A valid label set: no label name occurs twice. -/
def validLabels (l : Labels) : Prop := (l.map Prod.fst).Nodup

instance (l : Labels) : Decidable (validLabels l) := by
  unfold validLabels
  infer_instance

/-- The label names of a list are in ascending lexical order. -/
def keysAscending (l : Labels) : Prop :=
  (l.map Prod.fst).Pairwise (fun a b => keyLe a b = true)

instance (l : Labels) : Decidable (keysAscending l) := by
  unfold keysAscending
  infer_instance

/-- Inserts a pair into a label list sorted by name, before the first pair
whose name is not smaller. -/
def insertLabel (kv : String × String) : Labels → Labels
  | [] => [kv]
  | x :: xs => if keyLe kv.1 x.1 then kv :: x :: xs else x :: insertLabel kv xs

/-- Modelled from the spec: the canonical form of a label set, "canonicalize by
sorting keys lexically before using as a key or rendering" (`metric.c` is not
in the sources).  This is the key under which a sample is stored and looked
up. -/
def canonLabels : Labels → Labels
  | [] => []
  | kv :: rest => insertLabel kv (canonLabels rest)

/-- The key of the labels argument of an API call; a null table is the empty
label set. -/
def labelKey : Option Labels → Labels
  | none => []
  | some l => canonLabels l

/-- One rendered label, `name="value"`. -/
def labelText (kv : String × String) : String := kv.1 ++ "=\"" ++ kv.2 ++ "\""

/-- Joins texts with commas. -/
def commaJoin : List String → String
  | [] => ""
  | [a] => a
  | a :: b :: rest => a ++ "," ++ commaJoin (b :: rest)

/-- Modelled from the spec: the rendering of a canonical label set in a sample
line, `\x7bk1="v1",k2="v2"\x7d`, and nothing at all for the empty label set
(`metric.c` is not in the sources; the test suite shows
`\x7bfoo="BAR",protocol="ftp"\x7d`). -/
def labelsText : Labels → String
  | [] => ""
  | kv :: rest => "\x7b" ++ commaJoin ((kv :: rest).map labelText) ++ "\x7d"

/-! ## Sample tables -/

/-- The rows of one series of the sample store: a value per canonical label
set. -/
abbrev Table (β : Type) := List (Labels × β)

/-- The value stored under a key, if there is a row for it. -/
def Table.get {β : Type} : Table β → Labels → Option β
  | [], _ => none
  | (k, v) :: rest, key => if k = key then some v else Table.get rest key

/-- Applies `f` to the value of every row stored under the key. -/
def Table.update {β : Type} (key : Labels) (f : β → β) : Table β → Table β
  | [] => []
  | (k, v) :: rest =>
    if k = key then (k, f v) :: Table.update key f rest
    else (k, v) :: Table.update key f rest

/-- Adds a row, keeping the rows ordered by the text of their key. -/
def Table.insertRow {β : Type} (key : Labels) (v : β) : Table β → Table β
  | [] => [(key, v)]
  | (k, w) :: rest =>
    if keyLe (labelsText key) (labelsText k) then (key, v) :: (k, w) :: rest
    else (k, w) :: Table.insertRow key v rest

/-- Modelled from the spec: `add_sample` / `set_sample` of the sample store,
"adds to or overwrites the numeric value associated with a canonicalized
label-key ..., creating the row if absent" (`metric.c` and the store are not in
the sources).  An absent row starts from `init`. -/
def Table.upsert {β : Type} (key : Labels) (init : β) (f : β → β) (t : Table β) : Table β :=
  match t.get key with
  | some _ => Table.update key f t
  | none => Table.insertRow key (f init) t

/-! ## Metrics -/

/-- A counter or gauge sub-definition with the samples recorded for it. -/
structure SubDef where
  suffix : Option String
  help : String
  samples : Table Dec
deriving DecidableEq, Repr

/-- What a histogram tracks for one label set: a cumulative count per bound,
the count of the `+Inf` bucket, the number of observations and their sum. -/
structure HistRow where
  buckets : List Dec
  inf : Dec
  count : Dec
  sum : Dec
deriving DecidableEq, Repr

/-- A histogram sub-definition: its ascending bounds and a row per label set. -/
structure HistDef where
  suffix : Option String
  help : String
  bounds : List Dec
  rows : Table HistRow
deriving DecidableEq, Repr

/-- Modelled from the spec: `struct prom_metric` (declared in `metric.h`, not in
the sources): "name ..., optional CounterDef, optional GaugeDef, optional
HistogramDef, a reference to the shared persistence handle".  The samples the
store holds for the metric are carried by its sub-definitions. -/
structure Metric where
  name : String
  dbh : Dbh
  counter : Option SubDef
  gauge : Option SubDef
  histogram : Option HistDef
deriving DecidableEq, Repr

/-- The metric kinds of `metric.h`, which is not in the sources; the test suite
shows that `0` and `-1` are none of them. -/
def PROM_METRIC_TYPE_COUNTER : Int := 1

/-- See `PROM_METRIC_TYPE_COUNTER`. -/
def PROM_METRIC_TYPE_GAUGE : Int := 2

/-- See `PROM_METRIC_TYPE_COUNTER`. -/
def PROM_METRIC_TYPE_HISTOGRAM : Int := 3

/-! ## Creating a metric and attaching sub-definitions -/

/-- Modelled from the spec: `prom_metric_create` of `metric.c`, which is not in
the sources: "created via an explicit constructor given a name and a store
handle"; the name is required and non-empty.  The test suite shows `EINVAL` for
a null pool, name or handle. -/
def prom_metric_create (p : Option Pool) (name : Option String) (dbh : Option Dbh) :
    Except Errno Metric :=
  match p, name, dbh with
  | some _, some n, some d =>
    if n = "" then .error .EINVAL
    else .ok { name := n, dbh := d, counter := none, gauge := none, histogram := none }
  | _, _, _ => .error .EINVAL

/-- Modelled from the spec: `prom_metric_add_counter` of `metric.c`, which is not
in the sources: "attaches a sub-definition; fails with an invalid-argument
error if `help` is empty or a sub-definition of that kind already exists".  The
test suite shows `EINVAL` for a null metric and for a null help text. -/
def prom_metric_add_counter (metric : Option Metric) (suffix help : Option String) :
    Except Errno Metric :=
  match metric, help with
  | some m, some h =>
    if h = "" then .error .EINVAL
    else if m.counter.isSome then .error .EINVAL
    else .ok { m with counter := some { suffix := suffix, help := h, samples := [] } }
  | _, _ => .error .EINVAL

/-- Modelled from the spec: `prom_metric_add_gauge` of `metric.c`, which is not in
the sources; the same rule as for `prom_metric_add_counter`. -/
def prom_metric_add_gauge (metric : Option Metric) (suffix help : Option String) :
    Except Errno Metric :=
  match metric, help with
  | some m, some h =>
    if h = "" then .error .EINVAL
    else if m.gauge.isSome then .error .EINVAL
    else .ok { m with gauge := some { suffix := suffix, help := h, samples := [] } }
  | _, _ => .error .EINVAL

/-- Strictly ascending bucket bounds. -/
def ascendingBounds : List Dec → Bool
  | [] => true
  | [_] => true
  | a :: b :: rest => (a.le b && !(b.le a)) && ascendingBounds (b :: rest)

/-- Modelled from the spec: `prom_metric_add_histogram` of `metric.c`, which is
not in the sources: "same, plus validates strictly ascending bounds (empty
bounds list is legal and defaults to a single +Infinity bucket)".  The bounds
stand for the bucket count and the variadic bounds of the C call. -/
def prom_metric_add_histogram (metric : Option Metric) (suffix help : Option String)
    (bounds : List Dec) : Except Errno Metric :=
  match metric, help with
  | some m, some h =>
    if h = "" then .error .EINVAL
    else if m.histogram.isSome then .error .EINVAL
    else if ascendingBounds bounds = false then .error .EINVAL
    else .ok { m with
      histogram := some { suffix := suffix, help := h, bounds := bounds, rows := [] } }
  | _, _ => .error .EINVAL

/-- The metric as it is after an API call: a failed call leaves it as it was. -/
def metricAfter (m : Metric) (r : Except Errno Metric) : Metric :=
  match r with
  | .ok m2 => m2
  | .error _ => m

/-! ## Recording samples -/

/-- Adds `val` to the sample of a counter or gauge under a key, creating the
sample at zero when there is none. -/
def SubDef.addSample (key : Labels) (val : Dec) (d : SubDef) : SubDef :=
  { d with samples := d.samples.upsert key (Dec.ofNat 0) (fun v => v.add val) }

/-- Subtracts `val` from the sample of a gauge under a key. -/
def SubDef.subSample (key : Labels) (val : Dec) (d : SubDef) : SubDef :=
  { d with samples := d.samples.upsert key (Dec.ofNat 0) (fun v => v.sub val) }

/-- Overwrites the sample of a gauge under a key. -/
def SubDef.setSample (key : Labels) (val : Dec) (d : SubDef) : SubDef :=
  { d with samples := d.samples.upsert key (Dec.ofNat 0) (fun _ => val) }

/-- Modelled from the spec: `prom_metric_incr` of `metric.c`, which is not in the
sources: "routes to the Counter or Gauge sub-store depending on which is
defined; fails with a not-permitted error if neither Counter nor Gauge is
defined ... If both Counter and Gauge are defined, `increment` must update
both."  `val` is the `uint32_t` amount. -/
def prom_metric_incr (p : Option Pool) (metric : Option Metric) (val : Nat)
    (labels : Option Labels) : Except Errno Metric :=
  match p, metric with
  | some _, some m =>
    if m.counter.isNone && m.gauge.isNone then .error .EPERM
    else .ok { m with
      counter := m.counter.map (SubDef.addSample (labelKey labels) (Dec.ofNat val))
      gauge := m.gauge.map (SubDef.addSample (labelKey labels) (Dec.ofNat val)) }
  | _, _ => .error .EINVAL

/-- Modelled from the spec: `prom_metric_decr` of `metric.c`, which is not in the
sources: a decrement needs the signed semantics of a gauge, and is not
permitted on a metric without one (the test suite: "Failed to handle
gauge-less metric").  The value is not clamped at zero. -/
def prom_metric_decr (p : Option Pool) (metric : Option Metric) (val : Nat)
    (labels : Option Labels) : Except Errno Metric :=
  match p, metric with
  | some _, some m =>
    if m.gauge.isNone then .error .EPERM
    else .ok { m with
      gauge := m.gauge.map (SubDef.subSample (labelKey labels) (Dec.ofNat val)) }
  | _, _ => .error .EINVAL

/-- Modelled from the spec: `prom_metric_set` of `metric.c`, which is not in the
sources: "sets the Gauge sub-store's value for the given LabelSet; fails
not-permitted if no Gauge is defined". -/
def prom_metric_set (p : Option Pool) (metric : Option Metric) (val : Nat)
    (labels : Option Labels) : Except Errno Metric :=
  match p, metric with
  | some _, some m =>
    if m.gauge.isNone then .error .EPERM
    else .ok { m with
      gauge := m.gauge.map (SubDef.setSample (labelKey labels) (Dec.ofNat val)) }
  | _, _ => .error .EINVAL

/-- The row of a label set that has no observation yet. -/
def zeroRow (bounds : List Dec) : HistRow :=
  { buckets := bounds.map (fun _ => Dec.ofNat 0), inf := Dec.ofNat 0, count := Dec.ofNat 0,
    sum := Dec.ofNat 0 }

/-- Adds one to the count of every bucket whose bound is at least `v`. -/
def bumpBuckets (v : Dec) : List Dec → List Dec → List Dec
  | b :: bs, c :: cs => (if v.le b then c.add (Dec.ofNat 1) else c) :: bumpBuckets v bs cs
  | _, _ => []

/-- One observation recorded in the row of its label set. -/
def observeRow (bounds : List Dec) (v : Dec) (r : HistRow) : HistRow :=
  { buckets := bumpBuckets v bounds r.buckets, inf := r.inf.add (Dec.ofNat 1),
    count := r.count.add (Dec.ofNat 1), sum := r.sum.add v }

/-- Records an observation under a key in a histogram. -/
def HistDef.observe (key : Labels) (v : Dec) (h : HistDef) : HistDef :=
  { h with rows := h.rows.upsert key (zeroRow h.bounds) (observeRow h.bounds v) }

/-- Modelled from the spec: `prom_metric_observe` of `metric.c`, which is not in
the sources: "records one histogram observation — increments every bucket whose
bound ≥ `value` (and the +Infinity bucket always), increments the count, and
adds `value` to the sum, all keyed by `labels`.  Fails not-permitted if no
Histogram is defined." -/
def prom_metric_observe (p : Option Pool) (metric : Option Metric) (val : Dec)
    (labels : Option Labels) : Except Errno Metric :=
  match p, metric with
  | some _, some m =>
    if m.histogram.isNone then .error .EPERM
    else .ok { m with histogram := m.histogram.map (HistDef.observe (labelKey labels) val) }
  | _, _ => .error .EINVAL

/-! ## Reading samples -/

/-- The result arrays of `prom_metric_get`: the samples, and for a histogram the
parallel count and sum series (the out-parameters stay null otherwise). -/
structure Samples where
  results : List (Labels × Dec)
  counts : Option (List (Labels × Dec))
  sums : Option (List (Labels × Dec))
deriving DecidableEq, Repr

/-- The `nelts` of a result array: every sample takes two array elements, its
value and its label text (the test suite expects 2 after one sample and 4 after
two). -/
def nelts (a : List (Labels × Dec)) : Nat := 2 * a.length

/-- The bucket samples of one histogram row: one per bound in ascending order,
then the `+Inf` bucket; the `le` label is put among the row's labels at its
place in the lexical order. -/
def bucketEntries (bounds : List Dec) (key : Labels) (r : HistRow) : List (Labels × Dec) :=
  (List.zipWith (fun b c => (insertLabel ("le", b.text) key, c)) bounds r.buckets) ++
    [(insertLabel ("le", "+Inf") key, r.inf)]

/-- The bucket samples of all rows of a histogram. -/
def allBucketEntries (bounds : List Dec) : Table HistRow → List (Labels × Dec)
  | [] => []
  | (k, r) :: rest => bucketEntries bounds k r ++ allBucketEntries bounds rest

/-- Modelled from the spec: `prom_metric_get` of `metric.c`, which is not in the
sources: "returns the raw (LabelSet, value) pairs for the requested kind ...;
for histograms, also returns parallel per-LabelSet count and sum series";
"on a kind with no sub-definition fails `NotPermitted`; on a kind with a
sub-definition but zero recorded samples returns an empty result, not an
error"; an unknown kind is an invalid argument. -/
def prom_metric_get (p : Option Pool) (metric : Option Metric) (metric_type : Int) :
    Except Errno Samples :=
  match p, metric with
  | some _, some m =>
    if metric_type = PROM_METRIC_TYPE_COUNTER then
      match m.counter with
      | none => .error .EPERM
      | some c => .ok { results := c.samples, counts := none, sums := none }
    else if metric_type = PROM_METRIC_TYPE_GAUGE then
      match m.gauge with
      | none => .error .EPERM
      | some g => .ok { results := g.samples, counts := none, sums := none }
    else if metric_type = PROM_METRIC_TYPE_HISTOGRAM then
      match m.histogram with
      | none => .error .EPERM
      | some h => .ok
        { results := allBucketEntries h.bounds h.rows
          counts := some (h.rows.map (fun kr => (kr.1, kr.2.count)))
          sums := some (h.rows.map (fun kr => (kr.1, kr.2.sum))) }
    else .error .EINVAL
  | _, _ => .error .EINVAL

/-! ## Text exposition -/

/-- The exposition name `namespace_name[_suffix]`. -/
def fullName (ns name : String) (suffix : Option String) : String :=
  ns ++ "_" ++ name ++ (match suffix with
    | none => ""
    | some s => "_" ++ s)

/-- One sample line, `name{labels} value`, or `name value` for the empty
label set. -/
def sampleLine (full : String) (kv : Labels × Dec) : String :=
  full ++ labelsText kv.1 ++ " " ++ kv.2.text

/-- The `# HELP` and `# TYPE` lines of a sub-definition. -/
def headLines (full help kind : String) : List String :=
  ["# HELP " ++ full ++ " " ++ help, "# TYPE " ++ full ++ " " ++ kind]

/-- The lines of a counter (`kind` "counter") or gauge (`kind` "gauge"). -/
def subDefLines (ns name kind : String) (d : SubDef) : List String :=
  headLines (fullName ns name d.suffix) d.help kind ++
    d.samples.map (sampleLine (fullName ns name d.suffix))

/-- The lines of one histogram row: its bucket lines, then `_count` and
`_sum`. -/
def histRowLines (full : String) (bounds : List Dec) (kr : Labels × HistRow) : List String :=
  (bucketEntries bounds kr.1 kr.2).map (sampleLine (full ++ "_bucket")) ++
    [sampleLine (full ++ "_count") (kr.1, kr.2.count),
     sampleLine (full ++ "_sum") (kr.1, kr.2.sum)]

/-- The lines of the rows of a histogram, label set after label set. -/
def histRowsLines (full : String) (bounds : List Dec) : Table HistRow → List String
  | [] => []
  | kr :: rest => histRowLines full bounds kr ++ histRowsLines full bounds rest

/-- The lines of a histogram. -/
def histLines (ns name : String) (h : HistDef) : List String :=
  headLines (fullName ns name h.suffix) h.help "histogram" ++
    histRowsLines (fullName ns name h.suffix) h.bounds h.rows

/-- The lines of a sub-definition that may be missing. -/
def optLines {α : Type} (f : α → List String) : Option α → List String
  | none => []
  | some a => f a

/-- The lines of a metric: counter, gauge, histogram. -/
def metricLines (ns : String) (m : Metric) : List String :=
  optLines (subDefLines ns m.name "counter") m.counter ++
    optLines (subDefLines ns m.name "gauge") m.gauge ++
    optLines (histLines ns m.name) m.histogram

/-- Every line followed by a newline. -/
def joinLines : List String → String
  | [] => ""
  | l :: rest => l ++ "\n" ++ joinLines rest

/-- Modelled from the spec: `prom_metric_get_text` of `metric.c`, which is not in
the sources: "produces the full exposition block for this metric (HELP/TYPE
lines per sub-definition, then one sample line per LabelSet, label-less series
first ...)".  The length out-parameter is the length of the text. -/
def prom_metric_get_text (p : Option Pool) (metric : Option Metric)
    (registry_name : Option String) : Except Errno String :=
  match p, metric, registry_name with
  | some _, some m, some ns => .ok (joinLines (metricLines ns m))
  | _, _, _ => .error .EINVAL

/-! ## Registry -/

/-- Modelled from the spec: `struct prom_registry` of `registry.c`, which is not
in the sources: "a namespace string ... plus a mapping from metric name to
Metric (names unique, case-sensitive)".  The metrics are kept in the order of
their registration. -/
structure Registry where
  name : String
  metrics : List Metric
deriving DecidableEq, Repr

/-- Modelled from the spec: `prom_registry_init` of `registry.c`, which is not in
the sources. -/
def prom_registry_init (p : Option Pool) (name : Option String) : Except Errno Registry :=
  match p, name with
  | some _, some n => .ok { name := n, metrics := [] }
  | _, _ => .error .EINVAL

/-- The first metric of a list that has the name. -/
def findMetric (name : String) : List Metric → Option Metric
  | [] => none
  | m :: rest => if m.name = name then some m else findMetric name rest

/-- Modelled from the spec: `prom_registry_get_metric` of `registry.c`, which is
not in the sources: "returns the Metric or a not-found indication". -/
def prom_registry_get_metric (registry : Option Registry) (name : Option String) :
    Except Errno Metric :=
  match registry, name with
  | some r, some n =>
    match findMetric n r.metrics with
    | some m => .ok m
    | none => .error .ENOENT
  | _, _ => .error .EINVAL

/-- Modelled from the spec: `prom_registry_add_metric` of `registry.c`, which is
not in the sources: "adds a Metric under its name; fails already-exists if the
name is taken". -/
def prom_registry_add_metric (registry : Option Registry) (metric : Option Metric) :
    Except Errno Registry :=
  match registry, metric with
  | some r, some m =>
    match findMetric m.name r.metrics with
    | some _ => .error .EEXIST
    | none => .ok { r with metrics := r.metrics ++ [m] }
  | _, _ => .error .EINVAL

/-- The registry as it is after a registration: a failed call leaves it as it
was. -/
def registryAfter (r : Registry) (res : Except Errno Registry) : Registry :=
  match res with
  | .ok r2 => r2
  | .error _ => r

/-- The number of metrics registered. -/
def Registry.count (r : Registry) : Nat := r.metrics.length

/-! ## Looking at a metric -/

/-- The counter sample stored under a key. -/
def Metric.counterValue (m : Metric) (key : Labels) : Option Dec :=
  m.counter.bind (fun c => c.samples.get key)

/-- The gauge sample stored under a key. -/
def Metric.gaugeValue (m : Metric) (key : Labels) : Option Dec :=
  m.gauge.bind (fun g => g.samples.get key)

/-- The histogram row stored under a key. -/
def Metric.histRow (m : Metric) (key : Labels) : Option HistRow :=
  m.histogram.bind (fun h => h.rows.get key)

/-- A sequence of `prom_metric_incr` calls, each with its amount and labels,
stopping at the first call that fails. -/
def incrMany : Metric → List (Nat × Option Labels) → Except Errno Metric
  | m, [] => .ok m
  | m, (n, labels) :: rest =>
    match prom_metric_incr (some ()) (some m) n labels with
    | .ok m2 => incrMany m2 rest
    | .error e => .error e

/-- A sequence of `prom_metric_observe` calls, each with its value and labels,
stopping at the first call that fails. -/
def observeMany : Metric → List (Dec × Option Labels) → Except Errno Metric
  | m, [] => .ok m
  | m, (v, labels) :: rest =>
    match prom_metric_observe (some ()) (some m) v labels with
    | .ok m2 => observeMany m2 rest
    | .error e => .error e

/-- The number of distinct label sets among the labels arguments of a sequence
of calls. -/
def distinctLabelSets (calls : List (Option Labels)) : Nat :=
  ((calls.map labelKey).dedup).length

/-- The number of elements of the result array of a `prom_metric_get` call, when
it succeeds. -/
def resultNelts (r : Except Errno Samples) : Option Nat :=
  match r with
  | .ok s => some (nelts s.results)
  | .error _ => none

/-! ## The scenarios of the test suite -/

/-- The labels of the test suite, in the order of its `pr_table_add_dup` calls. -/
def testLabels : Labels := [("protocol", "ftp"), ("foo", "BAR")]

/-- The metric of `metric_get_text_test` after its calls: a counter `total`, a
gauge `count` and a histogram `weight` without bounds are attached to the
metric `test`; it is incremented by 6 without labels and by 8 under the test
labels, and 76.42 is observed under the test labels. -/
def textTestMetric : Except Errno Metric := do
  let m0 ← prom_metric_create (some ()) (some "test") (some 1)
  let m1 ← prom_metric_add_counter (some m0) (some "total") (some "counter testing")
  let m2 ← prom_metric_add_gauge (some m1) (some "count") (some "gauge testing")
  let m3 ← prom_metric_add_histogram (some m2) (some "weight") (some "histogram testing") []
  let m4 ← prom_metric_incr (some ()) (some m3) 6 none
  let m5 ← prom_metric_incr (some ()) (some m4) 8 (some testLabels)
  prom_metric_observe (some ()) (some m5) ⟨7642, 2⟩ (some testLabels)

/-- The text `metric_get_text_test` obtains under the namespace `prt`. -/
def textTestText : Except Errno String := do
  let m ← textTestMetric
  prom_metric_get_text (some ()) (some m) (some "prt")

/-! ## The metrics datastore (`metric/db.c`) -/

/-- The column types of the schema statements. -/
inductive SqlType where
  | INTEGER
  | TEXT
  | FLOAT
deriving DecidableEq, Repr

/-- A column definition of a `CREATE TABLE` statement with its constraints. -/
structure Column where
  name : String
  type : SqlType
  notNull : Bool
  primaryKey : Bool
  unique : Bool
deriving DecidableEq, Repr

/-- A value stored in a column. -/
inductive SqlValue where
  | null
  | int (i : Int)
  | text (s : String)
  | real (d : Dec)
deriving DecidableEq, Repr

/-- A table of the database: its name, its columns and its rows. -/
structure SqlTable where
  name : String
  columns : List Column
  rows : List (List SqlValue)
deriving DecidableEq, Repr

/-- The database as the collection of its tables with their rows. -/
abbrev Database := List SqlTable

/-- The table of a name, if the database has one. -/
def Database.table : Database → String → Option SqlTable
  | [], _ => none
  | t :: rest, name => if t.name = name then some t else Database.table rest name

/-- The statements `metric/db.c` hands to the SQL engine. -/
inductive Stmt where
  | createTableIfNotExists (name : String) (columns : List Column)
deriving DecidableEq, Repr

/-- The SQL keyword of a column type. -/
def SqlType.sql : SqlType → String
  | .INTEGER => "INTEGER"
  | .TEXT => "TEXT"
  | .FLOAT => "FLOAT"

/-- The SQL text of a column definition. -/
def Column.sql (c : Column) : String :=
  c.name ++ " " ++ c.type.sql ++ (if c.notNull then " NOT NULL" else "") ++
    (if c.primaryKey then " PRIMARY KEY" else "") ++ (if c.unique then " UNIQUE" else "")

/-- Joins texts with a comma and a blank. -/
def commaBlankJoin : List String → String
  | [] => ""
  | [a] => a
  | a :: b :: rest => a ++ ", " ++ commaBlankJoin (b :: rest)

/-- The SQL text of a statement. -/
def Stmt.sql : Stmt → String
  | .createTableIfNotExists name columns =>
    "CREATE TABLE IF NOT EXISTS " ++ name ++ " (" ++ commaBlankJoin (columns.map Column.sql) ++ ");"

/-- The first statement of `metrics_db_add_schema`, as the text in the source. -/
def samplesSql : String :=
  "CREATE TABLE IF NOT EXISTS samples (sample_id INTEGER NOT NULL PRIMARY KEY, metric_id INTEGER NOT NULL, sample_value FLOAT NOT NULL);"

/-- The second statement of `metrics_db_add_schema`, as the text in the source. -/
def metricsSql : String :=
  "CREATE TABLE IF NOT EXISTS metrics (metric_id INTEGER NOT NULL PRIMARY KEY, metric_name TEXT NOT NULL, metric_labels TEXT);"

/-- The statement `samplesSql` says. -/
def samplesStmt : Stmt :=
  .createTableIfNotExists "samples"
    [{ name := "sample_id", type := .INTEGER, notNull := true, primaryKey := true,
       unique := false },
     { name := "metric_id", type := .INTEGER, notNull := true, primaryKey := false,
       unique := false },
     { name := "sample_value", type := .FLOAT, notNull := true, primaryKey := false,
       unique := false }]

/-- The statement `metricsSql` says. -/
def metricsStmt : Stmt :=
  .createTableIfNotExists "metrics"
    [{ name := "metric_id", type := .INTEGER, notNull := true, primaryKey := true,
       unique := false },
     { name := "metric_name", type := .TEXT, notNull := true, primaryKey := false,
       unique := false },
     { name := "metric_labels", type := .TEXT, notNull := false, primaryKey := false,
       unique := false }]

/-- What the environment decides for the calls of `metric/db.c` into the
database layer `db.c`, which is not in the sources: whether opening fails and
with which `errno`, the handle it returns otherwise, whether the engine fails
on the first or on the second schema statement, whether truncating or closing
fails and with which `errno`. -/
structure DbEnv where
  open_errno : Option Errno
  handle : Dbh
  samples_fails : Bool
  metrics_fails : Bool
  truncate_errno : Option Errno
  close_errno : Option Errno
deriving DecidableEq, Repr

/-- An environment in which no call into the database layer fails. -/
def DbEnv.healthy (handle : Dbh) : DbEnv :=
  { open_errno := none, handle := handle, samples_fails := false, metrics_fails := false,
    truncate_errno := none, close_errno := none }

/-- The database with a table of the given name: as it is when it has one,
with a new table without rows added otherwise. -/
def ensureTable (db : Database) (name : String) (columns : List Column) : Database :=
  match db.table name with
  | some _ => db
  | none => db ++ [{ name := name, columns := columns, rows := [] }]

/-- Modelled from the spec: `prom_db_exec_stmt` of `db.c`, which is not in the
sources, runs a statement on the SQL engine.  `CREATE TABLE IF NOT EXISTS`
creates the table without rows when the database has no table of that name
and does nothing otherwise ("no-op if already present"); a statement on which
the engine fails changes nothing. -/
def prom_db_exec_stmt (engine_fails : Bool) (db : Database) : Stmt → Except String Database
  | .createTableIfNotExists name columns =>
    if engine_fails then .error "error executing statement"
    else .ok (ensureTable db name columns)

/-- The schema creation `metrics_db_add_schema` of `metric/db.c`: the two
statements in turn; a failing statement ends it with `errno = EPERM` and
`-1`.  The result comes with the database as the call leaves it. -/
def metrics_db_add_schema (env : DbEnv) (db : Database) : Except Errno Unit × Database :=
  match prom_db_exec_stmt env.samples_fails db samplesStmt with
  | .error _ => (.error .EPERM, db)
  | .ok db1 =>
    match prom_db_exec_stmt env.metrics_fails db1 metricsStmt with
    | .error _ => (.error .EPERM, db1)
    | .ok db2 => (.ok (), db2)

/-- Whether a column takes a value: a `NOT NULL` column takes no null. -/
def Column.takes (c : Column) (v : SqlValue) : Bool :=
  !(c.notNull && v == SqlValue.null)

/-- Whether a row has one value per column and every column takes its value. -/
def rowFits : List Column → List SqlValue → Bool
  | [], [] => true
  | c :: cs, v :: vs => c.takes v && rowFits cs vs
  | _, _ => false

/-- Whether a new row repeats, in a `PRIMARY KEY` or `UNIQUE` column, the value
of an old row that is not null. -/
def keyClash : List Column → List SqlValue → List SqlValue → Bool
  | c :: cs, v :: vs, w :: ws =>
    ((c.primaryKey || c.unique) && v != SqlValue.null && v == w) || keyClash cs vs ws
  | _, _, _ => false

/-- Whether a column is an alias of the rowid: SQLite makes the column declared
`INTEGER PRIMARY KEY` one, also when it is declared `NOT NULL`. -/
def Column.isRowid (c : Column) : Bool :=
  decide (c.type = .INTEGER) && c.primaryKey

/-- The rowid of a stored row: the integer in its rowid column. -/
def rowidOf : List Column → List SqlValue → Option Int
  | c :: cs, v :: vs =>
    if c.isRowid then
      match v with
      | .int i => some i
      | _ => none
    else rowidOf cs vs
  | _, _ => none

/-- The rowid SQLite chooses for a new row that gives none: 1 in a table without
rows, else one more than the largest rowid in use.  (At the largest rowid
`2 ^ 63 - 1` SQLite tries unused rowids at random; the model does not follow
that case.) -/
def SqlTable.nextRowid (t : SqlTable) : Int :=
  match t.rows.filterMap (rowidOf t.columns) with
  | [] => 1
  | i :: rest => rest.foldl max i + 1

/-- The white space SQLite skips around the text of a number. -/
def sqlIsspace (c : Char) : Bool :=
  c = ' ' || c = '\t' || c = '\n' || c = '\r' || c.toNat = 11 || c.toNat = 12

/-- The value of a sequence of decimal digits, after the digits read so far. -/
def digitsValue : Nat → List Char → Nat
  | acc, [] => acc
  | acc, c :: rest => digitsValue (acc * 10 + (c.toNat - 48)) rest

/-- A sign at the head of a text, and the text after it. -/
def takeSign : List Char → Bool × List Char
  | '-' :: rest => (true, rest)
  | '+' :: rest => (false, rest)
  | rest => (false, rest)

/-- The fraction digits at the head of a text, after a decimal point if there
is one, and the text after them. -/
def takeFraction : List Char → List Char × List Char
  | '.' :: rest => (rest.takeWhile Char.isDigit, rest.dropWhile Char.isDigit)
  | rest => ([], rest)

/-- The exponent at the head of a text, 0 if there is none, and the text after
it; `none` for an `e` or `E` that no digit follows. -/
def takeExponent : List Char → Option (Int × List Char)
  | [] => some (0, [])
  | c :: rest =>
    if c = 'e' ∨ c = 'E' then
      if ((takeSign rest).2.takeWhile Char.isDigit).isEmpty then none
      else
        some ((if (takeSign rest).1 then -1 else 1) *
            ((digitsValue 0 ((takeSign rest).2.takeWhile Char.isDigit) : Nat) : Int),
          (takeSign rest).2.dropWhile Char.isDigit)
    else some (0, c :: rest)

/-- The number a text is for SQLite, if the whole text is one: white space, a
sign, digits, a decimal point with digits, an exponent and white space, with
at least one digit before the exponent.  The value is taken exactly, where
SQLite rounds a number with a fraction or an exponent to a `double`. -/
def numericText (s : List Char) : Option Dec :=
  let signed := takeSign (s.dropWhile sqlIsspace)
  let whole := signed.2.takeWhile Char.isDigit
  let frac := takeFraction (signed.2.dropWhile Char.isDigit)
  match takeExponent frac.2 with
  | none => none
  | some (e, rest) =>
    if (whole ++ frac.1).isEmpty || !(rest.dropWhile sqlIsspace).isEmpty then none
    else
      let mant : Int :=
        (if signed.1 then -1 else 1) * ((digitsValue 0 (whole ++ frac.1) : Nat) : Int)
      if e - (frac.1.length : Int) ≥ 0 then
        some ⟨mant * ((10 ^ (e - (frac.1.length : Int)).toNat : Nat) : Int), 0⟩
      else some ⟨mant, ((frac.1.length : Int) - e).toNat⟩

/-- The 64-bit integer a decimal equals, if it is one. -/
def Dec.toInt64 (d : Dec) : Option Int :=
  if d.mant % ((10 ^ d.scale : Nat) : Int) = 0
      ∧ -(2 ^ 63) ≤ d.mant / ((10 ^ d.scale : Nat) : Int)
      ∧ d.mant / ((10 ^ d.scale : Nat) : Int) ≤ 2 ^ 63 - 1 then
    some (d.mant / ((10 ^ d.scale : Nat) : Int))
  else none

/-- The value a column stores for a value of an `INSERT`.  The rowid column
stores integers only: a null becomes the next rowid, a real number and the
text of a number become the integer they equal, and any other value is refused
(`datatype mismatch`).  The other columns store the value as it is given; the
conversions of their column affinity are not modelled. -/
def Column.stored (c : Column) (next : Int) (v : SqlValue) : Option SqlValue :=
  if c.isRowid then
    match v with
    | .null => some (.int next)
    | .int i => some (.int i)
    | .real d => d.toInt64.map SqlValue.int
    | .text s => ((numericText s.data).bind Dec.toInt64).map SqlValue.int
  else some v

/-- The row a table stores for the values of an `INSERT`, one value per
column; `none` when a value is refused or the number of values is not the
number of columns. -/
def storedRow (next : Int) : List Column → List SqlValue → Option (List SqlValue)
  | [], [] => some []
  | c :: cs, v :: vs =>
    match c.stored next v, storedRow next cs vs with
    | some w, some ws => some (w :: ws)
    | _, _ => none
  | _, _ => none

/-- The SQL engine's `INSERT` of a full row into a table.  The rowid column
gets its integer first; the row is refused when a value does not fit its
column, here reported as `EINVAL`, or when it clashes with a stored row on a
key, here reported as `EEXIST`. -/
def SqlTable.insert (t : SqlTable) (row : List SqlValue) : Except Errno SqlTable :=
  match storedRow t.nextRowid t.columns row with
  | none => .error .EINVAL
  | some stored =>
    if rowFits t.columns stored = false then .error .EINVAL
    else if t.rows.any (fun old => keyClash t.columns stored old) then .error .EEXIST
    else .ok { t with rows := t.rows ++ [stored] }

/-- The files of the tables directory: the database stored under each path. -/
abbrev Disk := List (String × Database)

/-- The database stored under a path, if there is a file. -/
def Disk.read : Disk → String → Option Database
  | [], _ => none
  | (p, db) :: rest, path => if p = path then some db else Disk.read rest path

/-- Stores a database under a path, replacing what was there. -/
def Disk.write : Disk → String → Database → Disk
  | [], path, db => [(path, db)]
  | (p, old) :: rest, path, db =>
    if p = path then (p, db) :: rest else (p, old) :: Disk.write rest path db

/-- The path concatenation `pdircat` of ProFTPD for one directory and one file
name: a slash between the two unless the directory ends in one; a null
directory ends the argument list and yields the empty path. -/
def pdircat (dir : Option String) (file : String) : String :=
  match dir with
  | none => ""
  | some d => if d.data.getLast? = some '/' then d ++ file else d ++ "/" ++ file

/-- The flags of `prom_db_open_with_version`, declared in `db.h`, which is not
in the sources; a flag word is modelled as the list of the flags set. -/
inductive OpenFlag where
  | SCHEMA_VERSION_CHECK
  | INTEGRITY_CHECK
  | VACUUM
  | SKIP_VACUUM
deriving DecidableEq, Repr

/-- What a call of `metric/db.c` leaves: the handle it returns (none for
`NULL`), the `errno` it sets when it fails, the files, the flags it opened
with and the handles it closed. -/
structure DbOutcome where
  dbh : Option Dbh
  errno : Option Errno
  disk : Disk
  db_flags : List OpenFlag
  closed : List Dbh
deriving DecidableEq, Repr

/-- Modelled from the spec: `prom_db_open_with_version` of `db.c`, which is not
in the sources: "opens or creates the backing store at `path`; `flags` select
integrity verification, schema-version check, and space reclamation; returns a
handle or fails with a storage error".  A new store has no tables; opening
changes no row. -/
def prom_db_open_with_version (env : DbEnv) (file : Option Database) :
    Except Errno (Dbh × Database) :=
  match env.open_errno with
  | some e => .error e
  | none => .ok (env.handle, file.getD [])

/-- Modelled from the spec: `reverse_db_truncate_tables`, which
`prom_metric_db_init` calls and which is defined nowhere in the sources; by
its name and by the spec's "truncate" maintenance step, which "resets all
sample rows to zero state", it removes the rows of the tables. -/
def reverse_db_truncate_tables (env : DbEnv) (db : Database) : Except Errno Unit × Database :=
  match env.truncate_errno with
  | some e => (.error e, db)
  | none => (.ok (), db.map (fun t => { t with rows := [] }))

/-- The call `prom_metric_db_open` of `metric/db.c`: opens `metrics.db` under
the tables path without flags and returns the handle, or `NULL` with the
`errno` of the failed opening. -/
def prom_metric_db_open (env : DbEnv) (tables_path : Option String) (disk : Disk) :
    DbOutcome :=
  match prom_db_open_with_version env (disk.read (pdircat tables_path "metrics.db")) with
  | .error e => { dbh := none, errno := some e, disk := disk, db_flags := [], closed := [] }
  | .ok (h, db) =>
    { dbh := some h, errno := none, disk := disk.write (pdircat tables_path "metrics.db") db,
      db_flags := [], closed := [] }

/-- The call `prom_metric_db_init` of `metric/db.c`: refuses a null tables path
with `EINVAL`; opens `metrics.db` with the version check, the integrity check
and, unless the caller passes `SKIP_VACUUM`, the vacuum; creates the schema;
calls `reverse_db_truncate_tables`, whatever the flags; a failure of the
schema or of the truncation closes the handle and reports the `errno` of the
failed step. -/
def prom_metric_db_init (env : DbEnv) (tables_path : Option String) (flags : List OpenFlag)
    (disk : Disk) : DbOutcome :=
  match tables_path with
  | none => { dbh := none, errno := some .EINVAL, disk := disk, db_flags := [], closed := [] }
  | some dir =>
    let db_path := pdircat (some dir) "metrics.db"
    let db_flags :=
      if OpenFlag.SKIP_VACUUM ∈ flags then
        [OpenFlag.SCHEMA_VERSION_CHECK, OpenFlag.INTEGRITY_CHECK]
      else [OpenFlag.SCHEMA_VERSION_CHECK, OpenFlag.INTEGRITY_CHECK, OpenFlag.VACUUM]
    match prom_db_open_with_version env (disk.read db_path) with
    | .error e =>
      { dbh := none, errno := some e, disk := disk, db_flags := db_flags, closed := [] }
    | .ok (h, db) =>
      match metrics_db_add_schema env db with
      | (.error e, db1) =>
        { dbh := none, errno := some e, disk := disk.write db_path db1, db_flags := db_flags,
          closed := [h] }
      | (.ok _, db2) =>
        match reverse_db_truncate_tables env db2 with
        | (.error e, db3) =>
          { dbh := none, errno := some e, disk := disk.write db_path db3, db_flags := db_flags,
            closed := [h] }
        | (.ok _, db3) =>
          { dbh := some h, errno := none, disk := disk.write db_path db3,
            db_flags := db_flags, closed := [] }

/-- The sample rows stored under a tables path. -/
def sampleRows (disk : Disk) (tables_path : String) : List (List SqlValue) :=
  match disk.read (pdircat (some tables_path) "metrics.db") with
  | none => []
  | some db =>
    match db.table "samples" with
    | none => []
    | some t => t.rows

/-- A tables directory whose store holds two metrics and two recorded samples,
5 and 76.42. -/
def recordedDisk : Disk :=
  [("/var/proftpd/prometheus/metrics.db",
    [{ name := "samples",
       columns :=
         [{ name := "sample_id", type := .INTEGER, notNull := true, primaryKey := true,
            unique := false },
          { name := "metric_id", type := .INTEGER, notNull := true, primaryKey := false,
            unique := false },
          { name := "sample_value", type := .FLOAT, notNull := true, primaryKey := false,
            unique := false }],
       rows := [[.int 1, .int 1, .real ⟨5, 0⟩], [.int 2, .int 2, .real ⟨7642, 2⟩]] },
     { name := "metrics",
       columns :=
         [{ name := "metric_id", type := .INTEGER, notNull := true, primaryKey := true,
            unique := false },
          { name := "metric_name", type := .TEXT, notNull := true, primaryKey := false,
            unique := false },
          { name := "metric_labels", type := .TEXT, notNull := false, primaryKey := false,
            unique := false }],
       rows := [[.int 1, .text "session", .null], [.int 2, .text "login", .null]] }])]

/-- The SQL engine's `INSERT` of several rows, one after the other, stopping at
the first row that is refused. -/
def SqlTable.insertAll (t : SqlTable) : List (List SqlValue) → Except Errno SqlTable
  | [] => .ok t
  | row :: rest =>
    match t.insert row with
    | .error e => .error e
    | .ok t1 => SqlTable.insertAll t1 rest

/-- The table of the given name in the schema that `metrics_db_add_schema`
creates in an empty database on an engine that fails on no statement. -/
def createdTable (name : String) : Option SqlTable :=
  Database.table (metrics_db_add_schema (DbEnv.healthy 1) []).2 name

/-! ## The module: file-scope variables and the session -/

/-- The file-scope variables of `mod_prometheus.c`.  A `pid_t`, a `time_t` and
an `off_t` are integers; a pointer is an optional value. -/
structure Module where
  prometheus_logfd : Int
  prometheus_engine : Bool
  prometheus_opts : Nat
  prometheus_tables_dir : Option String
  prometheus_dbh : Option Dbh
  prometheus_registry : Option Registry
  prometheus_exporter_http : Option Nat
  prometheus_exporter_pid : Int
  prometheus_exporter_timeout : Int
  prometheus_retr_bytes : Int
  prometheus_stor_bytes : Int
deriving DecidableEq, Repr

/-- The initialisers of the file-scope variables. -/
def Module.initial : Module :=
  { prometheus_logfd := -1
    prometheus_engine := false
    prometheus_opts := 0
    prometheus_tables_dir := none
    prometheus_dbh := none
    prometheus_registry := none
    prometheus_exporter_http := none
    prometheus_exporter_pid := 0
    prometheus_exporter_timeout := 1
    prometheus_retr_bytes := 0
    prometheus_stor_bytes := 0 }

/-- What the module reads of ProFTPD's `session`: the pool, the protocol that
`pr_session_get_protocol(0)` reports, the byte count `session.xfer.total_bytes`
of the finished transfer, the notes table, the process environment that
`pr_env_get` reads, and the disconnect reason. -/
structure Session where
  pool : Option Pool
  protocol : String
  total_bytes : Int
  notes : List (String × String)
  environ : List (String × String)
  disconnect_reason : Int
deriving DecidableEq, Repr

/-- What a command handler returns to the dispatcher (`MODRET`). -/
inductive ModRet where
  | DECLINED
  | HANDLED
  | ERROR
deriving DecidableEq, Repr

/-- The two metric operations the module calls. -/
inductive MetricOp where
  | incr
  | decr
deriving DecidableEq, Repr

/-- A call of `prom_metric_incr` or `prom_metric_decr`: the metric it is made on,
the amount and the labels. -/
structure MetricCall where
  op : MetricOp
  metric_name : String
  val : Nat
  labels : Labels
deriving DecidableEq, Repr

/-- The two metric operations as the module is linked against them.  `metric.c`
is not in the sources, so the module is modelled over every pair of
operations. -/
structure MetricApi where
  incr : Option Pool → Option Metric → Nat → Option Labels → Except Errno Metric
  decr : Option Pool → Option Metric → Nat → Option Labels → Except Errno Metric

/-- The operations as the metric API of this development defines them. -/
def MetricApi.standard : MetricApi :=
  { incr := prom_metric_incr, decr := prom_metric_decr }

/-- Operations that fail on every call. -/
def MetricApi.failing (e : Errno) : MetricApi :=
  { incr := fun _ _ _ _ => .error e, decr := fun _ _ _ _ => .error e }

/-- The value of a key in a ProFTPD table (`pr_table_get`). -/
def pr_table_get : List (String × String) → String → Option String
  | [], _ => none
  | (k, v) :: rest, key => if k = key then some v else pr_table_get rest key

/-- ProFTPD's `pr_table_add` and `pr_table_add_dup` on a table without multiple
values per key: a key that is present is refused and the table stays as it
is; a new key is added. -/
def pr_table_add (labels : Labels) (key val : String) : Labels :=
  match pr_table_get labels key with
  | some _ => labels
  | none => labels ++ [(key, val)]

/-- The labels every sample of the module carries: the protocol of the
session. -/
def prom_get_labels (s : Session) : Labels :=
  pr_table_add [] "protocol" s.protocol

/-- The registry with the stored state of one metric replaced: the C operations
write through the metric pointer, here the new metric takes the place of the
old one of the same name. -/
def Registry.store (r : Registry) (m : Metric) : Registry :=
  { r with metrics := r.metrics.map (fun x => if x.name = m.name then m else x) }

/-- The module after a metric operation: a successful operation has changed the
stored samples of its metric, a failed one has changed nothing. -/
def Module.record (st : Module) (res : Except Errno Metric) : Module :=
  match res with
  | .ok m => { st with prometheus_registry := st.prometheus_registry.map (fun r => r.store m) }
  | .error _ => st

/-- The operation of the API for an operation tag. -/
def MetricApi.run (api : MetricApi) : MetricOp →
    Option Pool → Option Metric → Nat → Option Labels → Except Errno Metric
  | .incr => api.incr
  | .decr => api.decr

/-- What a command handler leaves: its return value, the metric calls it made,
in order, and the module's variables. -/
structure CmdResult where
  ret : ModRet
  calls : List MetricCall
  st : Module

/-- The block every command handler is made of: the metric is looked up in the
registry; when it is found the operation is called with the amount and the
labels, and its result is dropped; when it is not found only a trace message
is written. -/
def lookupCall (api : MetricApi) (op : MetricOp) (metric_name : String) (val : Nat)
    (labels : Labels) (acc : Module × List MetricCall) : Module × List MetricCall :=
  match prom_registry_get_metric acc.1.prometheus_registry (some metric_name) with
  | .ok metric =>
    (acc.1.record (api.run op (some ()) (some metric) val (some labels)),
      acc.2 ++ [{ op := op, metric_name := metric.name, val := val, labels := labels }])
  | .error _ => acc

/-- The handler's result `PR_DECLINED(cmd)` after its blocks. -/
def declined (acc : Module × List MetricCall) : CmdResult :=
  { ret := .DECLINED, calls := acc.2, st := acc.1 }

/-! ## Command handlers -/

/-- The handler `prom_pre_list`. -/
def prom_pre_list (api : MetricApi) (st : Module) (s : Session) : CmdResult :=
  if st.prometheus_engine = false then { ret := .DECLINED, calls := [], st := st }
  else
    declined (lookupCall api .incr "directory_list" 1 (prom_get_labels s) (st, []))

/-- The handler `prom_log_list`. -/
def prom_log_list (api : MetricApi) (st : Module) (s : Session) : CmdResult :=
  if st.prometheus_engine = false then { ret := .DECLINED, calls := [], st := st }
  else
    declined (lookupCall api .decr "directory_list" 1 (prom_get_labels s) (st, []))

/-- The handler `prom_err_list`. -/
def prom_err_list (api : MetricApi) (st : Module) (s : Session) : CmdResult :=
  if st.prometheus_engine = false then { ret := .DECLINED, calls := [], st := st }
  else
    let labels := prom_get_labels s
    declined (lookupCall api .incr "directory_list_error" 1 labels
      (lookupCall api .decr "directory_list" 1 labels (st, [])))

/-- The handler `prom_pre_user`. -/
def prom_pre_user (api : MetricApi) (st : Module) (s : Session) : CmdResult :=
  if st.prometheus_engine = false then { ret := .DECLINED, calls := [], st := st }
  else
    declined (lookupCall api .incr "login" 1 (prom_get_labels s) (st, []))

/-- The handler `prom_log_pass`. -/
def prom_log_pass (api : MetricApi) (st : Module) (s : Session) : CmdResult :=
  if st.prometheus_engine = false then { ret := .DECLINED, calls := [], st := st }
  else
    declined (lookupCall api .decr "login" 1 (prom_get_labels s) (st, []))

/-- The handler `prom_err_login`. -/
def prom_err_login (api : MetricApi) (st : Module) (s : Session) : CmdResult :=
  if st.prometheus_engine = false then { ret := .DECLINED, calls := [], st := st }
  else
    let labels := prom_get_labels s
    declined (lookupCall api .incr "login_error" 1 labels
      (lookupCall api .decr "login" 1 labels (st, [])))

/-- The handler `prom_pre_retr`. -/
def prom_pre_retr (api : MetricApi) (st : Module) (s : Session) : CmdResult :=
  if st.prometheus_engine = false then { ret := .DECLINED, calls := [], st := st }
  else
    declined (lookupCall api .incr "file_download" 1 (prom_get_labels s) (st, []))

/-- A signed 64-bit value (`off_t`) after an addition that wraps. -/
def wrapOff (x : Int) : Int := (x + 2 ^ 63) % 2 ^ 64 - 2 ^ 63

/-- The conversion of an integer to `uint32_t`. -/
def toUint32 (x : Int) : Nat := (x % 2 ^ 32).toNat

/-- The handler `prom_log_retr`.  The byte bucket is updated only when the metric
`file_download_bytes` is found: the transfer's bytes are added to the bucket,
the quotient by 1024 (C division, narrowed to `uint32_t`) is the amount of the
increment, the remainder stays in the bucket. -/
def prom_log_retr (api : MetricApi) (st : Module) (s : Session) : CmdResult :=
  if st.prometheus_engine = false then { ret := .DECLINED, calls := [], st := st }
  else
    let labels := prom_get_labels s
    let acc := lookupCall api .decr "file_download" 1 labels (st, [])
    match prom_registry_get_metric acc.1.prometheus_registry (some "file_download_bytes") with
    | .ok _ =>
      let bytes := wrapOff (acc.1.prometheus_retr_bytes + s.total_bytes)
      let retr_kb := toUint32 (Int.tdiv bytes 1024)
      let rem_bytes := Int.tmod bytes 1024
      let st1 := { acc.1 with prometheus_retr_bytes := rem_bytes }
      declined (lookupCall api .incr "file_download_bytes" retr_kb labels (st1, acc.2))
    | .error _ => declined acc

/-- The handler `prom_err_retr`. -/
def prom_err_retr (api : MetricApi) (st : Module) (s : Session) : CmdResult :=
  if st.prometheus_engine = false then { ret := .DECLINED, calls := [], st := st }
  else
    let labels := prom_get_labels s
    declined (lookupCall api .incr "file_download_error" 1 labels
      (lookupCall api .decr "file_download" 1 labels (st, [])))

/-- The handler `prom_pre_stor`. -/
def prom_pre_stor (api : MetricApi) (st : Module) (s : Session) : CmdResult :=
  if st.prometheus_engine = false then { ret := .DECLINED, calls := [], st := st }
  else
    declined (lookupCall api .incr "file_upload" 1 (prom_get_labels s) (st, []))

/-- The handler `prom_log_stor`: as `prom_log_retr`, on the metrics `file_upload`
and `file_upload_bytes` and the bucket `prometheus_stor_bytes`. -/
def prom_log_stor (api : MetricApi) (st : Module) (s : Session) : CmdResult :=
  if st.prometheus_engine = false then { ret := .DECLINED, calls := [], st := st }
  else
    let labels := prom_get_labels s
    let acc := lookupCall api .decr "file_upload" 1 labels (st, [])
    match prom_registry_get_metric acc.1.prometheus_registry (some "file_upload_bytes") with
    | .ok _ =>
      let bytes := wrapOff (acc.1.prometheus_stor_bytes + s.total_bytes)
      let stor_kb := toUint32 (Int.tdiv bytes 1024)
      let rem_bytes := Int.tmod bytes 1024
      let st1 := { acc.1 with prometheus_stor_bytes := rem_bytes }
      declined (lookupCall api .incr "file_upload_bytes" stor_kb labels (st1, acc.2))
    | .error _ => declined acc

/-- The handler `prom_err_stor`. -/
def prom_err_stor (api : MetricApi) (st : Module) (s : Session) : CmdResult :=
  if st.prometheus_engine = false then { ret := .DECLINED, calls := [], st := st }
  else
    let labels := prom_get_labels s
    declined (lookupCall api .incr "file_upload_error" 1 labels
      (lookupCall api .decr "file_upload" 1 labels (st, [])))

/-- The TLS protocol version of the session: the note `TLS_PROTOCOL`, and when
there is none the environment variable of that name. -/
def tlsVersion (s : Session) : Option String :=
  match pr_table_get s.notes "TLS_PROTOCOL" with
  | some v => some v
  | none => pr_table_get s.environ "TLS_PROTOCOL"

/-- The handler `prom_log_auth`.  The labels are built only when the metric
`tls_protocol` is found; a known TLS version is added as the label
`version`. -/
def prom_log_auth (api : MetricApi) (st : Module) (s : Session) : CmdResult :=
  if st.prometheus_engine = false then { ret := .DECLINED, calls := [], st := st }
  else
    let labels :=
      match tlsVersion s with
      | some tls_version => pr_table_add (prom_get_labels s) "version" tls_version
      | none => prom_get_labels s
    declined (lookupCall api .incr "tls_protocol" 1 labels (st, []))

/-- The command table `prometheus_cmdtab`: the command class, the command and
the handler of each entry. -/
def prometheus_cmdtab : List (String × String × (MetricApi → Module → Session → CmdResult)) :=
  [("PRE_CMD", "LIST", prom_pre_list), ("LOG_CMD", "LIST", prom_log_list),
   ("LOG_CMD_ERR", "LIST", prom_err_list),
   ("PRE_CMD", "MLSD", prom_pre_list), ("LOG_CMD", "MLSD", prom_log_list),
   ("LOG_CMD_ERR", "MLSD", prom_err_list),
   ("PRE_CMD", "NLST", prom_pre_list), ("LOG_CMD", "NLST", prom_log_list),
   ("LOG_CMD_ERR", "NLST", prom_err_list),
   ("PRE_CMD", "USER", prom_pre_user), ("LOG_CMD_ERR", "USER", prom_err_login),
   ("LOG_CMD", "PASS", prom_log_pass), ("LOG_CMD_ERR", "PASS", prom_err_login),
   ("PRE_CMD", "RETR", prom_pre_retr), ("LOG_CMD", "RETR", prom_log_retr),
   ("LOG_CMD_ERR", "RETR", prom_err_retr),
   ("PRE_CMD", "STOR", prom_pre_stor), ("LOG_CMD", "STOR", prom_log_stor),
   ("LOG_CMD_ERR", "STOR", prom_err_stor),
   ("LOG_CMD", "AUTH", prom_log_auth)]

/-! ## Events -/

/-- The negation of an `int32_t`, wrapping at the width. -/
def negInt32 (x : Int) : Int := (-x + 2 ^ 31) % 2 ^ 32 - 2 ^ 31

/-- A line `prom_event_incr` writes to the module's log when the operation
failed: which operation, on which metric, with which `errno`. -/
structure OpError where
  decrementing : Bool
  metric_name : String
  errno : Errno
deriving DecidableEq, Repr

/-- What `prom_event_incr` leaves: the metric calls it made, the lines it
logged, and the module's variables. -/
structure EventResult where
  calls : List MetricCall
  logs : List OpError
  st : Module

/-- The function `prom_event_incr(metric_name, incr, k1, v1, ..., NULL)`.  `incr`
is the `int32_t` argument and `pairs` the variadic key and value pairs up to
the terminating null key.  The temporary pool is not modelled. -/
def prom_event_incr (api : MetricApi) (st : Module) (s : Session) (metric_name : String)
    (incr : Int) (pairs : List (String × String)) : EventResult :=
  match prom_registry_get_metric st.prometheus_registry (some metric_name) with
  | .error _ => { calls := [], logs := [], st := st }
  | .ok metric =>
    let labels := pairs.foldl (fun t kv => pr_table_add t kv.1 kv.2) (prom_get_labels s)
    let op := if incr ≥ 0 then MetricOp.incr else MetricOp.decr
    let val := if incr ≥ 0 then toUint32 incr else toUint32 (negInt32 incr)
    let res := api.run op (some ()) (some metric) val (some labels)
    { calls := [{ op := op, metric_name := metric.name, val := val, labels := labels }]
      logs :=
        match res with
        | .error e =>
          [{ decrementing := decide (incr < 0), metric_name := metric_name, errno := e }]
        | .ok _ => []
      st := st.record res }

/-! ## Start-up: creating the metrics and the postparse event -/

/-- The metric pointer after `prom_metric_add_counter` or `prom_metric_add_gauge`,
whose result the module drops: a successful call has attached the
sub-definition, a failed one has changed nothing. -/
def afterAdd (metric : Option Metric) (res : Except Errno Metric) : Option Metric :=
  match res with
  | .ok m => some m
  | .error _ => metric

/-- The first lines of every creation block of the module: `prom_metric_create`
with the name and the handle, `prom_metric_add_counter` with a suffix (null for
some metrics) and a help text, and for some metrics `prom_metric_add_gauge`
with a suffix and a help text.  The metric is null when its creation
failed. -/
def buildMetric (dbh : Option Dbh) (name : String) (counter_suffix : Option String)
    (counter_help : String) (gauge : Option (String × String)) : Option Metric :=
  let metric := (prom_metric_create (some ()) (some name) dbh).toOption
  let metric := afterAdd metric (prom_metric_add_counter metric counter_suffix (some counter_help))
  match gauge with
  | some (suffix, help) => afterAdd metric (prom_metric_add_gauge metric (some suffix) (some help))
  | none => metric

/-- The last lines of every creation block: `prom_registry_add_metric`; a failed
registration writes a trace message and leaves the registry as it was.  The
flag tells whether the metric was registered. -/
def registerMetric (registry : Option Registry) (metric : Option Metric) :
    Option Registry × Bool :=
  match prom_registry_add_metric registry metric with
  | .ok r => (some r, true)
  | .error _ => (registry, false)

/-- The function `create_session_metrics`: twelve creation blocks, in the order
of the source. -/
def create_session_metrics (dbh : Option Dbh) (registry : Option Registry) : Option Registry :=
  [ buildMetric dbh "directory_list" (some "total") "Number of directory listings"
      (some ("count", "Current count of directory listings")),
    buildMetric dbh "directory_list_error" (some "total") "Number of failed directory listings"
      none,
    buildMetric dbh "file_download" (some "total") "Number of file downloads"
      (some ("count", "Current count of file downloads")),
    buildMetric dbh "file_download_error" (some "total") "Number of failed file downloads" none,
    buildMetric dbh "file_upload" (some "total") "Number of file uploads"
      (some ("count", "Current count of file uploads")),
    buildMetric dbh "file_upload_error" (some "total") "Number of failed file uploads" none,
    buildMetric dbh "login" (some "total") "Number of logins" none,
    buildMetric dbh "login_error" (some "total") "Number of failed logins" none,
    buildMetric dbh "timeout" (some "total") "Number of timeouts" none,
    buildMetric dbh "handshake_error" (some "total") "Number of failed SFTP/TLS handshakes" none,
    buildMetric dbh "sftp_protocol" none "Number of SFTP sessions by protocol version" none,
    buildMetric dbh "tls_protocol" none "Number of TLS sessions by protocol version" none
  ].foldl (fun r metric => (registerMetric r metric).1) registry

/-- The function `create_server_metrics`: four creation blocks, in the order of
the source. -/
def create_server_metrics (dbh : Option Dbh) (registry : Option Registry) : Option Registry :=
  [ buildMetric dbh "connection_refused" (some "total") "Number of refused connections" none,
    buildMetric dbh "log_message" (some "total") "Number of log_messages" none,
    buildMetric dbh "segfault" (some "total") "Number of segfaults" none,
    buildMetric dbh "session" (some "total") "Number of sessions"
      (some ("count", "Current count of sessions"))
  ].foldl (fun r metric => (registerMetric r metric).1) registry

/-- Inserts a metric into a list sorted by name, before the first metric whose
name is not smaller. -/
def insertByName (m : Metric) : List Metric → List Metric
  | [] => [m]
  | x :: rest => if keyLe m.name x.name then m :: x :: rest else x :: insertByName m rest

/-- Modelled from the spec: `prom_registry_sort_metrics` of `registry.c`, which
is not in the sources: "stably orders metrics by name for deterministic scrape
output"; a null registry is an invalid argument. -/
def prom_registry_sort_metrics (registry : Option Registry) : Except Errno Registry :=
  match registry with
  | some r => .ok { r with metrics := r.metrics.foldr insertByName [] }
  | none => .error .EINVAL

/-- A registered metric after an increment whose result is only traced: the
stored samples change when the increment succeeds. -/
def incrRegistered (registry : Option Registry) (metric : Option Metric) (val : Nat)
    (labels : Option Labels) : Option Registry :=
  match prom_metric_incr (some ()) metric val labels with
  | .ok m => registry.map (fun r => r.store m)
  | .error _ => registry

/-- The function `create_metrics(dbh)` on the registry `prometheus_registry`.
`proftpd_version` is what `pr_version_get_str()` returns, `mod_version` the
constant `MOD_PROMETHEUS_VERSION` of `mod_prometheus.h`, which is not in the
sources, and `now` the clock `time(NULL)`, passed as the `uint32_t` amount. -/
def create_metrics (proftpd_version mod_version : String) (now : Int) (dbh : Option Dbh)
    (registry : Option Registry) : Option Registry :=
  let metric := buildMetric dbh "build_info" none "ProFTPD build information" none
  let r1 :=
    match registerMetric registry metric with
    | (r, false) => r
    | (r, true) =>
      let labels := pr_table_add [] "proftpd_version" proftpd_version
      let labels := pr_table_add labels "mod_prometheus_version" mod_version
      incrRegistered r metric 1 (some labels)
  let metric :=
    buildMetric dbh "startup_time_seconds" none "ProFTPD startup time, in unixtime seconds" none
  let r2 :=
    match registerMetric r1 metric with
    | (r, false) => r
    | (r, true) => incrRegistered r metric (toUint32 now) none
  let r3 := create_server_metrics dbh r2
  let r4 := create_session_metrics dbh r3
  match prom_registry_sort_metrics r4 with
  | .ok r => some r
  | .error _ => r4

/-- What the postparse event reads of the parsed configuration and gets from the
functions it calls.  `prom_metric_init` is of `metric.c`, which is not in the
sources: its result is taken as given.  `disconnect_returns` tells whether
`pr_session_disconnect` comes back to its caller, as the stub of the test suite
does, or ends the process, as the server's does. -/
structure StartEnv where
  engine_conf : Option Bool
  log_fd : Option Int
  options_conf : List Nat
  tables_conf : Option String
  metric_init : Option String → Except Errno Dbh
  disconnect_returns : Bool
  exporter_conf : Option String
  http_init : Except Errno Unit
  fork_result : Int
  proftpd_version : String
  mod_version : String
  now : Int

/-- What the postparse event does that is seen outside the module. -/
inductive StartEvent where
  | log (text : String)
  | metric_init (tables_dir : String)
  | disconnect (reason : String) (details : String)
  | registry_init (name : String)
  | create_metrics (dbh : Option Dbh)
  | metric_free (dbh : Option Dbh)
  | registry_free
  | http_init
  | exporter_start (dbh : Option Dbh) (addr : String)
deriving DecidableEq, Repr

/-- What the postparse event leaves: what it did, the module's variables, and
whether the process was ended by a disconnect that did not come back. -/
structure StartResult where
  events : List StartEvent
  st : Module
  ended : Bool
deriving DecidableEq, Repr

/-- The function `prom_exporter_start` as the parent process sees it: 0 when
`fork` fails, the child's PID otherwise.  The child does not come back to the
caller while the exporter runs. -/
def prom_exporter_start (fork_result : Int) : Int :=
  if fork_result = -1 then 0 else fork_result

/-- The end of `prom_postparse_ev`, from `prom_exporter_start` on. -/
def startExporter (env : StartEnv) (addr : String) (events : List StartEvent) (st : Module) :
    StartResult :=
  let events := events ++ [.exporter_start st.prometheus_dbh addr]
  let st := { st with prometheus_exporter_pid := prom_exporter_start env.fork_result }
  if st.prometheus_exporter_pid = 0 then
    { events := events ++ [.log "failed to start exporter process, disabling module",
        .metric_free st.prometheus_dbh, .registry_free]
      st := { st with prometheus_engine := false, prometheus_dbh := none,
                      prometheus_registry := none }
      ended := false }
  else { events := events, st := st, ended := false }

/-- The part of `prom_postparse_ev` after `prom_metric_init`: the registry is
created, the metrics are created on the handle the module holds, null or not,
and the exporter is set up. -/
def startRegistry (env : StartEnv) (events : List StartEvent) (st : Module) : StartResult :=
  let events := events ++ [.registry_init "proftpd", .create_metrics st.prometheus_dbh]
  let registry := (prom_registry_init (some ()) (some "proftpd")).toOption
  let st := { st with
    prometheus_registry :=
      create_metrics env.proftpd_version env.mod_version env.now st.prometheus_dbh registry }
  match env.exporter_conf with
  | none =>
    { events := events ++ [.log "missing required PrometheusExporter directive, disabling module",
        .metric_free st.prometheus_dbh, .registry_free]
      st := { st with prometheus_engine := false, prometheus_dbh := none,
                      prometheus_registry := none }
      ended := false }
  | some addr =>
    match env.http_init with
    | .error _ =>
      let events := events ++ [.http_init, .metric_free st.prometheus_dbh, .registry_free,
        .log "unable to initialize HTTP API, failing to start up",
        .disconnect "PR_SESS_DISCONNECT_BAD_CONFIG" "Failed HTTP initialization"]
      let st := { st with prometheus_dbh := none, prometheus_registry := none }
      if env.disconnect_returns then startExporter env addr events st
      else { events := events, st := st, ended := true }
    | .ok _ => startExporter env addr (events ++ [.http_init]) st

/-- The function `prom_postparse_ev`. -/
def prom_postparse_ev (env : StartEnv) (st : Module) : StartResult :=
  let st :=
    match env.engine_conf with
    | some engine => { st with prometheus_engine := engine }
    | none => st
  if st.prometheus_engine = false then { events := [], st := st, ended := false }
  else
    let st :=
      match env.log_fd with
      | some fd => { st with prometheus_logfd := fd }
      | none => st
    let st := { st with
      prometheus_opts := env.options_conf.foldl (fun acc opts => acc ||| opts) st.prometheus_opts }
    match env.tables_conf with
    | none =>
      { events := [.log "no PrometheusTables configured, disabling module"]
        st := { st with prometheus_engine := false }
        ended := false }
    | some dir =>
      let st := { st with prometheus_tables_dir := some dir
                          prometheus_dbh := (env.metric_init (some dir)).toOption }
      match st.prometheus_dbh with
      | none =>
        let events := [.metric_init dir,
          .log "unable to initialize metrics, failing to start up",
          .disconnect "PR_SESS_DISCONNECT_BAD_CONFIG" "Failed metrics initialization"]
        if env.disconnect_returns then startRegistry env events st
        else { events := events, st := st, ended := true }
      | some _ => startRegistry env [.metric_init dir] st

/-- A configuration that turns the engine on, with a tables directory and an
exporter address, on a system where only `prom_metric_init` fails;
`disconnect_returns` tells whether the disconnect comes back. -/
def storageFailureEnv (disconnect_returns : Bool) : StartEnv :=
  { engine_conf := some true
    log_fd := some 3
    options_conf := []
    tables_conf := some "/var/proftpd/prometheus"
    metric_init := fun _ => .error .EPERM
    disconnect_returns := disconnect_returns
    exporter_conf := some "0.0.0.0:9273"
    http_init := .ok ()
    fork_result := 4321
    proftpd_version := "1.3.8"
    mod_version := "mod_prometheus/0.1"
    now := 1600000000 }

/-- The same configuration on a system where everything succeeds and the store
handle is 7. -/
def healthyStartEnv : StartEnv :=
  { storageFailureEnv true with metric_init := fun _ => .ok 7 }

/-- The module after a successful start-up. -/
def startedModule : Module := (prom_postparse_ev healthyStartEnv Module.initial).st

/-- An FTP session, as the test suite's `pr_session_get_protocol` reports it,
after a transfer of 2500 bytes. -/
def ftpSession : Session :=
  { pool := some ()
    protocol := "ftp"
    total_bytes := 2500
    notes := []
    environ := []
    disconnect_reason := 0 }

/-- The metric `session` as `create_server_metrics` creates it on the handle
7. -/
def sessionMetric : Metric :=
  { name := "session"
    dbh := 7
    counter := some { suffix := some "total", help := "Number of sessions", samples := [] }
    gauge := some { suffix := some "count", help := "Current count of sessions", samples := [] }
    histogram := none }

/-! ## Stopping the exporter -/

/-- The two signals `prom_exporter_stop` sends. -/
inductive Signal where
  | SIGTERM
  | SIGKILL
deriving DecidableEq, Repr

/-- What `waitpid(exporter_pid, &status, WNOHANG)` returns: the PID of the child
with its status written, 0 for a child that is still running, or -1 with an
`errno`. -/
inductive WaitRes where
  | exited (status : Int)
  | running
  | failed (e : Errno)
deriving DecidableEq, Repr

/-- The system as `prom_exporter_stop` meets it.  `probe` is the result of
`kill(pid, 0)`, `term` and `kill` those of sending `SIGTERM` and `SIGKILL`,
`http_stop` that of `prom_http_stop`.  `waitpid n` is what `waitpid` returns
when it is called after `n` sleeps of 500 ms, `clock n` what `time(NULL)`
returns after `n` sleeps, and `signals_errno k` the `errno` that the `k`-th
call of `pr_signals_handle` leaves, if it changes it. -/
structure StopEnv where
  probe : Except Errno Unit
  http_stop : Except Errno Unit
  term : Except Errno Unit
  kill : Except Errno Unit
  waitpid : Nat → WaitRes
  clock : Nat → Int
  signals_errno : Nat → Option Errno

/-- What `prom_exporter_stop` does that is seen outside the module, in order.
`probe` is `kill(pid, 0)`, which sends no signal.  `report` stands for the log
lines that decode the wait status at the end; its status is none when no call
has written it. -/
inductive StopEvent where
  | probe (pid : Int)
  | http_stop
  | signal (pid : Int) (sig : Signal)
  | signal_error (sig : Signal) (e : Errno)
  | sleep
  | waitpid (pid : Int)
  | handle_signals
  | wait_error (e : Errno)
  | timeout_exceeded
  | report (status : Option Int)
deriving DecidableEq, Repr

/-- How the polling loop of `prom_exporter_stop` ends: by `return` inside the
loop, by leaving the loop with the wait status known so far, or not within the
iterations followed. -/
inductive LoopEnd where
  | returned
  | left (status : Option Int)
  | unfinished
deriving DecidableEq, Repr

/-- The log event for a signal that could not be sent. -/
def signalError (sig : Signal) : Except Errno Unit → List StopEvent
  | .error e => [.signal_error sig e]
  | .ok _ => []

/-- The loop `while (res <= 0)` of `prom_exporter_stop`, followed for at most
`fuel` iterations, from the value of `res` (with `errno` when it is -1), the
number of sleeps so far and the number of calls of `pr_signals_handle` so
far.  `waitpid` is not called in the loop, so `res` changes only through
`errno` after `pr_signals_handle`. -/
def stopLoop (env : StopEnv) (pid start_time timeout : Int) :
    Nat → WaitRes → Nat → Nat → List StopEvent × LoopEnd
  | _, .exited status, _, _ => ([], .left (some status))
  | 0, _, _, _ => ([], .unfinished)
  | fuel + 1, .failed e, sleeps, handled =>
    if e = .EINTR then
      let r := stopLoop env pid start_time timeout fuel
        (.failed ((env.signals_errno handled).getD e)) sleeps (handled + 1)
      (.handle_signals :: r.1, r.2)
    else if e = .ECHILD then ([], .returned)
    else ([.wait_error e], .left (some (-1)))
  | fuel + 1, .running, sleeps, handled =>
    if env.clock sleeps - start_time > timeout then
      (.timeout_exceeded :: .signal pid .SIGKILL :: signalError .SIGKILL env.kill, .left none)
    else
      let r := stopLoop env pid start_time timeout fuel .running (sleeps + 1) handled
      (.sleep :: r.1, r.2)

/-- How a run of `prom_exporter_stop` ends: by an early `return`, by running to
its last line, or not within the loop iterations followed. -/
inductive StopEnd where
  | returned
  | completed
  | unfinished
deriving DecidableEq, Repr

/-- What a run of `prom_exporter_stop` leaves. -/
structure StopResult where
  events : List StopEvent
  ending : StopEnd
  st : Module
deriving DecidableEq, Repr

/-- The function `prom_exporter_stop(exporter_pid)`, its loop followed for at
most `fuel` iterations.  The last two assignments are to the parameter
`exporter_pid`, which the caller does not see, and to the variable
`prometheus_exporter_http`; the variable `prometheus_exporter_pid` is not
assigned. -/
def prom_exporter_stop (env : StopEnv) (fuel : Nat) (st : Module) (exporter_pid : Int) :
    StopResult :=
  let start_time := env.clock 0
  if exporter_pid = 0 then { events := [], ending := .returned, st := st }
  else if env.probe = .error .ESRCH then
    { events := [.probe exporter_pid], ending := .returned, st := st }
  else
    let events := [.probe exporter_pid, .http_stop, .signal exporter_pid .SIGTERM]
      ++ signalError .SIGTERM env.term ++ [.sleep, .waitpid exporter_pid]
    let r := stopLoop env exporter_pid start_time st.prometheus_exporter_timeout fuel
      (env.waitpid 1) 1 0
    match r.2 with
    | .returned => { events := events ++ r.1, ending := .returned, st := st }
    | .unfinished => { events := events ++ r.1, ending := .unfinished, st := st }
    | .left status =>
      { events := events ++ r.1 ++ [.report status], ending := .completed
        st := { st with prometheus_exporter_http := none } }

/-- The signals sent in a run, in order. -/
def signalsSent : List StopEvent → List Signal
  | [] => []
  | .signal _ sig :: rest => sig :: signalsSent rest
  | _ :: rest => signalsSent rest

/-- The number of sleeps of 500 ms in a run. -/
def sleepCount : List StopEvent → Nat
  | [] => 0
  | .sleep :: rest => sleepCount rest + 1
  | _ :: rest => sleepCount rest

/-- The function `prom_restart_ev`: with the engine on, the exporter is stopped,
the store handle is closed and the registry freed. -/
def prom_restart_ev (env : StopEnv) (fuel : Nat) (st : Module) : StopResult :=
  if st.prometheus_engine = false then { events := [], ending := .completed, st := st }
  else
    let r := prom_exporter_stop env fuel st st.prometheus_exporter_pid
    match r.ending with
    | .unfinished => r
    | _ =>
      { events := r.events, ending := .completed
        st := { r.st with prometheus_dbh := none, prometheus_exporter_http := none,
                          prometheus_registry := none, prometheus_tables_dir := none,
                          prometheus_logfd := -1 } }

/-- The function `prom_shutdown_ev`: the exporter is stopped and the store
handle closed. -/
def prom_shutdown_ev (env : StopEnv) (fuel : Nat) (st : Module) : StopResult :=
  let r := prom_exporter_stop env fuel st st.prometheus_exporter_pid
  match r.ending with
  | .unfinished => r
  | _ =>
    { events := r.events, ending := .completed
      st := { r.st with prometheus_dbh := none, prometheus_logfd := -1 } }

/-- A system where every call succeeds and the clock shows one more second
after every two sleeps of 500 ms; `waitpid` is given. -/
def pollingEnv (waitpid : Nat → WaitRes) : StopEnv :=
  { probe := .ok ()
    http_stop := .ok ()
    term := .ok ()
    kill := .ok ()
    waitpid := waitpid
    clock := fun n => (1600000000 : Int) + ((n / 2 : Nat) : Int)
    signals_errno := fun _ => none }

/-- An exporter that is still running at the first poll, after 500 ms, and has
exited, with status 0, at every later poll. -/
def exitsAfterFirstPoll : Nat → WaitRes :=
  fun n => if n ≤ 1 then .running else .exited 0

/-- A module with a running exporter: the engine is on, the PID 4321 of the
exporter process is recorded and the listener is open; the timeout is the 1
second of the source. -/
def listeningModule : Module :=
  { Module.initial with
    prometheus_engine := true
    prometheus_exporter_pid := 4321
    prometheus_exporter_http := some 1 }

/-- A configuration that turns the engine off. -/
def engineOffEnv : StartEnv :=
  { storageFailureEnv true with engine_conf := some false }

/-! ## Closing the datastore -/

/-- Modelled from the spec: `prom_db_close` of `db.c`, which is not in the
sources: "releases the connection; does not delete data".  The environment
decides whether it fails and with which `errno`. -/
def prom_db_close (env : DbEnv) (_dbh : Dbh) : Except Errno Unit :=
  match env.close_errno with
  | some e => .error e
  | none => .ok ()

/-- What `prom_metric_db_close` leaves: its return value, the `errno` it or the
call it makes has set (none when none was set), the handles it passed to
`prom_db_close`, the lines it logged, and the files. -/
structure CloseOutcome where
  res : Int
  errno : Option Errno
  closed : List Dbh
  logs : List String
  disk : Disk
deriving DecidableEq, Repr

/-- The call `prom_metric_db_close` of `metric/db.c`: a null pool is refused
with `EINVAL`; a handle that is not null is passed to `prom_db_close`, whose
failure is logged only; the call returns 0. -/
def prom_metric_db_close (env : DbEnv) (p : Option Pool) (dbh : Option Dbh) (disk : Disk) :
    CloseOutcome :=
  match p with
  | none => { res := -1, errno := some .EINVAL, closed := [], logs := [], disk := disk }
  | some _ =>
    match dbh with
    | none => { res := 0, errno := none, closed := [], logs := [], disk := disk }
    | some h =>
      match prom_db_close env h with
      | .error e =>
        { res := 0, errno := some e, closed := [h]
          logs := ["error detaching database with schema"], disk := disk }
      | .ok _ => { res := 0, errno := none, closed := [h], logs := [], disk := disk }

/-! ## Configuration handlers -/

/-- What a configuration handler is given besides its parameters: whether the
directive stands in the server context (`CHECK_CONF(cmd, CONF_ROOT)`), the name
of the context it stands in, the C library's `atoi`, whether the server is
built with IPv6 (`PR_USE_IPV6`), and the address a name resolves to with
`pr_netaddr_get_addr`, none when it does not resolve. -/
structure ConfEnv where
  in_root : Bool
  context_name : String
  atoi : String → Int
  use_ipv6 : Bool
  get_addr : String → Option String

/-- The address of the exporter as the handler builds it: the wildcard address
of a family, or a resolved address. -/
inductive NetAddr where
  | any_inet
  | any_inet6
  | resolved (addr : String)
deriving DecidableEq, Repr

/-- The value `set_prometheusexporter` stores: the address with its port
(`pr_netaddr_set_port2`). -/
structure ExporterAddr where
  addr : NetAddr
  port : Int
deriving DecidableEq, Repr

/-- What a configuration handler leaves: `PR_HANDLED` or the message of its
`CONF_ERROR`, whether `add_config_param` has added a record for the
directive, and the value stored in the record (`c->argv[0]`), none while it is
null. -/
structure ConfResult (α : Type) where
  ret : Except String Unit
  added : Bool
  value : Option α
deriving DecidableEq, Repr

/-- The message of ProFTPD's `CHECK_CONF` for a directive outside the contexts
it is allowed in. -/
def contextError (env : ConfEnv) : String :=
  "directive not allowed in " ++ env.context_name ++ " context"

/-- The C library's `strrchr` on the characters of a string: the index of the
last occurrence of a character, none when it does not occur. -/
def strrchr : List Char → Char → Option Nat
  | [], _ => none
  | x :: rest, c =>
    match strrchr rest c with
    | some i => some (i + 1)
    | none => if x = c then some 0 else none

/-- The port delimiter `set_prometheusexporter` finds in its parameter: the last
`:`, unless the last `]` stands after it. -/
def portDelimiter (arg : List Char) : Option Nat :=
  match strrchr arg ':' with
  | none => none
  | some ptr =>
    match strrchr arg ']' with
    | some ptr2 => if ptr2 > ptr then none else some ptr
    | none => some ptr

/-- The address text without its brackets: a text that is not empty, starts with
`[` and ends with `]` loses its first and its last character. -/
def stripBrackets (addr : String) : String :=
  if addr.data.length > 0 ∧ addr.data.head? = some '[' ∧ addr.data.getLast? = some ']' then
    String.mk ((addr.data.drop 1).take (addr.data.length - 2))
  else addr

/-- The end of `set_prometheusexporter`, from the wildcard test on: `0.0.0.0`
is the IPv4 wildcard, `::` the IPv6 wildcard on a server built with IPv6, every
other text is resolved; the port is set on the address and the address is
stored. -/
def resolveExporter (env : ConfEnv) (addr : String) (exporter_port : Int) :
    ConfResult ExporterAddr :=
  if addr = "0.0.0.0" then
    { ret := .ok (), added := true, value := some { addr := .any_inet, port := exporter_port } }
  else if env.use_ipv6 = true ∧ addr = "::" then
    { ret := .ok (), added := true, value := some { addr := .any_inet6, port := exporter_port } }
  else
    match env.get_addr addr with
    | none =>
      { ret := .error ("unable to resolve \"" ++ addr ++ "\""), added := true, value := none }
    | some a =>
      { ret := .ok (), added := true, value := some { addr := .resolved a, port := exporter_port } }

/-- The default port of the exporter. -/
def PROMETHEUS_DEFAULT_EXPORTER_PORT : Int := 9273

/-- The handler `set_prometheusexporter` on the parameters of the directive.
`CHECK_ARGS` and `CHECK_CONF` are macros of ProFTPD: the first refuses a
directive without parameters, the second one outside the server context.  The
record is added before the parameter is looked at.  The text after the port
delimiter is converted by `atoi`, the text before it is the address. -/
def set_prometheusexporter (env : ConfEnv) (args : List String) : ConfResult ExporterAddr :=
  match args with
  | [] => { ret := .error "missing parameters", added := false, value := none }
  | arg :: _ =>
    if env.in_root = false then
      { ret := .error (contextError env), added := false, value := none }
    else
      match portDelimiter arg.data with
      | some ptr =>
        let exporter_port := env.atoi (String.mk (arg.data.drop (ptr + 1)))
        if exporter_port < 1 ∨ exporter_port > 65535 then
          { ret := .error "port must be between 1-65535", added := true, value := none }
        else
          resolveExporter env (stripBrackets (String.mk (arg.data.take ptr))) exporter_port
      | none => resolveExporter env (stripBrackets arg) PROMETHEUS_DEFAULT_EXPORTER_PORT

/-- The handler `set_prometheusoptions` on the parameters of the directive.  The
loop over the options ends in its first round with a `CONF_ERROR`; the lines
after the loop, which store the mask 0, are reached with no option only. -/
def set_prometheusoptions (env : ConfEnv) (args : List String) : ConfResult Nat :=
  if args.length = 0 then
    { ret := .error "wrong number of parameters", added := false, value := none }
  else if env.in_root = false then
    { ret := .error (contextError env), added := false, value := none }
  else
    match args with
    | opt :: _ =>
      { ret := .error (": unknown PrometheusOption '" ++ opt ++ "'"), added := true
        value := none }
    | [] => { ret := .ok (), added := true, value := some 0 }

/-- The white space `atoi` skips. -/
def isSpace (c : Char) : Bool :=
  c = ' ' || c = '\t' || c = '\n' || c = '\r' || c.toNat = 11 || c.toNat = 12

/-- The value of the decimal digits a text starts with, after the digits read
so far. -/
def leadingDigits : Nat → List Char → Nat
  | acc, [] => acc
  | acc, c :: rest => if c.isDigit then leadingDigits (acc * 10 + (c.toNat - 48)) rest else acc

/-- The result of `strtol` for a value: a value outside the range of a 64-bit
`long` gives the nearest bound. -/
def clampLong (x : Int) : Int :=
  if x > 2 ^ 63 - 1 then 2 ^ 63 - 1 else if x < -(2 ^ 63) then -(2 ^ 63) else x

/-- The conversion of a `long` to `int`: the low 32 bits, read as a signed
number. -/
def toInt32 (x : Int) : Int := (x + 2 ^ 31) % 2 ^ 32 - 2 ^ 31

/-- The C library's `atoi`, which is `(int) strtol(s, NULL, 10)`: white space
is skipped, a sign is read, then the decimal digits up to the first other
character; a text without digits converts to 0.  A value an `int` does not
hold is narrowed as the GNU C library does on a 64-bit system: `strtol` stops
at the bounds of `long` and the conversion to `int` keeps the low 32 bits. -/
def atoi (s : String) : Int :=
  toInt32 (clampLong
    (match s.data.dropWhile isSpace with
     | '-' :: rest => -((leadingDigits 0 rest : Nat) : Int)
     | '+' :: rest => ((leadingDigits 0 rest : Nat) : Int)
     | rest => ((leadingDigits 0 rest : Nat) : Int)))

/-- A server built with IPv6, the directive in the server context, and a
resolver that knows every name as itself. -/
def ConfEnv.standard : ConfEnv :=
  { in_root := true
    context_name := "server config"
    atoi := Prometheus.atoi
    use_ipv6 := true
    get_addr := fun name => some name }

/-! ## Event listeners and session start -/

/-- The result of an event listener that does nothing. -/
def noEvent (st : Module) : EventResult := { calls := [], logs := [], st := st }

/-- The authentication codes `prom_auth_code_ev` tells apart; their values are
in ProFTPD's headers. -/
inductive AuthCode where
  | PR_AUTH_RFC2228_OK
  | PR_AUTH_OK
  | PR_AUTH_NOPWD
  | PR_AUTH_BADPWD
  | other
deriving DecidableEq, Repr

/-- The listener `prom_auth_code_ev`. -/
def prom_auth_code_ev (api : MetricApi) (st : Module) (s : Session) (auth_code : AuthCode) :
    EventResult :=
  if st.prometheus_engine = false then noEvent st
  else
    match auth_code with
    | .PR_AUTH_RFC2228_OK => prom_event_incr api st s "login" 1 [("method", "certificate")]
    | .PR_AUTH_OK => prom_event_incr api st s "login" 1 [("method", "password")]
    | .PR_AUTH_NOPWD => prom_event_incr api st s "login_error" 1 [("reason", "unknown user")]
    | .PR_AUTH_BADPWD => prom_event_incr api st s "login_error" 1 [("reason", "bad password")]
    | .other => prom_event_incr api st s "login_error" 1 []

/-- The disconnect reasons `prom_exit_ev` tells apart, with the values of
ProFTPD's `session.h`, which is not in the sources; only their being distinct
matters. -/
def PR_SESS_DISCONNECT_SESSION_INIT_FAILED : Int := 3

/-- See `PR_SESS_DISCONNECT_SESSION_INIT_FAILED`. -/
def PR_SESS_DISCONNECT_BANNED : Int := 8

/-- See `PR_SESS_DISCONNECT_SESSION_INIT_FAILED`. -/
def PR_SESS_DISCONNECT_CONFIG_ACL : Int := 9

/-- See `PR_SESS_DISCONNECT_SESSION_INIT_FAILED`. -/
def PR_SESS_DISCONNECT_MODULE_ACL : Int := 10

/-- See `PR_SESS_DISCONNECT_SESSION_INIT_FAILED`. -/
def PR_SESS_DISCONNECT_SEGFAULT : Int := 14

/-- The listener `prom_exit_ev`: a refused connection counts as
`connection_refused`, a segfault as `segfault`, every other end of a session
takes 1 from `session`; then the log is closed.  The call of `prom_http_free`
is not modelled. -/
def prom_exit_ev (api : MetricApi) (st : Module) (s : Session) : EventResult :=
  if st.prometheus_engine = false then noEvent st
  else
    let r :=
      if s.disconnect_reason = PR_SESS_DISCONNECT_BANNED
          ∨ s.disconnect_reason = PR_SESS_DISCONNECT_CONFIG_ACL
          ∨ s.disconnect_reason = PR_SESS_DISCONNECT_MODULE_ACL
          ∨ s.disconnect_reason = PR_SESS_DISCONNECT_SESSION_INIT_FAILED then
        match pr_table_get s.notes "core.disconnect-details" with
        | some reason => prom_event_incr api st s "connection_refused" 1 [("reason", reason)]
        | none => prom_event_incr api st s "connection_refused" 1 []
      else if s.disconnect_reason = PR_SESS_DISCONNECT_SEGFAULT then
        prom_event_incr api st s "segfault" 1 []
      else prom_event_incr api st s "session" (-1) []
    { r with
      st := if r.st.prometheus_logfd ≥ 0 then { r.st with prometheus_logfd := -1 } else r.st }

/-- The listener `prom_timeout_idle_ev`. -/
def prom_timeout_idle_ev (api : MetricApi) (st : Module) (s : Session) : EventResult :=
  if st.prometheus_engine = false then noEvent st
  else prom_event_incr api st s "timeout" 1 [("reason", "TimeoutIdle")]

/-- The listener `prom_timeout_login_ev`. -/
def prom_timeout_login_ev (api : MetricApi) (st : Module) (s : Session) : EventResult :=
  if st.prometheus_engine = false then noEvent st
  else prom_event_incr api st s "timeout" 1 [("reason", "TimeoutLogin")]

/-- The listener `prom_timeout_noxfer_ev`. -/
def prom_timeout_noxfer_ev (api : MetricApi) (st : Module) (s : Session) : EventResult :=
  if st.prometheus_engine = false then noEvent st
  else prom_event_incr api st s "timeout" 1 [("reason", "TimeoutNoTransfer")]

/-- The listener `prom_timeout_stalled_ev`. -/
def prom_timeout_stalled_ev (api : MetricApi) (st : Module) (s : Session) : EventResult :=
  if st.prometheus_engine = false then noEvent st
  else prom_event_incr api st s "timeout" 1 [("reason", "TimeoutStalled")]

/-- The listener `prom_tls_ctrl_handshake_err_ev`. -/
def prom_tls_ctrl_handshake_err_ev (api : MetricApi) (st : Module) (s : Session) :
    EventResult :=
  if st.prometheus_engine = false then noEvent st
  else prom_event_incr api st s "handshake_error" 1 [("connection", "ctrl")]

/-- The listener `prom_tls_data_handshake_err_ev`. -/
def prom_tls_data_handshake_err_ev (api : MetricApi) (st : Module) (s : Session) :
    EventResult :=
  if st.prometheus_engine = false then noEvent st
  else prom_event_incr api st s "handshake_error" 1 [("connection", "data")]

/-- The listener `prom_ssh2_kex_err_ev`. -/
def prom_ssh2_kex_err_ev (api : MetricApi) (st : Module) (s : Session) : EventResult :=
  if st.prometheus_engine = false then noEvent st
  else prom_event_incr api st s "handshake_error" 1 []

/-- The listener `prom_ssh2_auth_hostbased_ev`. -/
def prom_ssh2_auth_hostbased_ev (api : MetricApi) (st : Module) (s : Session) : EventResult :=
  if st.prometheus_engine = false then noEvent st
  else prom_event_incr api st s "login" 1 [("method", "hostbased")]

/-- The listener `prom_ssh2_auth_hostbased_err_ev`. -/
def prom_ssh2_auth_hostbased_err_ev (api : MetricApi) (st : Module) (s : Session) :
    EventResult :=
  if st.prometheus_engine = false then noEvent st
  else prom_event_incr api st s "login_error" 1 [("method", "hostbased")]

/-- The listener `prom_ssh2_auth_kbdint_ev`. -/
def prom_ssh2_auth_kbdint_ev (api : MetricApi) (st : Module) (s : Session) : EventResult :=
  if st.prometheus_engine = false then noEvent st
  else prom_event_incr api st s "login" 1 [("method", "keyboard-interactive")]

/-- The listener `prom_ssh2_auth_kbdint_err_ev`. -/
def prom_ssh2_auth_kbdint_err_ev (api : MetricApi) (st : Module) (s : Session) : EventResult :=
  if st.prometheus_engine = false then noEvent st
  else prom_event_incr api st s "login_error" 1 [("method", "keyboard-interactive")]

/-- The listener `prom_ssh2_auth_passwd_ev`. -/
def prom_ssh2_auth_passwd_ev (api : MetricApi) (st : Module) (s : Session) : EventResult :=
  if st.prometheus_engine = false then noEvent st
  else prom_event_incr api st s "login" 1 [("method", "password")]

/-- The listener `prom_ssh2_auth_passwd_err_ev`. -/
def prom_ssh2_auth_passwd_err_ev (api : MetricApi) (st : Module) (s : Session) : EventResult :=
  if st.prometheus_engine = false then noEvent st
  else prom_event_incr api st s "login_error" 1 [("method", "password")]

/-- The listener `prom_ssh2_auth_publickey_ev`. -/
def prom_ssh2_auth_publickey_ev (api : MetricApi) (st : Module) (s : Session) : EventResult :=
  if st.prometheus_engine = false then noEvent st
  else prom_event_incr api st s "login" 1 [("method", "publickey")]

/-- The listener `prom_ssh2_auth_publickey_err_ev`. -/
def prom_ssh2_auth_publickey_err_ev (api : MetricApi) (st : Module) (s : Session) :
    EventResult :=
  if st.prometheus_engine = false then noEvent st
  else prom_event_incr api st s "login_error" 1 [("method", "publickey")]

/-- The listener `prom_ssh2_sftp_proto_version_ev`; the event data is the
protocol version, or null. -/
def prom_ssh2_sftp_proto_version_ev (api : MetricApi) (st : Module) (s : Session)
    (event_data : Option Nat) : EventResult :=
  if st.prometheus_engine = false then noEvent st
  else
    match event_data with
    | none => noEvent st
    | some 3 => prom_event_incr api st s "sftp_protocol" 1 [("version", "3")]
    | some 4 => prom_event_incr api st s "sftp_protocol" 1 [("version", "4")]
    | some 5 => prom_event_incr api st s "sftp_protocol" 1 [("version", "5")]
    | some 6 => prom_event_incr api st s "sftp_protocol" 1 [("version", "6")]
    | some _ => noEvent st

/-- The listener `prom_ssh2_sftp_sess_opened_ev`. -/
def prom_ssh2_sftp_sess_opened_ev (api : MetricApi) (st : Module) (s : Session) : EventResult :=
  if st.prometheus_engine = false then noEvent st
  else prom_event_incr api st s "session" 1 []

/-- The listener `prom_ssh2_sftp_sess_closed_ev`. -/
def prom_ssh2_sftp_sess_closed_ev (api : MetricApi) (st : Module) (s : Session) : EventResult :=
  if st.prometheus_engine = false then noEvent st
  else prom_event_incr api st s "session" (-1) []

/-- The listener `prom_ssh2_scp_sess_opened_ev`. -/
def prom_ssh2_scp_sess_opened_ev (api : MetricApi) (st : Module) (s : Session) : EventResult :=
  if st.prometheus_engine = false then noEvent st
  else prom_event_incr api st s "session" 1 []

/-- The listener `prom_ssh2_scp_sess_closed_ev`. -/
def prom_ssh2_scp_sess_closed_ev (api : MetricApi) (st : Module) (s : Session) : EventResult :=
  if st.prometheus_engine = false then noEvent st
  else prom_event_incr api st s "session" (-1) []

/-- What `prom_sess_init` leaves: its return value, the metric call it made on
a metric it found, what its one call of `prom_metric_incr` returned, what the
store initialisation left, and the module's variables. -/
structure SessInitResult where
  ret : Int
  calls : List MetricCall
  incr_result : Except Errno Metric
  db : DbOutcome
  st : Module

/-- The function `prom_sess_init`, which tests no engine flag.  The inherited
store handle is dropped and the store is initialised anew with the flag
`VACUUM`; the metric `session` is looked up and `prom_metric_incr` is called
with what the lookup gave, null or not, the amount 1 and the label `protocol`
of the session.  The registrations of the listeners are not modelled, nor is
`prom_registry_set_dbh` of `registry.c`, which is not in the sources. -/
def prom_sess_init (api : MetricApi) (dbenv : DbEnv) (st : Module) (s : Session) (disk : Disk) :
    SessInitResult :=
  let st1 := { st with prometheus_dbh := none }
  let db := prom_metric_db_init dbenv st1.prometheus_tables_dir [OpenFlag.VACUUM] disk
  let labels := pr_table_add [] "protocol" s.protocol
  let metric := (prom_registry_get_metric st1.prometheus_registry (some "session")).toOption
  let res := api.incr (some ()) metric 1 (some labels)
  { ret := 0
    calls :=
      match metric with
      | some m => [{ op := .incr, metric_name := m.name, val := 1, labels := labels }]
      | none => []
    incr_result := res
    db := db
    st := st1.record res }

/-! ## Scenarios of the module -/

/-- The names of the metrics a registry holds, in its order. -/
def registeredNames (registry : Option Registry) : List String :=
  match registry with
  | some r => r.metrics.map (fun m => m.name)
  | none => []

/-- The amounts of the increments made on a metric, in order. -/
def incrementsOn (metric_name : String) (calls : List MetricCall) : List Nat :=
  (calls.filter (fun c => c.op = .incr ∧ c.metric_name = metric_name)).map (fun c => c.val)

/-- Completed downloads of the given byte counts, one after the other, in a
session: the module after them and the amounts by which `file_download_bytes`
was incremented. -/
def retrRun (api : MetricApi) (s : Session) : Module → List Int → Module × List Nat
  | st, [] => (st, [])
  | st, bytes :: rest =>
    let r := prom_log_retr api st { s with total_bytes := bytes }
    let more := retrRun api s r.st rest
    (more.1, incrementsOn "file_download_bytes" r.calls ++ more.2)

/-- Completed uploads of the given byte counts, one after the other, in a
session: the module after them and the amounts by which `file_upload_bytes`
was incremented. -/
def storRun (api : MetricApi) (s : Session) : Module → List Int → Module × List Nat
  | st, [] => (st, [])
  | st, bytes :: rest =>
    let r := prom_log_stor api st { s with total_bytes := bytes }
    let more := storRun api s r.st rest
    (more.1, incrementsOn "file_upload_bytes" r.calls ++ more.2)

/-- The registry with a counter of the given name added as the module's
creation blocks would add it. -/
def withCounter (dbh : Option Dbh) (name help : String) (registry : Option Registry) :
    Option Registry :=
  (registerMetric registry (buildMetric dbh name (some "total") help none)).1

/-- The module after a successful start-up to which the two byte counters that
`prom_log_retr` and `prom_log_stor` look up have been added. -/
def byteCountingModule : Module :=
  { startedModule with
    prometheus_registry :=
      withCounter (some 7) "file_upload_bytes" "Number of KB uploaded"
        (withCounter (some 7) "file_download_bytes" "Number of KB downloaded"
          startedModule.prometheus_registry) }

/-- The FTP session after the client has secured it with TLS: the protocol is
`ftps`. -/
def ftpsSession : Session := { ftpSession with protocol := "ftps" }

/-- The gauge sample a module's registry holds for a metric under a label
set. -/
def gaugeOf (st : Module) (metric_name : String) (key : Labels) : Option Dec :=
  match prom_registry_get_metric st.prometheus_registry (some metric_name) with
  | .ok m => m.gaugeValue key
  | .error _ => none

/-- The session with another disconnect reason. -/
def Session.endedBy (s : Session) (reason : Int) : Session :=
  { s with disconnect_reason := reason }

/-- The event listeners `prom_init` and `prom_sess_init` register, each with
its event; a listener that reads event data or the disconnect reason stands
once for each case it tells apart. -/
def prometheus_listeners : List (String × (MetricApi → Module → Session → EventResult)) :=
  [("core.exit", fun api st s => prom_exit_ev api st (s.endedBy PR_SESS_DISCONNECT_BANNED)),
   ("core.exit", fun api st s => prom_exit_ev api st (s.endedBy PR_SESS_DISCONNECT_SEGFAULT)),
   ("core.exit", fun api st s => prom_exit_ev api st (s.endedBy 0)),
   ("core.timeout-idle", prom_timeout_idle_ev),
   ("core.timeout-login", prom_timeout_login_ev),
   ("core.timeout-no-transfer", prom_timeout_noxfer_ev),
   ("core.timeout-stalled", prom_timeout_stalled_ev),
   ("mod_auth.authentication-code",
     fun api st s => prom_auth_code_ev api st s .PR_AUTH_RFC2228_OK),
   ("mod_auth.authentication-code", fun api st s => prom_auth_code_ev api st s .PR_AUTH_OK),
   ("mod_auth.authentication-code", fun api st s => prom_auth_code_ev api st s .PR_AUTH_NOPWD),
   ("mod_auth.authentication-code", fun api st s => prom_auth_code_ev api st s .PR_AUTH_BADPWD),
   ("mod_auth.authentication-code", fun api st s => prom_auth_code_ev api st s .other),
   ("mod_tls.ctrl-handshake-failed", prom_tls_ctrl_handshake_err_ev),
   ("mod_tls.data-handshake-failed", prom_tls_data_handshake_err_ev),
   ("mod_sftp.ssh2.kex.failed", prom_ssh2_kex_err_ev),
   ("mod_sftp.ssh2.auth-hostbased", prom_ssh2_auth_hostbased_ev),
   ("mod_sftp.ssh2.auth-hostbased.failed", prom_ssh2_auth_hostbased_err_ev),
   ("mod_sftp.ssh2.auth-kbdint", prom_ssh2_auth_kbdint_ev),
   ("mod_sftp.ssh2.auth-kbdint.failed", prom_ssh2_auth_kbdint_err_ev),
   ("mod_sftp.ssh2.auth-password", prom_ssh2_auth_passwd_ev),
   ("mod_sftp.ssh2.auth-password.failed", prom_ssh2_auth_passwd_err_ev),
   ("mod_sftp.ssh2.auth-publickey", prom_ssh2_auth_publickey_ev),
   ("mod_sftp.ssh2.auth-publickey.failed", prom_ssh2_auth_publickey_err_ev),
   ("mod_sftp.sftp.session-opened", prom_ssh2_sftp_sess_opened_ev),
   ("mod_sftp.sftp.session-closed", prom_ssh2_sftp_sess_closed_ev),
   ("mod_sftp.sftp.protocol-version",
     fun api st s => prom_ssh2_sftp_proto_version_ev api st s (some 3)),
   ("mod_sftp.scp.session-opened", prom_ssh2_scp_sess_opened_ev),
   ("mod_sftp.scp.session-closed", prom_ssh2_scp_sess_closed_ev)]

/-- The metric calls of the whole module on one state: those of every entry of
the command table, of every listener and of `prom_sess_init`, each run on that
state. -/
def moduleCalls (api : MetricApi) (st : Module) (s : Session) : List MetricCall :=
  (prometheus_cmdtab.map (fun e => (e.2.2 api st s).calls)).flatten
    ++ (prometheus_listeners.map (fun e => (e.2 api st s).calls)).flatten
    ++ (prom_sess_init api (DbEnv.healthy 7) st s []).calls

/-- The names of a list, each once, in the order of their last occurrence. -/
def distinctNames : List String → List String
  | [] => []
  | x :: rest => if x ∈ distinctNames rest then distinctNames rest else x :: distinctNames rest

/-- The metrics the module calls an operation on when every lookup finds its
metric. -/
def calledNames (op : MetricOp) (st : Module) (s : Session) : List String :=
  distinctNames
    (((moduleCalls MetricApi.standard st s).filter (fun c => c.op = op)).map
      (fun c => c.metric_name))

/-- Whether a metric of the module's registry has a gauge; none when the
registry does not hold the metric. -/
def hasGauge (st : Module) (metric_name : String) : Option Bool :=
  match prom_registry_get_metric st.prometheus_registry (some metric_name) with
  | .ok m => some m.gauge.isSome
  | .error _ => none

/-! ## Lemmas: the lexical order -/

theorem lexLe_refl : ∀ a, lexLe a a = true
  | [] => rfl
  | a :: as => by simp [lexLe, lexLe_refl as]

theorem lexLe_total : ∀ a b, lexLe a b = true ∨ lexLe b a = true
  | [], _ => Or.inl rfl
  | _ :: _, [] => Or.inr rfl
  | a :: as, b :: bs => by
    simp only [lexLe]
    rcases Nat.lt_trichotomy a.toNat b.toNat with h | h | h
    · simp [h]
    · simp [h, lexLe_total as bs]
    · simp [h, Nat.lt_asymm h]

theorem lexLe_antisymm : ∀ a b, lexLe a b = true → lexLe b a = true → a = b
  | [], [], _, _ => rfl
  | [], _ :: _, _, h => by simp [lexLe] at h
  | _ :: _, [], h, _ => by simp [lexLe] at h
  | a :: as, b :: bs, h1, h2 => by
    simp only [lexLe] at h1 h2
    rcases Nat.lt_trichotomy a.toNat b.toNat with h | h | h
    · simp [h, Nat.lt_asymm h] at h2
    · simp [h] at h1 h2
      have hab : a = b := by rw [← Char.ofNat_toNat a, h, Char.ofNat_toNat]
      rw [hab, lexLe_antisymm as bs h1 h2]
    · simp [h, Nat.lt_asymm h] at h1

theorem lexLe_trans : ∀ a b c, lexLe a b = true → lexLe b c = true → lexLe a c = true
  | [], _, _, _, _ => rfl
  | _ :: _, [], _, h, _ => by simp [lexLe] at h
  | _ :: _, _ :: _, [], _, h => by simp [lexLe] at h
  | a :: as, b :: bs, c :: cs, h1, h2 => by
    simp only [lexLe] at h1 h2 ⊢
    split_ifs at h1 h2 ⊢ <;> first | rfl | omega | exact lexLe_trans as bs cs h1 h2

theorem keyLe_refl (a : String) : keyLe a a = true := lexLe_refl a.data

theorem keyLe_total (a b : String) : keyLe a b = true ∨ keyLe b a = true :=
  lexLe_total a.data b.data

theorem keyLe_trans {a b c : String} (h1 : keyLe a b = true) (h2 : keyLe b c = true) :
    keyLe a c = true := lexLe_trans _ _ _ h1 h2

theorem keyLe_antisymm {a b : String} (h1 : keyLe a b = true) (h2 : keyLe b a = true) :
    a = b := String.ext (lexLe_antisymm _ _ h1 h2)

/-! ## Lemmas: canonical label sets -/

theorem insertLabel_perm (kv : String × String) :
    ∀ l : Labels, (insertLabel kv l).Perm (kv :: l)
  | [] => List.Perm.refl _
  | x :: xs => by
    unfold insertLabel
    split
    · exact List.Perm.refl _
    · exact ((insertLabel_perm kv xs).cons x).trans (List.Perm.swap kv x xs)

theorem canonLabels_perm : ∀ l : Labels, (canonLabels l).Perm l
  | [] => List.Perm.refl _
  | kv :: rest => (insertLabel_perm kv (canonLabels rest)).trans ((canonLabels_perm rest).cons kv)

theorem insertLabel_ascending (kv : String × String) :
    ∀ l : Labels, keysAscending l → keysAscending (insertLabel kv l)
  | [], _ => by simp [insertLabel, keysAscending]
  | x :: xs, h => by
    unfold insertLabel
    have hx : ∀ b ∈ xs, keyLe x.1 b.1 = true := by
      intro b hb
      have := (List.pairwise_cons.1 (List.pairwise_map.1 h)).1 b hb
      exact this
    have hxs : keysAscending xs := List.pairwise_map.2 (List.pairwise_cons.1 (List.pairwise_map.1 h)).2
    split
    · rename_i hle
      refine List.pairwise_map.2 (List.pairwise_cons.2 ⟨?_, List.pairwise_map.1 h⟩)
      intro b hb
      rcases List.mem_cons.1 hb with rfl | hb
      · exact hle
      · exact keyLe_trans hle (hx b hb)
    · rename_i hle
      have hle2 : keyLe x.1 kv.1 = true := (keyLe_total kv.1 x.1).resolve_left hle
      refine List.pairwise_map.2 (List.pairwise_cons.2 ⟨?_, List.pairwise_map.1
        (insertLabel_ascending kv xs hxs)⟩)
      intro b hb
      rcases List.mem_cons.1 ((insertLabel_perm kv xs).subset hb) with rfl | hb
      · exact hle2
      · exact hx b hb

theorem canonLabels_ascending : ∀ l : Labels, keysAscending (canonLabels l)
  | [] => by simp [canonLabels, keysAscending]
  | kv :: rest => insertLabel_ascending kv _ (canonLabels_ascending rest)

theorem ascending_perm_eq {l1 l2 : Labels} (hp : l1.Perm l2) (hv : validLabels l1)
    (h1 : keysAscending l1) (h2 : keysAscending l2) : l1 = l2 := by
  have hv2 : validLabels l2 := (List.Perm.nodup_iff (hp.map Prod.fst)).1 hv
  have strict : ∀ l : Labels, validLabels l → keysAscending l →
      l.Pairwise (fun a b => keyLe a.1 b.1 = true ∧ a.1 ≠ b.1) := by
    intro l hv ha
    exact (List.pairwise_map.1 ha).and (List.pairwise_map.1 hv)
  haveI : IsAntisymm (String × String) (fun a b => keyLe a.1 b.1 = true ∧ a.1 ≠ b.1) :=
    ⟨fun a b hab hba => absurd (keyLe_antisymm hab.1 hba.1) hab.2⟩
  exact List.eq_of_perm_of_sorted hp (strict l1 hv h1) (strict l2 hv2 h2)

theorem canonLabels_eq_of_perm {l1 l2 : Labels} (hv : validLabels l1) (hp : l1.Perm l2) :
    canonLabels l1 = canonLabels l2 := by
  apply ascending_perm_eq
  · exact (canonLabels_perm l1).trans (hp.trans (canonLabels_perm l2).symm)
  · exact (List.Perm.nodup_iff ((canonLabels_perm l1).map Prod.fst)).2 hv
  · exact canonLabels_ascending l1
  · exact canonLabels_ascending l2

/-! ## Lemmas: sample values -/

theorem Dec.add_ofNat (a : Dec) (n : Nat) :
    a.add (Dec.ofNat n) = ⟨a.mant + (n : Int) * ((10 ^ a.scale : Nat) : Int), a.scale⟩ := by
  simp [Dec.add, Dec.ofNat, Dec.mantAt]

theorem Dec.add_ofNat_add_ofNat (a : Dec) (n k : Nat) :
    (a.add (Dec.ofNat n)).add (Dec.ofNat k) = a.add (Dec.ofNat (n + k)) := by
  rw [Dec.add_ofNat, Dec.add_ofNat, Dec.add_ofNat]
  simp only [Dec.mk.injEq, and_true]
  push_cast
  ring

/-! ## Lemmas: sample tables -/

section TableLemmas

variable {β : Type}

theorem Table.get_eq_none_iff (t : Table β) (key : Labels) :
    t.get key = none ↔ key ∉ t.map Prod.fst := by
  induction t with
  | nil => simp [Table.get]
  | cons r rest ih =>
    obtain ⟨k, v⟩ := r
    by_cases h : k = key
    · simp [Table.get, h]
    · simp [Table.get, h, ih, Ne.symm h]

theorem Table.get_update_self (key : Labels) (f : β → β) (t : Table β) :
    (Table.update key f t).get key = (t.get key).map f := by
  induction t with
  | nil => simp [Table.update, Table.get]
  | cons r rest ih =>
    obtain ⟨k, v⟩ := r
    by_cases h : k = key
    · simp [Table.update, Table.get, h]
    · simp [Table.update, Table.get, h, ih]

theorem Table.get_update_other (key : Labels) (f : β → β) (t : Table β) (other : Labels)
    (hne : other ≠ key) : (Table.update key f t).get other = t.get other := by
  induction t with
  | nil => simp [Table.update, Table.get]
  | cons r rest ih =>
    obtain ⟨k, v⟩ := r
    by_cases h : k = key
    · have hko : ¬ key = other := fun e => hne e.symm
      simp [Table.update, Table.get, h, ih, hko]
    · by_cases h2 : k = other
      · subst h2
        simp [Table.update, Table.get, hne]
      · simp [Table.update, Table.get, h, h2, ih]

theorem Table.update_of_get_none (key : Labels) (f : β → β) (t : Table β)
    (hn : t.get key = none) : Table.update key f t = t := by
  induction t with
  | nil => simp [Table.update]
  | cons r rest ih =>
    obtain ⟨k, v⟩ := r
    by_cases h : k = key
    · simp [Table.get, h] at hn
    · simp only [Table.get, h, if_false] at hn
      simp [Table.update, h, ih hn]

theorem Table.update_update (key : Labels) (f g : β → β) (t : Table β) :
    Table.update key g (Table.update key f t) = Table.update key (fun v => g (f v)) t := by
  induction t with
  | nil => simp [Table.update]
  | cons r rest ih =>
    obtain ⟨k, v⟩ := r
    by_cases h : k = key
    · simp [Table.update, h, ih]
    · simp [Table.update, h, ih]

theorem Table.map_fst_update (key : Labels) (f : β → β) (t : Table β) :
    (Table.update key f t).map Prod.fst = t.map Prod.fst := by
  induction t with
  | nil => simp [Table.update]
  | cons r rest ih =>
    obtain ⟨k, v⟩ := r
    by_cases h : k = key
    · simp [Table.update, h, ih]
    · simp [Table.update, h, ih]

theorem Table.insertRow_perm (key : Labels) (v : β) (t : Table β) :
    (Table.insertRow key v t).Perm ((key, v) :: t) := by
  induction t with
  | nil => exact List.Perm.refl _
  | cons r rest ih =>
    obtain ⟨k, w⟩ := r
    unfold Table.insertRow
    split
    · exact List.Perm.refl _
    · exact (ih.cons (k, w)).trans (List.Perm.swap _ _ _)

theorem Table.get_insertRow_self (key : Labels) (v : β) (t : Table β)
    (hn : t.get key = none) : (Table.insertRow key v t).get key = some v := by
  induction t with
  | nil => simp [Table.insertRow, Table.get]
  | cons r rest ih =>
    obtain ⟨k, w⟩ := r
    by_cases h : k = key
    · simp [Table.get, h] at hn
    · simp only [Table.get, h, if_false] at hn
      unfold Table.insertRow
      split
      · simp [Table.get]
      · simp [Table.get, h, ih hn]

theorem Table.get_insertRow_other (key : Labels) (v : β) (t : Table β) (other : Labels)
    (hne : other ≠ key) : (Table.insertRow key v t).get other = t.get other := by
  have hko : ¬ key = other := fun e => hne e.symm
  induction t with
  | nil => simp [Table.insertRow, Table.get, hko]
  | cons r rest ih =>
    obtain ⟨k, w⟩ := r
    unfold Table.insertRow
    split
    · simp [Table.get, hko]
    · by_cases h2 : k = other
      · simp [Table.get, h2]
      · simp [Table.get, h2, ih]

theorem Table.update_insertRow (key : Labels) (v : β) (g : β → β) (t : Table β)
    (hn : t.get key = none) :
    Table.update key g (Table.insertRow key v t) = Table.insertRow key (g v) t := by
  induction t with
  | nil => simp [Table.insertRow, Table.update]
  | cons r rest ih =>
    obtain ⟨k, w⟩ := r
    by_cases h : k = key
    · simp [Table.get, h] at hn
    · simp only [Table.get, h, if_false] at hn
      unfold Table.insertRow
      split
      · simp [Table.update, h, Table.update_of_get_none key g rest hn]
      · simp [Table.update, h, ih hn]

theorem Table.get_upsert_self (key : Labels) (init : β) (f : β → β) (t : Table β) :
    (Table.upsert key init f t).get key = some (f ((t.get key).getD init)) := by
  unfold Table.upsert
  cases h : t.get key with
  | none => simp [Table.get_insertRow_self key (f init) t h]
  | some v => simp [Table.get_update_self, h]

theorem Table.get_upsert_other (key : Labels) (init : β) (f : β → β) (t : Table β)
    (other : Labels) (hne : other ≠ key) :
    (Table.upsert key init f t).get other = t.get other := by
  unfold Table.upsert
  cases h : t.get key with
  | none => simp [Table.get_insertRow_other key (f init) t other hne]
  | some v => simp [Table.get_update_other key f t other hne]

theorem Table.upsert_upsert (key : Labels) (init : β) (f g : β → β) (t : Table β) :
    Table.upsert key init g (Table.upsert key init f t) =
      Table.upsert key init (fun v => g (f v)) t := by
  cases h : t.get key with
  | none =>
    have e1 : Table.upsert key init f t = Table.insertRow key (f init) t := by
      simp [Table.upsert, h]
    have e2 := Table.get_insertRow_self key (f init) t h
    rw [e1]
    simp [Table.upsert, h, e2, Table.update_insertRow key (f init) g t h]
  | some v =>
    have e1 : Table.upsert key init f t = Table.update key f t := by
      simp [Table.upsert, h]
    have e2 : (Table.update key f t).get key = some (f v) := by
      simp [Table.get_update_self, h]
    rw [e1]
    simp [Table.upsert, h, e2, Table.update_update]

theorem Table.length_upsert (key : Labels) (init : β) (f : β → β) (t : Table β) :
    (Table.upsert key init f t).length =
      if (t.get key).isSome then t.length else t.length + 1 := by
  unfold Table.upsert
  cases h : t.get key with
  | none => simpa using (Table.insertRow_perm key (f init) t).length_eq
  | some v => simpa using congrArg List.length (Table.map_fst_update key f t)

theorem Table.mem_keys_upsert (key : Labels) (init : β) (f : β → β) (t : Table β)
    (other : Labels) :
    other ∈ (Table.upsert key init f t).map Prod.fst ↔ other = key ∨ other ∈ t.map Prod.fst := by
  unfold Table.upsert
  cases h : t.get key with
  | none =>
    have hp := ((Table.insertRow_perm key (f init) t).map Prod.fst).mem_iff (a := other)
    simpa using hp
  | some v =>
    have hk : key ∈ t.map Prod.fst := by
      by_contra hc
      rw [(Table.get_eq_none_iff t key).2 hc] at h
      cases h
    simp only [Table.map_fst_update]
    constructor
    · exact Or.inr
    · rintro (rfl | h2)
      · exact hk
      · exact h2

theorem Table.nodup_keys_upsert (key : Labels) (init : β) (f : β → β) (t : Table β)
    (hnd : (t.map Prod.fst).Nodup) : ((Table.upsert key init f t).map Prod.fst).Nodup := by
  unfold Table.upsert
  cases h : t.get key with
  | none =>
    have hp := (Table.insertRow_perm key (f init) t).map Prod.fst
    refine (List.Perm.nodup_iff hp).2 ?_
    simp only [List.map_cons]
    exact List.nodup_cons.2 ⟨(Table.get_eq_none_iff t key).1 h, hnd⟩
  | some v => simpa [Table.map_fst_update] using hnd

theorem Table.mem_of_get {t : Table β} {key : Labels} {v : β} (h : t.get key = some v) :
    (key, v) ∈ t := by
  induction t with
  | nil => simp [Table.get] at h
  | cons r rest ih =>
    obtain ⟨k, w⟩ := r
    by_cases hk : k = key
    · simp [Table.get, hk] at h
      simp [hk, h]
    · simp only [Table.get, hk, if_false] at h
      exact List.mem_cons_of_mem _ (ih h)

end TableLemmas

/-! ## Lemmas: the API calls -/

theorem joinLines_append (a b : List String) :
    joinLines (a ++ b) = joinLines a ++ joinLines b := by
  induction a with
  | nil => simp [joinLines]
  | cons l rest ih => simp [joinLines, ih, String.append_assoc]

theorem SubDef.addSample_addSample (key : Labels) (n k : Nat) (d : SubDef) :
    SubDef.addSample key (Dec.ofNat k) (SubDef.addSample key (Dec.ofNat n) d) =
      SubDef.addSample key (Dec.ofNat (n + k)) d := by
  simp [SubDef.addSample, Table.upsert_upsert, Dec.add_ofNat_add_ofNat]

theorem prom_metric_incr_incr (p : Option Pool) (metric : Option Metric) (n k : Nat)
    (L : Option Labels) :
    (prom_metric_incr p metric n L >>= fun m1 => prom_metric_incr p (some m1) k L) =
      prom_metric_incr p metric (n + k) L := by
  cases p with
  | none => rfl
  | some u =>
    cases metric with
    | none => rfl
    | some m =>
      obtain ⟨name, dbh, c, g, h⟩ := m
      cases c <;> cases g <;>
        simp [prom_metric_incr, bind, Except.bind, SubDef.addSample_addSample]

/-! ## Lemmas: histograms -/

theorem bumpBuckets_get (v : Dec) :
    ∀ (bs cs : List Dec) (i : Nat) (b cnt : Dec), bs[i]? = some b → cs[i]? = some cnt →
      (bumpBuckets v bs cs)[i]? = some (if v.le b then cnt.add (Dec.ofNat 1) else cnt)
  | [], _, _, _, _, hb, _ => by simp at hb
  | _ :: _, [], _, _, _, _, hc => by simp at hc
  | b0 :: bs, c0 :: cs, 0, b, cnt, hb, hc => by
    simp at hb hc
    simp [bumpBuckets, hb, hc]
  | b0 :: bs, c0 :: cs, i + 1, b, cnt, hb, hc => by
    simp at hb hc
    simpa [bumpBuckets] using bumpBuckets_get v bs cs i b cnt hb hc

theorem bumpBuckets_length (v : Dec) :
    ∀ (bs cs : List Dec), (bumpBuckets v bs cs).length = min bs.length cs.length
  | [], _ => by simp [bumpBuckets]
  | _ :: _, [] => by simp [bumpBuckets]
  | b0 :: bs, c0 :: cs => by
    simp [bumpBuckets, bumpBuckets_length v bs cs, Nat.succ_min_succ]

theorem allBucketEntries_length_nil (rows : Table HistRow) :
    (allBucketEntries [] rows).length = rows.length := by
  induction rows with
  | nil => rfl
  | cons kr rest ih =>
    obtain ⟨k, r⟩ := kr
    simp [allBucketEntries, bucketEntries, ih]

theorem length_eq_distinct (keys : List Labels) (calls : List (Option Labels))
    (hnd : keys.Nodup) (hmem : ∀ k, k ∈ keys ↔ k ∈ calls.map labelKey) :
    keys.length = distinctLabelSets calls := by
  unfold distinctLabelSets
  apply List.Perm.length_eq
  refine (List.perm_ext_iff_of_nodup hnd (List.nodup_dedup _)).2 ?_
  intro k
  rw [hmem k, List.mem_dedup]

theorem observeMany_spec :
    ∀ (obs : List (Dec × Option Labels)) (M : String) (dbh : Dbh) (c g : Option SubDef)
      (hd : HistDef), (hd.rows.map Prod.fst).Nodup →
      ∃ rows2 : Table HistRow,
        observeMany { name := M, dbh := dbh, counter := c, gauge := g, histogram := some hd } obs
          = .ok { name := M, dbh := dbh, counter := c, gauge := g,
                  histogram := some { hd with rows := rows2 } }
        ∧ (rows2.map Prod.fst).Nodup
        ∧ ∀ k, k ∈ rows2.map Prod.fst ↔
            (k ∈ hd.rows.map Prod.fst ∨ k ∈ (obs.map Prod.snd).map labelKey)
  | [], M, dbh, c, g, hd, hnd => ⟨hd.rows, rfl, hnd, by simp⟩
  | (v, L) :: rest, M, dbh, c, g, hd, hnd => by
    have hnd2 := Table.nodup_keys_upsert (labelKey L) (zeroRow hd.bounds)
      (observeRow hd.bounds v) hd.rows hnd
    obtain ⟨rows2, h1, h2, h3⟩ := observeMany_spec rest M dbh c g
      { hd with rows := hd.rows.upsert (labelKey L) (zeroRow hd.bounds) (observeRow hd.bounds v) }
      hnd2
    refine ⟨rows2, ?_, h2, ?_⟩
    · simpa [observeMany, prom_metric_observe, HistDef.observe] using h1
    · intro k
      rw [h3 k]
      simp only [Table.mem_keys_upsert, List.map_cons, List.mem_cons]
      tauto

theorem incrMany_spec :
    ∀ (calls : List (Nat × Option Labels)) (M : String) (dbh : Dbh) (c g : SubDef)
      (h : Option HistDef), (c.samples.map Prod.fst).Nodup → (g.samples.map Prod.fst).Nodup →
      ∃ cs gs : Table Dec,
        incrMany { name := M, dbh := dbh, counter := some c, gauge := some g, histogram := h }
            calls
          = .ok { name := M, dbh := dbh, counter := some { c with samples := cs },
                  gauge := some { g with samples := gs }, histogram := h }
        ∧ (cs.map Prod.fst).Nodup ∧ (gs.map Prod.fst).Nodup
        ∧ (∀ k, k ∈ cs.map Prod.fst ↔
            (k ∈ c.samples.map Prod.fst ∨ k ∈ (calls.map Prod.snd).map labelKey))
        ∧ (∀ k, k ∈ gs.map Prod.fst ↔
            (k ∈ g.samples.map Prod.fst ∨ k ∈ (calls.map Prod.snd).map labelKey))
  | [], M, dbh, c, g, h, hc, hg => ⟨c.samples, g.samples, rfl, hc, hg, by simp, by simp⟩
  | (n, L) :: rest, M, dbh, c, g, h, hc, hg => by
    have hc2 := Table.nodup_keys_upsert (labelKey L) (Dec.ofNat 0)
      (fun v => v.add (Dec.ofNat n)) c.samples hc
    have hg2 := Table.nodup_keys_upsert (labelKey L) (Dec.ofNat 0)
      (fun v => v.add (Dec.ofNat n)) g.samples hg
    obtain ⟨cs, gs, h1, h2, h3, h4, h5⟩ := incrMany_spec rest M dbh
      (SubDef.addSample (labelKey L) (Dec.ofNat n) c)
      (SubDef.addSample (labelKey L) (Dec.ofNat n) g) h hc2 hg2
    refine ⟨cs, gs, ?_, h2, h3, ?_, ?_⟩
    · simpa [incrMany, prom_metric_incr, SubDef.addSample] using h1
    · intro k
      rw [h4 k]
      simp only [SubDef.addSample, Table.mem_keys_upsert, List.map_cons, List.mem_cons]
      tauto
    · intro k
      rw [h5 k]
      simp only [SubDef.addSample, Table.mem_keys_upsert, List.map_cons, List.mem_cons]
      tauto

/-! ## Lemmas: the registry -/

theorem findMetric_append_of_none (name : String) (m : Metric) :
    ∀ l : List Metric, findMetric name l = none →
      findMetric name (l ++ [m]) = if m.name = name then some m else none
  | [], _ => by simp [findMetric]
  | x :: rest, h => by
    by_cases hx : x.name = name
    · simp [findMetric, hx] at h
    · simp only [findMetric, hx, if_false] at h
      simpa [findMetric, hx] using findMetric_append_of_none name m rest h

/-! ## Lemmas: the metrics datastore -/

theorem Database.table_append_of_none (db : Database) (t : SqlTable) (name : String)
    (h : db.table name = none) :
    Database.table (db ++ [t]) name = if t.name = name then some t else none := by
  induction db with
  | nil => simp [Database.table]
  | cons x rest ih =>
    by_cases hx : x.name = name
    · simp [Database.table, hx] at h
    · simp only [Database.table, hx, if_false] at h
      simpa [Database.table, hx] using ih h

theorem Database.table_append_of_some (db : Database) (t u : SqlTable) (name : String)
    (h : db.table name = some u) : Database.table (db ++ [t]) name = some u := by
  induction db with
  | nil => simp [Database.table] at h
  | cons x rest ih =>
    by_cases hx : x.name = name
    · simpa [Database.table, hx] using h
    · simp only [Database.table, hx, if_false] at h
      simpa [Database.table, hx] using ih h

theorem Database.table_map_clear (db : Database) (name : String) :
    Database.table (db.map (fun t => { t with rows := [] })) name =
      (db.table name).map (fun t => { t with rows := [] }) := by
  induction db with
  | nil => rfl
  | cons x rest ih =>
    by_cases hx : x.name = name
    · simp [Database.table, hx]
    · simp [Database.table, hx, ih]

theorem Disk.read_write (disk : Disk) (path : String) (db : Database) :
    Disk.read (disk.write path db) path = some db := by
  induction disk with
  | nil => simp [Disk.write, Disk.read]
  | cons x rest ih =>
    obtain ⟨p, old⟩ := x
    by_cases hp : p = path
    · simp [Disk.write, Disk.read, hp]
    · simp [Disk.write, Disk.read, hp, ih]

theorem Disk.write_read_self (disk : Disk) (path : String) (db : Database)
    (h : disk.read path = some db) : disk.write path db = disk := by
  induction disk with
  | nil => simp [Disk.read] at h
  | cons x rest ih =>
    obtain ⟨p, old⟩ := x
    by_cases hp : p = path
    · simp [Disk.read, hp] at h
      simp [Disk.write, hp, h]
    · simp only [Disk.read, hp, if_false] at h
      simp [Disk.write, hp, ih h]

theorem ensureTable_of_has (db : Database) (name : String) (columns : List Column)
    (h : (db.table name).isSome = true) : ensureTable db name columns = db := by
  unfold ensureTable
  cases hn : db.table name with
  | none => simp [hn] at h
  | some v => rfl

theorem ensureTable_has (db : Database) (name : String) (columns : List Column) :
    (Database.table (ensureTable db name columns) name).isSome = true := by
  unfold ensureTable
  cases hn : db.table name with
  | none => simp [Database.table_append_of_none db _ name hn]
  | some v => simp [hn]

theorem ensureTable_keeps (db : Database) (name : String) (columns : List Column) :
    (∀ t ∈ db, t ∈ ensureTable db name columns) ∧
      ∀ other u, db.table other = some u →
        Database.table (ensureTable db name columns) other = some u := by
  unfold ensureTable
  cases hn : db.table name with
  | none =>
    exact ⟨fun t ht => List.mem_append_left _ ht,
      fun other u hu => Database.table_append_of_some db _ u other hu⟩
  | some v => exact ⟨fun t ht => ht, fun _ _ hu => hu⟩

theorem ensureTable_has_other (db : Database) (name other : String) (columns : List Column)
    (h : (db.table other).isSome = true) :
    (Database.table (ensureTable db name columns) other).isSome = true := by
  cases hx : db.table other with
  | none => simp [hx] at h
  | some u => simp [(ensureTable_keeps db name columns).2 other u hx]

/-- The schema creation written out: the database it leaves and its result for
each way the engine can fail. -/
theorem metrics_db_add_schema_eq (env : DbEnv) (db : Database) :
    metrics_db_add_schema env db =
      if env.samples_fails then (.error .EPERM, db)
      else if env.metrics_fails then
        (.error .EPERM, ensureTable db "samples"
          [{ name := "sample_id", type := .INTEGER, notNull := true, primaryKey := true,
             unique := false },
           { name := "metric_id", type := .INTEGER, notNull := true, primaryKey := false,
             unique := false },
           { name := "sample_value", type := .FLOAT, notNull := true, primaryKey := false,
             unique := false }])
      else
        (.ok (), ensureTable (ensureTable db "samples"
          [{ name := "sample_id", type := .INTEGER, notNull := true, primaryKey := true,
             unique := false },
           { name := "metric_id", type := .INTEGER, notNull := true, primaryKey := false,
             unique := false },
           { name := "sample_value", type := .FLOAT, notNull := true, primaryKey := false,
             unique := false }]) "metrics"
          [{ name := "metric_id", type := .INTEGER, notNull := true, primaryKey := true,
             unique := false },
           { name := "metric_name", type := .TEXT, notNull := true, primaryKey := false,
             unique := false },
           { name := "metric_labels", type := .TEXT, notNull := false, primaryKey := false,
             unique := false }]) := by
  unfold metrics_db_add_schema samplesStmt metricsStmt prom_db_exec_stmt
  cases env.samples_fails <;> cases env.metrics_fails <;> simp

theorem metrics_db_add_schema_of_tables (env : DbEnv) (db : Database)
    (hs : (db.table "samples").isSome = true) (hm : (db.table "metrics").isSome = true) :
    metrics_db_add_schema env db =
      (if env.samples_fails || env.metrics_fails then .error .EPERM else .ok (), db) := by
  rw [metrics_db_add_schema_eq]
  rw [ensureTable_of_has db "samples" _ hs, ensureTable_of_has db "metrics" _ hm]
  cases env.samples_fails <;> cases env.metrics_fails <;> simp

theorem metrics_db_add_schema_twice (env : DbEnv) (db : Database) :
    metrics_db_add_schema env (metrics_db_add_schema env db).2 =
      metrics_db_add_schema env db := by
  rw [metrics_db_add_schema_eq env db]
  cases hf : env.samples_fails with
  | true => simp [metrics_db_add_schema_eq, hf]
  | false =>
    cases hg : env.metrics_fails with
    | true =>
      simp only [Bool.false_eq_true, if_false, if_true]
      rw [metrics_db_add_schema_eq, hf, hg]
      simp only [Bool.false_eq_true, if_false, if_true]
      rw [ensureTable_of_has _ "samples" _ (ensureTable_has db "samples" _)]
    | false =>
      simp only [Bool.false_eq_true, if_false]
      rw [metrics_db_add_schema_of_tables env _
        (ensureTable_has_other _ "metrics" "samples" _ (ensureTable_has db "samples" _))
        (ensureTable_has _ "metrics" _)]
      simp [hf, hg]

/-! ## Lemmas: the module -/

theorem findMetric_name (name : String) (l : List Metric) (m : Metric)
    (h : findMetric name l = some m) : m.name = name := by
  induction l with
  | nil => simp [findMetric] at h
  | cons x rest ih =>
    unfold findMetric at h
    split at h
    · cases h
      assumption
    · exact ih h

theorem prom_registry_get_metric_name (registry : Option Registry) (name : String) (m : Metric)
    (h : prom_registry_get_metric registry (some name) = .ok m) : m.name = name := by
  unfold prom_registry_get_metric at h
  cases registry with
  | none => simp at h
  | some r =>
    simp only at h
    cases hf : findMetric name r.metrics with
    | none => simp [hf] at h
    | some m2 =>
      simp only [hf, Except.ok.injEq] at h
      subst h
      exact findMetric_name name r.metrics m2 hf

theorem pr_table_get_none (t : List (String × String)) (key : String)
    (h : key ∉ t.map Prod.fst) : pr_table_get t key = none := by
  induction t with
  | nil => rfl
  | cons kv rest ih =>
    obtain ⟨k, v⟩ := kv
    simp only [List.map_cons, List.mem_cons, not_or] at h
    unfold pr_table_get
    rw [if_neg (fun e => h.1 e.symm)]
    exact ih h.2

theorem pr_table_add_new (t : Labels) (key val : String) (h : key ∉ t.map Prod.fst) :
    pr_table_add t key val = t ++ [(key, val)] := by
  unfold pr_table_add
  rw [pr_table_get_none t key h]

theorem pr_table_add_all (pairs : List (String × String)) :
    ∀ t : Labels, (t.map Prod.fst ++ pairs.map Prod.fst).Nodup →
      pairs.foldl (fun t kv => pr_table_add t kv.1 kv.2) t = t ++ pairs := by
  induction pairs with
  | nil => intro t _; simp
  | cons kv rest ih =>
    intro t h
    have hk : kv.1 ∉ t.map Prod.fst := by
      intro hm
      rw [List.nodup_append] at h
      exact h.2.2 hm (by simp)
    rw [List.foldl_cons, pr_table_add_new t kv.1 kv.2 hk, ih]
    · simp
    · simpa using h

theorem lookupCall_declined (api : MetricApi) (op : MetricOp) (metric_name : String) (val : Nat)
    (labels : Labels) (acc : Module × List MetricCall) :
    (declined (lookupCall api op metric_name val labels acc)).ret = .DECLINED := rfl

theorem MetricApi.run_failing (e : Errno) (op : MetricOp) (p : Option Pool)
    (metric : Option Metric) (val : Nat) (labels : Option Labels) :
    (MetricApi.failing e).run op p metric val labels = .error e := by
  cases op <;> rfl

/-! ## Lemmas: start-up -/

theorem buildMetric_null (name : String) (counter_suffix : Option String) (counter_help : String)
    (gauge : Option (String × String)) :
    buildMetric none name counter_suffix counter_help gauge = none := by
  cases gauge <;> rfl

theorem registerMetric_null (registry : Option Registry) :
    registerMetric registry none = (registry, false) := by
  cases registry <;> rfl

theorem registerAll_null (l : List (Option Metric)) (h : ∀ m ∈ l, m = none)
    (registry : Option Registry) :
    l.foldl (fun r metric => (registerMetric r metric).1) registry = registry := by
  induction l generalizing registry with
  | nil => rfl
  | cons m rest ih =>
    have hm : m = none := h m (by simp)
    subst hm
    rw [List.foldl_cons, registerMetric_null]
    exact ih (fun m hmem => h m (List.mem_cons_of_mem _ hmem)) registry

theorem create_server_metrics_null (registry : Option Registry) :
    create_server_metrics none registry = registry := by
  unfold create_server_metrics
  apply registerAll_null
  intro m hm
  simp only [buildMetric_null, List.mem_cons, List.mem_singleton, List.not_mem_nil,
    or_false, or_self] at hm
  exact hm

theorem create_session_metrics_null (registry : Option Registry) :
    create_session_metrics none registry = registry := by
  unfold create_session_metrics
  apply registerAll_null
  intro m hm
  simp only [buildMetric_null, List.mem_cons, List.mem_singleton, List.not_mem_nil,
    or_false, or_self] at hm
  exact hm

theorem create_metrics_null (proftpd_version mod_version : String) (now : Int) (name : String) :
    create_metrics proftpd_version mod_version now none (some { name := name, metrics := [] }) =
      some { name := name, metrics := [] } := by
  unfold create_metrics
  simp only [buildMetric_null, registerMetric_null]
  simp only [create_server_metrics_null, create_session_metrics_null,
    prom_registry_sort_metrics, List.foldr]

/-! ## Lemmas: stopping the exporter -/

theorem signalsSent_append (a b : List StopEvent) :
    signalsSent (a ++ b) = signalsSent a ++ signalsSent b := by
  induction a with
  | nil => rfl
  | cons x rest ih =>
    cases x <;> simp [signalsSent, ih]

theorem signalsSent_signalError (sig : Signal) (r : Except Errno Unit) :
    signalsSent (signalError sig r) = [] := by
  cases r <;> rfl

theorem sleepCount_append (a b : List StopEvent) :
    sleepCount (a ++ b) = sleepCount a + sleepCount b := by
  induction a with
  | nil => simp [sleepCount]
  | cons x rest ih =>
    cases x <;> simp [sleepCount, ih]
    omega

theorem sleepCount_signalError (sig : Signal) (r : Except Errno Unit) :
    sleepCount (signalError sig r) = 0 := by
  cases r <;> rfl

/-- The loop sends no signal, or `SIGKILL` once as its last signal, and then
only after the clock, read after the sleeps made so far, has passed the
timeout. -/
theorem stopLoop_signals (env : StopEnv) (pid start_time timeout : Int) :
    ∀ (fuel : Nat) (res : WaitRes) (sleeps handled : Nat),
      signalsSent (stopLoop env pid start_time timeout fuel res sleeps handled).1 = []
      ∨ (signalsSent (stopLoop env pid start_time timeout fuel res sleeps handled).1 = [.SIGKILL]
          ∧ (stopLoop env pid start_time timeout fuel res sleeps handled).2 = .left none
          ∧ env.clock
              (sleeps + sleepCount (stopLoop env pid start_time timeout fuel res sleeps handled).1)
              - start_time > timeout) := by
  intro fuel
  induction fuel with
  | zero =>
    intro res sleeps handled
    cases res <;> simp [stopLoop, signalsSent]
  | succ fuel ih =>
    intro res sleeps handled
    cases res with
    | exited status => simp [stopLoop, signalsSent]
    | failed e =>
      unfold stopLoop
      by_cases h1 : e = .EINTR
      · simp only [h1, if_true]
        rcases ih (.failed ((env.signals_errno handled).getD Errno.EINTR)) sleeps (handled + 1)
          with h | h
        · left
          simpa [signalsSent] using h
        · right
          simpa [signalsSent, sleepCount] using h
      · by_cases h2 : e = .ECHILD
        · simp [h2, signalsSent]
        · simp [h1, h2, signalsSent]
    | running =>
      unfold stopLoop
      by_cases h : env.clock sleeps - start_time > timeout
      · right
        rw [if_pos h]
        refine ⟨?_, rfl, ?_⟩
        · simp [signalsSent, signalsSent_signalError]
        · simpa [sleepCount, sleepCount_signalError] using h
      · simp only [h, if_false]
        rcases ih .running (sleeps + 1) handled with h2 | ⟨h2, h3, hc⟩
        · left
          simpa [signalsSent] using h2
        · right
          refine ⟨by simpa [signalsSent] using h2, h3, ?_⟩
          have e : sleeps + (sleepCount
              (stopLoop env pid start_time timeout fuel .running (sleeps + 1) handled).1 + 1) =
              sleeps + 1 + sleepCount
                (stopLoop env pid start_time timeout fuel .running (sleeps + 1) handled).1 := by
            omega
          simp only [sleepCount, e]
          exact hc

/-- Every signal of the loop goes to the PID the function was called with. -/
theorem stopLoop_signal_pid (env : StopEnv) (pid start_time timeout : Int) :
    ∀ (fuel : Nat) (res : WaitRes) (sleeps handled : Nat) (p : Int) (sig : Signal),
      StopEvent.signal p sig ∈ (stopLoop env pid start_time timeout fuel res sleeps handled).1 →
        p = pid ∧ sig = .SIGKILL := by
  intro fuel
  induction fuel with
  | zero => intro res sleeps handled p sig; cases res <;> simp [stopLoop]
  | succ fuel ih =>
    intro res sleeps handled p sig
    cases res with
    | exited status => simp [stopLoop]
    | failed e =>
      unfold stopLoop
      by_cases h1 : e = .EINTR
      · simp only [h1, if_true, List.mem_cons]
        rintro (h | h)
        · cases h
        · exact ih _ _ _ p sig h
      · by_cases h2 : e = .ECHILD
        · simp [h2]
        · simp [h1, h2]
    | running =>
      unfold stopLoop
      by_cases h : env.clock sleeps - start_time > timeout
      · rw [if_pos h]
        simp only [List.mem_cons]
        rintro (h | h | h)
        · cases h
        · cases h
          exact ⟨rfl, rfl⟩
        · cases hk : env.kill <;> simp [signalError, hk] at h
      · simp only [h, if_false, List.mem_cons]
        rintro (h | h)
        · cases h
        · exact ih _ _ _ p sig h

/-- The loop does not read what `waitpid` would return. -/
theorem stopLoop_waitpid (env : StopEnv) (w : Nat → WaitRes) (pid start_time timeout : Int) :
    ∀ (fuel : Nat) (res : WaitRes) (sleeps handled : Nat),
      stopLoop { env with waitpid := w } pid start_time timeout fuel res sleeps handled =
        stopLoop env pid start_time timeout fuel res sleeps handled := by
  intro fuel
  induction fuel with
  | zero => intro res sleeps handled; cases res <;> rfl
  | succ fuel ih =>
    intro res sleeps handled
    cases res with
    | exited status => rfl
    | failed e =>
      unfold stopLoop
      simp only [ih]
    | running =>
      unfold stopLoop
      simp only [ih]

/-- The loop calls `waitpid` in none of its iterations. -/
theorem stopLoop_no_waitpid (env : StopEnv) (pid start_time timeout : Int) :
    ∀ (fuel : Nat) (res : WaitRes) (sleeps handled : Nat) (p : Int),
      StopEvent.waitpid p ∉ (stopLoop env pid start_time timeout fuel res sleeps handled).1 := by
  intro fuel
  induction fuel with
  | zero => intro res sleeps handled p; cases res <;> simp [stopLoop]
  | succ fuel ih =>
    intro res sleeps handled p
    cases res with
    | exited status => simp [stopLoop]
    | failed e =>
      unfold stopLoop
      by_cases h1 : e = .EINTR
      · simp only [h1, if_true, List.mem_cons, not_or]
        exact ⟨by simp, ih _ _ _ p⟩
      · by_cases h2 : e = .ECHILD
        · simp [h2]
        · simp [h1, h2]
    | running =>
      unfold stopLoop
      by_cases h : env.clock sleeps - start_time > timeout
      · simp only [h, if_true, List.mem_cons, not_or]
        refine ⟨by simp, by simp, ?_⟩
        cases env.kill <;> simp [signalError]
      · simp only [h, if_false, List.mem_cons, not_or]
        exact ⟨by simp, ih _ _ _ p⟩

/-- An interrupted `waitpid` whose `errno` no signal handler changes keeps the
loop going for as long as it is followed. -/
theorem stopLoop_eintr (env : StopEnv) (pid start_time timeout : Int)
    (hs : ∀ k, env.signals_errno k = none) :
    ∀ (fuel sleeps handled : Nat),
      (stopLoop env pid start_time timeout fuel (.failed .EINTR) sleeps handled).2 =
        .unfinished := by
  intro fuel
  induction fuel with
  | zero => intro sleeps handled; rfl
  | succ fuel ih =>
    intro sleeps handled
    unfold stopLoop
    simp only [if_true, hs, Option.getD_none]
    exact ih sleeps (handled + 1)

theorem signal_not_mem_signalError (p : Int) (s sig : Signal) (r : Except Errno Unit) :
    StopEvent.signal p s ∉ signalError sig r := by
  cases r <;> simp [signalError]

/-- The events of a run that gets past the probe: the probe, the stop of the
listener, `SIGTERM`, the first sleep and the one call of `waitpid`, then the
events of the loop, then the report when the run completes. -/
theorem prom_exporter_stop_events (env : StopEnv) (fuel : Nat) (st : Module)
    (exporter_pid : Int) (h0 : exporter_pid ≠ 0) (h1 : env.probe ≠ .error .ESRCH) :
    ∃ tail : List StopEvent,
      (prom_exporter_stop env fuel st exporter_pid).events =
        [StopEvent.probe exporter_pid, .http_stop, .signal exporter_pid .SIGTERM]
          ++ signalError .SIGTERM env.term ++ [.sleep, .waitpid exporter_pid]
          ++ (stopLoop env exporter_pid (env.clock 0) st.prometheus_exporter_timeout fuel
              (env.waitpid 1) 1 0).1 ++ tail
      ∧ (tail = [] ∨ ∃ status, tail = [.report status]) := by
  unfold prom_exporter_stop
  simp only [h0, h1, if_false]
  split
  · exact ⟨[], by simp, Or.inl rfl⟩
  · exact ⟨[], by simp, Or.inl rfl⟩
  · next status _ => exact ⟨[.report status], rfl, Or.inr ⟨status, rfl⟩⟩

theorem prom_exporter_stop_signals (env : StopEnv) (fuel : Nat) (st : Module)
    (exporter_pid : Int) (h0 : exporter_pid ≠ 0) (h1 : env.probe ≠ .error .ESRCH) :
    signalsSent (prom_exporter_stop env fuel st exporter_pid).events =
        .SIGTERM :: signalsSent
          (stopLoop env exporter_pid (env.clock 0) st.prometheus_exporter_timeout fuel
            (env.waitpid 1) 1 0).1
    ∧ sleepCount (prom_exporter_stop env fuel st exporter_pid).events =
        1 + sleepCount
          (stopLoop env exporter_pid (env.clock 0) st.prometheus_exporter_timeout fuel
            (env.waitpid 1) 1 0).1 := by
  obtain ⟨tail, he, ht⟩ := prom_exporter_stop_events env fuel st exporter_pid h0 h1
  rw [he]
  simp only [signalsSent_append, sleepCount_append, signalsSent_signalError,
    sleepCount_signalError]
  rcases ht with rfl | ⟨status, rfl⟩
  · simp [signalsSent, sleepCount]
  · simp [signalsSent, sleepCount]

theorem strrchr_none (l : List Char) (c : Char) (h : c ∉ l) : strrchr l c = none := by
  induction l with
  | nil => rfl
  | cons x rest ih =>
    simp only [List.mem_cons, not_or] at h
    unfold strrchr
    rw [ih h.2]
    simp only
    rw [if_neg (fun e => h.1 e.symm)]

theorem strrchr_append_last (l r : List Char) (c : Char) (h : c ∉ r) :
    strrchr (l ++ c :: r) c = some l.length := by
  induction l with
  | nil =>
    simp only [List.nil_append, List.length_nil]
    unfold strrchr
    rw [strrchr_none r c h]
    simp
  | cons x rest ih =>
    simp only [List.cons_append, List.length_cons]
    unfold strrchr
    rw [ih]

theorem strrchr_append_other (l r : List Char) (c d : Char) (h : c ∉ r) (hne : d ≠ c) :
    strrchr (l ++ d :: r) c = strrchr l c := by
  induction l with
  | nil =>
    simp only [List.nil_append]
    unfold strrchr
    rw [strrchr_none r c h]
    simp only
    rw [if_neg hne]
  | cons x rest ih =>
    simp only [List.cons_append]
    unfold strrchr
    rw [ih]

theorem strrchr_lt (l : List Char) (c : Char) :
    ∀ j, strrchr l c = some j → j < l.length := by
  induction l with
  | nil => intro j h; simp [strrchr] at h
  | cons x rest ih =>
    intro j h
    unfold strrchr at h
    cases hr : strrchr rest c with
    | some i =>
      simp only [hr, Option.some.injEq] at h
      have := ih i hr
      simp only [List.length_cons]
      omega
    | none =>
      simp only [hr] at h
      split at h
      · simp only [Option.some.injEq] at h
        simp only [List.length_cons]
        omega
      · cases h

theorem strrchr_of_mem (l : List Char) (c : Char) (h : c ∈ l) : ∃ j, strrchr l c = some j := by
  cases hs : strrchr l c with
  | some j => exact ⟨j, rfl⟩
  | none =>
    exfalso
    induction l with
    | nil => cases h
    | cons x rest ih =>
      unfold strrchr at hs
      cases hr : strrchr rest c with
      | some k => simp [hr] at hs
      | none =>
        simp only [hr] at hs
        split at hs
        · cases hs
        · next hx =>
          rcases List.mem_cons.mp h with e | e
          · exact hx e.symm
          · exact ih e hr

theorem strrchr_some (l : List Char) (c : Char) :
    ∀ i, strrchr l c = some i → l = l.take i ++ c :: l.drop (i + 1) ∧ c ∉ l.drop (i + 1) := by
  induction l with
  | nil => intro i h; simp [strrchr] at h
  | cons x rest ih =>
    intro i h
    unfold strrchr at h
    cases hr : strrchr rest c with
    | some j =>
      simp only [hr, Option.some.injEq] at h
      subst h
      obtain ⟨h1, h2⟩ := ih j hr
      refine ⟨?_, ?_⟩
      · simp only [List.take_succ_cons, List.drop_succ_cons, List.cons_append]
        rw [← h1]
      · simpa using h2
    | none =>
      simp only [hr] at h
      split at h
      · next hx =>
        simp only [Option.some.injEq] at h
        subst h
        subst hx
        refine ⟨by simp, ?_⟩
        simp only [Nat.zero_add, List.drop_succ_cons, List.drop_zero]
        intro hm
        obtain ⟨j, hj⟩ := strrchr_of_mem rest x hm
        rw [hj] at hr
        cases hr
      · cases h

theorem strrchr_after (l r : List Char) (c d : Char) (h : c ∈ r) :
    ∃ j, strrchr (l ++ d :: r) c = some j ∧ l.length < j := by
  induction l with
  | nil =>
    obtain ⟨k, hk⟩ := strrchr_of_mem r c h
    refine ⟨k + 1, ?_, by simp⟩
    simp only [List.nil_append]
    unfold strrchr
    rw [hk]
  | cons x rest ih =>
    obtain ⟨j, hj, hlt⟩ := ih
    refine ⟨j + 1, ?_, by simp only [List.length_cons]; omega⟩
    simp only [List.cons_append]
    unfold strrchr
    rw [hj]

/-- The port delimiter is the last `:` of the parameter, and it is one exactly
when no `]` stands after that `:`. -/
theorem portDelimiter_iff (arg : List Char) (i : Nat) :
    portDelimiter arg = some i ↔
      ∃ l r, arg = l ++ ':' :: r ∧ i = l.length ∧ ':' ∉ r ∧ ']' ∉ r := by
  constructor
  · intro h
    unfold portDelimiter at h
    cases hc : strrchr arg ':' with
    | none => simp [hc] at h
    | some ptr =>
      simp only [hc] at h
      obtain ⟨hsplit, hno⟩ := strrchr_some arg ':' ptr hc
      have hlen : ptr < arg.length := strrchr_lt arg ':' ptr hc
      have hi : i = ptr := by
        cases hb : strrchr arg ']' with
        | none => simp only [hb, Option.some.injEq] at h; exact h.symm
        | some ptr2 =>
          simp only [hb] at h
          split at h
          · cases h
          · simp only [Option.some.injEq] at h; exact h.symm
      subst hi
      refine ⟨arg.take i, arg.drop (i + 1), hsplit, ?_, hno, ?_⟩
      · simp only [List.length_take]
        omega
      · intro hm
        obtain ⟨j, hj, hlt⟩ := strrchr_after (arg.take i) (arg.drop (i + 1)) ']' ':' hm
        rw [← hsplit] at hj
        simp only [List.length_take] at hlt
        simp only [hj] at h
        rw [if_pos (by omega)] at h
        cases h
  · rintro ⟨l, r, rfl, rfl, h1, h2⟩
    unfold portDelimiter
    rw [strrchr_append_last l r ':' h1]
    simp only
    rw [strrchr_append_other l r ']' ':' h2 (by decide)]
    cases hb : strrchr l ']' with
    | none => rfl
    | some ptr2 =>
      simp only
      have := strrchr_lt l ']' ptr2 hb
      rw [if_neg (by omega)]

theorem portDelimiter_none_of_no_colon (arg : List Char) (h : ':' ∉ arg) :
    portDelimiter arg = none := by
  unfold portDelimiter
  rw [strrchr_none arg ':' h]

theorem portDelimiter_bracketed (x : List Char) :
    portDelimiter ('[' :: x ++ [']']) = none := by
  unfold portDelimiter
  have e : '[' :: x ++ [']'] = ('[' :: x) ++ ']' :: [] := by simp
  rw [e, strrchr_append_other ('[' :: x) [] ':' ']' (by simp) (by decide),
    strrchr_append_last ('[' :: x) [] ']' (by simp)]
  cases hc : strrchr ('[' :: x) ':' with
  | none => rfl
  | some ptr =>
    simp only
    have := strrchr_lt ('[' :: x) ':' ptr hc
    rw [if_pos (by omega)]

theorem stripBrackets_plain (a : String) (h : '[' ∉ a.data) : stripBrackets a = a := by
  unfold stripBrackets
  rw [if_neg]
  rintro ⟨_, hh, _⟩
  cases hd : a.data with
  | nil => simp [hd] at hh
  | cons c rest =>
    simp only [hd, List.head?_cons, Option.some.injEq] at hh
    rw [hd, hh] at h
    exact h (by simp)

theorem stripBrackets_bracketed (x : List Char) :
    stripBrackets (String.mk ('[' :: x ++ [']'])) = String.mk x := by
  unfold stripBrackets
  rw [if_pos]
  · simp
  · refine ⟨by simp, by simp, ?_⟩
    have e : '[' :: x ++ [']'] = ('[' :: x) ++ [']'] := by simp
    simp only [e, List.getLast?_append, List.getLast?_singleton]
    simp

theorem digit_not_colon (p : List Char) (h : ∀ c ∈ p, c.isDigit = true) :
    ':' ∉ p ∧ ']' ∉ p := by
  constructor
  · intro hm
    have := h ':' hm
    revert this
    decide
  · intro hm
    have := h ']' hm
    revert this
    decide

theorem drop_after (l r : List Char) (c : Char) : (l ++ c :: r).drop (l.length + 1) = r := by
  induction l with
  | nil => rfl
  | cons x rest ih => simp [ih]

theorem take_before (l r : List Char) (c : Char) : (l ++ c :: r).take l.length = l := by
  induction l with
  | nil => rfl
  | cons x rest ih => simp [ih]

theorem startExporter_opts (env : StartEnv) (addr : String) (events : List StartEvent)
    (st : Module) :
    (startExporter env addr events st).st.prometheus_opts = st.prometheus_opts := by
  unfold startExporter
  simp only
  split <;> rfl

theorem startRegistry_opts (env : StartEnv) (events : List StartEvent) (st : Module) :
    (startRegistry env events st).st.prometheus_opts = st.prometheus_opts := by
  unfold startRegistry
  simp only
  cases env.exporter_conf with
  | none => rfl
  | some addr =>
    simp only
    cases env.http_init with
    | error e =>
      simp only
      split
      · rw [startExporter_opts]
      · rfl
    | ok u =>
      simp only
      rw [startExporter_opts]

/-- The postparse event changes `prometheus_opts` only by adding the masks of
the configuration to it. -/
theorem prom_postparse_ev_opts (env : StartEnv) (st : Module) :
    (prom_postparse_ev env st).st.prometheus_opts = st.prometheus_opts
    ∨ (prom_postparse_ev env st).st.prometheus_opts =
        env.options_conf.foldl (fun acc opts => acc ||| opts) st.prometheus_opts := by
  unfold prom_postparse_ev
  simp only
  split
  · left
    cases env.engine_conf <;> rfl
  · right
    cases env.tables_conf with
    | none =>
      simp only
      cases env.engine_conf <;> cases env.log_fd <;> rfl
    | some dir =>
      simp only
      cases env.metric_init (some dir) with
      | error e =>
        simp only [Except.toOption]
        split
        · rw [startRegistry_opts]
          cases env.engine_conf <;> cases env.log_fd <;> rfl
        · cases env.engine_conf <;> cases env.log_fd <;> rfl
      | ok h =>
        simp only [Except.toOption]
        rw [startRegistry_opts]
        cases env.engine_conf <;> cases env.log_fd <;> rfl

/-! ## Lemmas: handlers and byte buckets -/

theorem findMetric_store (name : String) (m : Metric) (l : List Metric) (x : Metric)
    (h : findMetric name l = some x) :
    ∃ y, findMetric name (l.map (fun x => if x.name = m.name then m else x)) = some y := by
  have hname : ∀ a : Metric, (if a.name = m.name then m else a).name = a.name := by
    intro a
    split
    · next e => exact e.symm
    · rfl
  induction l with
  | nil => simp [findMetric] at h
  | cons a rest ih =>
    unfold findMetric at h
    rw [List.map_cons]
    unfold findMetric
    rw [hname a]
    by_cases ha : a.name = name
    · rw [if_pos ha]
      exact ⟨_, rfl⟩
    · rw [if_neg ha] at h ⊢
      exact ih h

/-- A metric the registry holds is still found after a metric operation has
been recorded. -/
theorem lookup_record (st : Module) (res : Except Errno Metric) (name : String) (x : Metric)
    (h : prom_registry_get_metric st.prometheus_registry (some name) = .ok x) :
    ∃ y, prom_registry_get_metric (st.record res).prometheus_registry (some name) = .ok y := by
  cases res with
  | error e => exact ⟨x, h⟩
  | ok m =>
    unfold Module.record
    simp only
    cases hr : st.prometheus_registry with
    | none => rw [hr] at h; simp [prom_registry_get_metric] at h
    | some r =>
      rw [hr] at h
      unfold prom_registry_get_metric at h ⊢
      simp only [Option.map_some'] at h ⊢
      cases hf : findMetric name r.metrics with
      | none => simp [hf] at h
      | some x2 =>
        obtain ⟨y, hy⟩ := findMetric_store name m r.metrics x2 hf
        refine ⟨y, ?_⟩
        simp only [Registry.store, hy]

theorem Module.record_fields (st : Module) (res : Except Errno Metric) :
    (st.record res).prometheus_engine = st.prometheus_engine
    ∧ (st.record res).prometheus_retr_bytes = st.prometheus_retr_bytes
    ∧ (st.record res).prometheus_stor_bytes = st.prometheus_stor_bytes := by
  cases res <;> exact ⟨rfl, rfl, rfl⟩

/-- A lookup-and-call block leaves the engine flag and the byte buckets as they
are, keeps every metric findable, and adds at most the one call. -/
theorem lookupCall_fields (api : MetricApi) (op : MetricOp) (metric_name : String) (val : Nat)
    (labels : Labels) (acc : Module × List MetricCall) :
    (lookupCall api op metric_name val labels acc).1.prometheus_engine =
        acc.1.prometheus_engine
    ∧ (lookupCall api op metric_name val labels acc).1.prometheus_retr_bytes =
        acc.1.prometheus_retr_bytes
    ∧ (lookupCall api op metric_name val labels acc).1.prometheus_stor_bytes =
        acc.1.prometheus_stor_bytes
    ∧ (∀ name x, prom_registry_get_metric acc.1.prometheus_registry (some name) = .ok x →
        ∃ y, prom_registry_get_metric
          (lookupCall api op metric_name val labels acc).1.prometheus_registry (some name) =
            .ok y) := by
  unfold lookupCall
  split
  · next metric hm =>
    refine ⟨(Module.record_fields _ _).1, (Module.record_fields _ _).2.1,
      (Module.record_fields _ _).2.2, ?_⟩
    intro name x hx
    exact lookup_record _ _ name x hx
  · exact ⟨rfl, rfl, rfl, fun name x hx => ⟨x, hx⟩⟩

theorem lookupCall_hit (api : MetricApi) (op : MetricOp) (metric_name : String) (val : Nat)
    (labels : Labels) (acc : Module × List MetricCall) (x : Metric)
    (h : prom_registry_get_metric acc.1.prometheus_registry (some metric_name) = .ok x) :
    (lookupCall api op metric_name val labels acc).2 =
      acc.2 ++ [{ op := op, metric_name := metric_name, val := val, labels := labels }] := by
  unfold lookupCall
  simp only [h, prom_registry_get_metric_name _ _ _ h]

theorem incrementsOn_append (name : String) (a b : List MetricCall) :
    incrementsOn name (a ++ b) = incrementsOn name a ++ incrementsOn name b := by
  simp [incrementsOn]

/-- A decrement block adds no increment. -/
theorem incrementsOn_decr (api : MetricApi) (name metric_name : String) (val : Nat)
    (labels : Labels) (st : Module) :
    incrementsOn name (lookupCall api .decr metric_name val labels (st, [])).2 = [] := by
  unfold lookupCall
  split <;> simp [incrementsOn]

/-- One completed download with the byte metric present: the bucket and the
amount of the increment, in the arithmetic of the code. -/
theorem prom_log_retr_step (api : MetricApi) (st : Module) (s : Session) (x : Metric)
    (hengine : st.prometheus_engine = true)
    (hm : prom_registry_get_metric st.prometheus_registry (some "file_download_bytes") = .ok x) :
    (prom_log_retr api st s).st.prometheus_retr_bytes =
        Int.tmod (wrapOff (st.prometheus_retr_bytes + s.total_bytes)) 1024
    ∧ incrementsOn "file_download_bytes" (prom_log_retr api st s).calls =
        [toUint32 (Int.tdiv (wrapOff (st.prometheus_retr_bytes + s.total_bytes)) 1024)]
    ∧ (prom_log_retr api st s).st.prometheus_engine = true
    ∧ (∀ name y, prom_registry_get_metric st.prometheus_registry (some name) = .ok y →
        ∃ z, prom_registry_get_metric (prom_log_retr api st s).st.prometheus_registry
          (some name) = .ok z) := by
  have h1 := lookupCall_fields api .decr "file_download" 1 (prom_get_labels s) (st, [])
  obtain ⟨y, hy⟩ := h1.2.2.2 "file_download_bytes" x hm
  unfold prom_log_retr
  simp only [hengine, Bool.true_eq_false, if_false, hy]
  have h2 := lookupCall_fields api .incr "file_download_bytes"
    (toUint32 (Int.tdiv (wrapOff
      ((lookupCall api .decr "file_download" 1 (prom_get_labels s)
        (st, [])).1.prometheus_retr_bytes + s.total_bytes)) 1024))
    (prom_get_labels s)
    ({ (lookupCall api .decr "file_download" 1 (prom_get_labels s) (st, [])).1 with
        prometheus_retr_bytes := Int.tmod (wrapOff
          ((lookupCall api .decr "file_download" 1 (prom_get_labels s)
            (st, [])).1.prometheus_retr_bytes + s.total_bytes)) 1024 },
      (lookupCall api .decr "file_download" 1 (prom_get_labels s) (st, [])).2)
  have h3 := lookupCall_hit api .incr "file_download_bytes"
    (toUint32 (Int.tdiv (wrapOff
      ((lookupCall api .decr "file_download" 1 (prom_get_labels s)
        (st, [])).1.prometheus_retr_bytes + s.total_bytes)) 1024))
    (prom_get_labels s)
    ({ (lookupCall api .decr "file_download" 1 (prom_get_labels s) (st, [])).1 with
        prometheus_retr_bytes := Int.tmod (wrapOff
          ((lookupCall api .decr "file_download" 1 (prom_get_labels s)
            (st, [])).1.prometheus_retr_bytes + s.total_bytes)) 1024 },
      (lookupCall api .decr "file_download" 1 (prom_get_labels s) (st, [])).2) y hy
  simp only [declined]
  refine ⟨?_, ?_, ?_, ?_⟩
  · rw [h2.2.1]
    simp only [h1.2.1]
  · rw [h3, incrementsOn_append, incrementsOn_decr]
    simp only [h1.2.1]
    simp [incrementsOn]
  · rw [h2.1]
    simp only [h1.1, hengine]
  · intro name z hz
    obtain ⟨w, hw⟩ := h1.2.2.2 name z hz
    exact h2.2.2.2 name w hw

/-- One completed upload with the byte metric present: the bucket and the
amount of the increment, in the arithmetic of the code. -/
theorem prom_log_stor_step (api : MetricApi) (st : Module) (s : Session) (x : Metric)
    (hengine : st.prometheus_engine = true)
    (hm : prom_registry_get_metric st.prometheus_registry (some "file_upload_bytes") = .ok x) :
    (prom_log_stor api st s).st.prometheus_stor_bytes =
        Int.tmod (wrapOff (st.prometheus_stor_bytes + s.total_bytes)) 1024
    ∧ incrementsOn "file_upload_bytes" (prom_log_stor api st s).calls =
        [toUint32 (Int.tdiv (wrapOff (st.prometheus_stor_bytes + s.total_bytes)) 1024)]
    ∧ (prom_log_stor api st s).st.prometheus_engine = true
    ∧ (∀ name y, prom_registry_get_metric st.prometheus_registry (some name) = .ok y →
        ∃ z, prom_registry_get_metric (prom_log_stor api st s).st.prometheus_registry
          (some name) = .ok z) := by
  have h1 := lookupCall_fields api .decr "file_upload" 1 (prom_get_labels s) (st, [])
  obtain ⟨y, hy⟩ := h1.2.2.2 "file_upload_bytes" x hm
  unfold prom_log_stor
  simp only [hengine, Bool.true_eq_false, if_false, hy]
  have h2 := lookupCall_fields api .incr "file_upload_bytes"
    (toUint32 (Int.tdiv (wrapOff
      ((lookupCall api .decr "file_upload" 1 (prom_get_labels s)
        (st, [])).1.prometheus_stor_bytes + s.total_bytes)) 1024))
    (prom_get_labels s)
    ({ (lookupCall api .decr "file_upload" 1 (prom_get_labels s) (st, [])).1 with
        prometheus_stor_bytes := Int.tmod (wrapOff
          ((lookupCall api .decr "file_upload" 1 (prom_get_labels s)
            (st, [])).1.prometheus_stor_bytes + s.total_bytes)) 1024 },
      (lookupCall api .decr "file_upload" 1 (prom_get_labels s) (st, [])).2)
  have h3 := lookupCall_hit api .incr "file_upload_bytes"
    (toUint32 (Int.tdiv (wrapOff
      ((lookupCall api .decr "file_upload" 1 (prom_get_labels s)
        (st, [])).1.prometheus_stor_bytes + s.total_bytes)) 1024))
    (prom_get_labels s)
    ({ (lookupCall api .decr "file_upload" 1 (prom_get_labels s) (st, [])).1 with
        prometheus_stor_bytes := Int.tmod (wrapOff
          ((lookupCall api .decr "file_upload" 1 (prom_get_labels s)
            (st, [])).1.prometheus_stor_bytes + s.total_bytes)) 1024 },
      (lookupCall api .decr "file_upload" 1 (prom_get_labels s) (st, [])).2) y hy
  simp only [declined]
  refine ⟨?_, ?_, ?_, ?_⟩
  · rw [h2.2.2.1]
    simp only [h1.2.2.1]
  · rw [h3, incrementsOn_append, incrementsOn_decr]
    simp only [h1.2.2.1]
    simp [incrementsOn]
  · rw [h2.1]
    simp only [h1.1, hengine]
  · intro name z hz
    obtain ⟨w, hw⟩ := h1.2.2.2 name z hz
    exact h2.2.2.2 name w hw

/-- The arithmetic of the bucket for a bucket in 0..1023 and a byte count that
keeps the quotient within 32 bits. -/
theorem bucket_arith (bucket bytes : Int) (h0 : 0 ≤ bucket) (h1 : bucket ≤ 1023)
    (hb : 0 ≤ bytes) (hq : bytes + 1023 < 2 ^ 42) :
    Int.tmod (wrapOff (bucket + bytes)) 1024 = (bucket + bytes) % 1024
    ∧ toUint32 (Int.tdiv (wrapOff (bucket + bytes)) 1024) = ((bucket + bytes) / 1024).toNat
    ∧ 0 ≤ (bucket + bytes) % 1024 ∧ (bucket + bytes) % 1024 ≤ 1023
    ∧ 1024 * ((((bucket + bytes) / 1024).toNat : Nat) : Int) + (bucket + bytes) % 1024 =
        bucket + bytes := by
  have hw : wrapOff (bucket + bytes) = bucket + bytes := by
    unfold wrapOff
    rw [Int.emod_eq_of_lt (by omega) (by omega)]
    omega
  have hnn : 0 ≤ bucket + bytes := by omega
  have hd : Int.tdiv (bucket + bytes) 1024 = (bucket + bytes) / 1024 :=
    Int.tdiv_eq_ediv hnn (by decide)
  have hmod : Int.tmod (bucket + bytes) 1024 = (bucket + bytes) % 1024 :=
    Int.tmod_eq_emod hnn (by decide)
  have hq0 : 0 ≤ (bucket + bytes) / 1024 := Int.ediv_nonneg hnn (by decide)
  have hq1 : (bucket + bytes) / 1024 < 2 ^ 32 := by omega
  refine ⟨by rw [hw, hmod], ?_, by omega, by omega, ?_⟩
  · rw [hw, hd]
    unfold toUint32
    rw [Int.emod_eq_of_lt hq0 hq1]
  · rw [Int.toNat_of_nonneg hq0]
    omega

/-- A sequence of completed downloads: the bucket stays in 0..1023 and no byte
is lost. -/
theorem retrRun_spec (api : MetricApi) (s : Session) :
    ∀ (transfers : List Int) (st : Module) (x : Metric),
      st.prometheus_engine = true →
      prom_registry_get_metric st.prometheus_registry (some "file_download_bytes") = .ok x →
      0 ≤ st.prometheus_retr_bytes → st.prometheus_retr_bytes ≤ 1023 →
      (∀ b ∈ transfers, 0 ≤ b ∧ b + 1023 < 2 ^ 42) →
      0 ≤ (retrRun api s st transfers).1.prometheus_retr_bytes
      ∧ (retrRun api s st transfers).1.prometheus_retr_bytes ≤ 1023
      ∧ 1024 * (((retrRun api s st transfers).2.sum : Nat) : Int)
          + (retrRun api s st transfers).1.prometheus_retr_bytes =
          st.prometheus_retr_bytes + transfers.sum
      ∧ (retrRun api s st transfers).2.length = transfers.length := by
  intro transfers
  induction transfers with
  | nil =>
    intro st x _ _ h0 h1 _
    simp [retrRun, h0, h1]
  | cons b rest ih =>
    intro st x hengine hm h0 h1 hall
    obtain ⟨hb0, hb1⟩ := hall b (by simp)
    obtain ⟨s1, s2, s3, s4⟩ := prom_log_retr_step api st { s with total_bytes := b } x hengine hm
    obtain ⟨a1, a2, a3, a4, a5⟩ := bucket_arith st.prometheus_retr_bytes b h0 h1 hb0 hb1
    simp only at s1 s2
    rw [a1] at s1
    rw [a2] at s2
    obtain ⟨z, hz⟩ := s4 "file_download_bytes" x hm
    obtain ⟨i1, i2, i3, i4⟩ := ih (prom_log_retr api st { s with total_bytes := b }).st z s3 hz
      (by rw [s1]; exact a3) (by rw [s1]; exact a4)
      (fun c hc => hall c (List.mem_cons_of_mem _ hc))
    unfold retrRun
    simp only [s2]
    refine ⟨i1, i2, ?_, ?_⟩
    · rw [s1] at i3
      simp only [List.singleton_append, List.sum_cons, Nat.cast_add]
      omega
    · simp only [List.singleton_append, List.length_cons, i4]

/-- A sequence of completed uploads: the bucket stays in 0..1023 and no byte
is lost. -/
theorem storRun_spec (api : MetricApi) (s : Session) :
    ∀ (transfers : List Int) (st : Module) (x : Metric),
      st.prometheus_engine = true →
      prom_registry_get_metric st.prometheus_registry (some "file_upload_bytes") = .ok x →
      0 ≤ st.prometheus_stor_bytes → st.prometheus_stor_bytes ≤ 1023 →
      (∀ b ∈ transfers, 0 ≤ b ∧ b + 1023 < 2 ^ 42) →
      0 ≤ (storRun api s st transfers).1.prometheus_stor_bytes
      ∧ (storRun api s st transfers).1.prometheus_stor_bytes ≤ 1023
      ∧ 1024 * (((storRun api s st transfers).2.sum : Nat) : Int)
          + (storRun api s st transfers).1.prometheus_stor_bytes =
          st.prometheus_stor_bytes + transfers.sum
      ∧ (storRun api s st transfers).2.length = transfers.length := by
  intro transfers
  induction transfers with
  | nil =>
    intro st x _ _ h0 h1 _
    simp [storRun, h0, h1]
  | cons b rest ih =>
    intro st x hengine hm h0 h1 hall
    obtain ⟨hb0, hb1⟩ := hall b (by simp)
    obtain ⟨s1, s2, s3, s4⟩ := prom_log_stor_step api st { s with total_bytes := b } x hengine hm
    obtain ⟨a1, a2, a3, a4, a5⟩ := bucket_arith st.prometheus_stor_bytes b h0 h1 hb0 hb1
    simp only at s1 s2
    rw [a1] at s1
    rw [a2] at s2
    obtain ⟨z, hz⟩ := s4 "file_upload_bytes" x hm
    obtain ⟨i1, i2, i3, i4⟩ := ih (prom_log_stor api st { s with total_bytes := b }).st z s3 hz
      (by rw [s1]; exact a3) (by rw [s1]; exact a4)
      (fun c hc => hall c (List.mem_cons_of_mem _ hc))
    unfold storRun
    simp only [s2]
    refine ⟨i1, i2, ?_, ?_⟩
    · rw [s1] at i3
      simp only [List.singleton_append, List.sum_cons, Nat.cast_add]
      omega
    · simp only [List.singleton_append, List.length_cons, i4]

/-- The amount passed on for every byte count that does not overflow the
bucket: the quotient narrowed to 32 bits. -/
theorem bucket_arith_wide (bucket bytes : Int) (h0 : 0 ≤ bucket) (h1 : bucket ≤ 1023)
    (hb : 0 ≤ bytes) (hq : bytes + 1023 < 2 ^ 63) :
    toUint32 (Int.tdiv (wrapOff (bucket + bytes)) 1024) =
      (((bucket + bytes) / 1024) % 2 ^ 32).toNat := by
  have hw : wrapOff (bucket + bytes) = bucket + bytes := by
    unfold wrapOff
    rw [Int.emod_eq_of_lt (by omega) (by omega)]
    omega
  have hnn : 0 ≤ bucket + bytes := by omega
  rw [hw, Int.tdiv_eq_ediv hnn (by decide)]
  rfl

theorem lookup_of_isSome (registry : Option Registry) (name : String)
    (h : (prom_registry_get_metric registry (some name)).toOption.isSome = true) :
    ∃ x, prom_registry_get_metric registry (some name) = .ok x := by
  cases hr : prom_registry_get_metric registry (some name) with
  | ok x => exact ⟨x, rfl⟩
  | error e => rw [hr] at h; cases h

/-- When the metric is found, `prom_event_incr` with the amount -1 and no pair
makes one decrement by 1 under the protocol of the session. -/
theorem prom_event_incr_minus_one (api : MetricApi) (st : Module) (s : Session)
    (metric_name : String) (x : Metric)
    (h : prom_registry_get_metric st.prometheus_registry (some metric_name) = .ok x) :
    (prom_event_incr api st s metric_name (-1) []).calls =
      [{ op := .decr, metric_name := metric_name, val := 1,
         labels := [("protocol", s.protocol)] }] := by
  have hn := prom_registry_get_metric_name _ _ _ h
  have hv : toUint32 (negInt32 (-1)) = 1 := by decide
  have hp : prom_get_labels s = [("protocol", s.protocol)] := rfl
  unfold prom_event_incr
  simp only [h, List.foldl_nil, hp, hn]
  simp [hv]

/-- The result of `prom_metric_db_init` on a tables path when the opening
fails: nothing is written and nothing is closed. -/
theorem prom_metric_db_init_open_fails (env : DbEnv) (dir : String) (flags : List OpenFlag)
    (disk : Disk) (e : Errno) (ho : env.open_errno = some e) :
    prom_metric_db_init env (some dir) flags disk =
      { dbh := none, errno := some e, disk := disk
        db_flags :=
          if OpenFlag.SKIP_VACUUM ∈ flags then
            [OpenFlag.SCHEMA_VERSION_CHECK, OpenFlag.INTEGRITY_CHECK]
          else [OpenFlag.SCHEMA_VERSION_CHECK, OpenFlag.INTEGRITY_CHECK, OpenFlag.VACUUM]
        closed := [] } := by
  unfold prom_metric_db_init
  simp only [prom_db_open_with_version, ho]

/-- The result of `prom_metric_db_init` when the schema creation fails on the
opened store: the store is as the schema creation left it, the handle is
closed and the `errno` is that of the schema creation. -/
theorem prom_metric_db_init_schema_fails (env : DbEnv) (dir : String) (flags : List OpenFlag)
    (disk : Disk) (e : Errno) (ho : env.open_errno = none)
    (hf : (metrics_db_add_schema env
      ((disk.read (pdircat (some dir) "metrics.db")).getD [])).1 = .error e) :
    prom_metric_db_init env (some dir) flags disk =
      { dbh := none, errno := some e
        disk := disk.write (pdircat (some dir) "metrics.db")
          (metrics_db_add_schema env
            ((disk.read (pdircat (some dir) "metrics.db")).getD [])).2
        db_flags :=
          if OpenFlag.SKIP_VACUUM ∈ flags then
            [OpenFlag.SCHEMA_VERSION_CHECK, OpenFlag.INTEGRITY_CHECK]
          else [OpenFlag.SCHEMA_VERSION_CHECK, OpenFlag.INTEGRITY_CHECK, OpenFlag.VACUUM]
        closed := [env.handle] } := by
  unfold prom_metric_db_init
  simp only [prom_db_open_with_version, ho]
  cases hsch : metrics_db_add_schema env
      ((disk.read (pdircat (some dir) "metrics.db")).getD []) with
  | mk r db1 =>
    rw [hsch] at hf
    simp only at hf
    subst hf
    rfl

/-- The result of `prom_metric_db_init` when the schema creation succeeds and
the maintenance step fails: the handle is closed and the `errno` is that of
the maintenance step. -/
theorem prom_metric_db_init_truncate_fails (env : DbEnv) (dir : String)
    (flags : List OpenFlag) (disk : Disk) (e : Errno) (ho : env.open_errno = none)
    (hs : (metrics_db_add_schema env
      ((disk.read (pdircat (some dir) "metrics.db")).getD [])).1 = .ok ())
    (ht : (reverse_db_truncate_tables env (metrics_db_add_schema env
      ((disk.read (pdircat (some dir) "metrics.db")).getD [])).2).1 = .error e) :
    prom_metric_db_init env (some dir) flags disk =
      { dbh := none, errno := some e
        disk := disk.write (pdircat (some dir) "metrics.db")
          (reverse_db_truncate_tables env (metrics_db_add_schema env
            ((disk.read (pdircat (some dir) "metrics.db")).getD [])).2).2
        db_flags :=
          if OpenFlag.SKIP_VACUUM ∈ flags then
            [OpenFlag.SCHEMA_VERSION_CHECK, OpenFlag.INTEGRITY_CHECK]
          else [OpenFlag.SCHEMA_VERSION_CHECK, OpenFlag.INTEGRITY_CHECK, OpenFlag.VACUUM]
        closed := [env.handle] } := by
  unfold prom_metric_db_init
  simp only [prom_db_open_with_version, ho]
  cases hsch : metrics_db_add_schema env
      ((disk.read (pdircat (some dir) "metrics.db")).getD []) with
  | mk r db1 =>
    rw [hsch] at hs ht
    simp only at hs ht
    subst hs
    simp only
    cases htr : reverse_db_truncate_tables env db1 with
    | mk r2 db2 =>
      rw [htr] at ht
      simp only at ht
      subst ht
      rfl

/-- The result of `prom_metric_db_init` when the opening, the schema creation
and the maintenance step succeed: the handle of the opening is returned and
the store is the opened one after the schema creation and the maintenance
step. -/
theorem prom_metric_db_init_succeeds (env : DbEnv) (dir : String) (flags : List OpenFlag)
    (disk : Disk) (ho : env.open_errno = none)
    (hs : (metrics_db_add_schema env
      ((disk.read (pdircat (some dir) "metrics.db")).getD [])).1 = .ok ())
    (ht : (reverse_db_truncate_tables env (metrics_db_add_schema env
      ((disk.read (pdircat (some dir) "metrics.db")).getD [])).2).1 = .ok ()) :
    prom_metric_db_init env (some dir) flags disk =
      { dbh := some env.handle, errno := none
        disk := disk.write (pdircat (some dir) "metrics.db")
          (reverse_db_truncate_tables env (metrics_db_add_schema env
            ((disk.read (pdircat (some dir) "metrics.db")).getD [])).2).2
        db_flags :=
          if OpenFlag.SKIP_VACUUM ∈ flags then
            [OpenFlag.SCHEMA_VERSION_CHECK, OpenFlag.INTEGRITY_CHECK]
          else [OpenFlag.SCHEMA_VERSION_CHECK, OpenFlag.INTEGRITY_CHECK, OpenFlag.VACUUM]
        closed := [] } := by
  unfold prom_metric_db_init
  simp only [prom_db_open_with_version, ho]
  cases hsch : metrics_db_add_schema env
      ((disk.read (pdircat (some dir) "metrics.db")).getD []) with
  | mk r db1 =>
    rw [hsch] at hs ht
    simp only at hs ht
    subst hs
    simp only
    cases htr : reverse_db_truncate_tables env db1 with
    | mk r2 db2 =>
      rw [htr] at ht
      simp only at ht
      subst ht
      rfl

/-- The schema creation succeeds exactly when the engine fails on neither
statement, and fails with `EPERM` otherwise. -/
theorem metrics_db_add_schema_result (env : DbEnv) (db : Database) :
    (env.samples_fails = false → env.metrics_fails = false →
      (metrics_db_add_schema env db).1 = .ok ())
    ∧ ((env.samples_fails = true ∨ env.metrics_fails = true) →
      (metrics_db_add_schema env db).1 = .error .EPERM) := by
  rw [metrics_db_add_schema_eq]
  cases env.samples_fails <;> cases env.metrics_fails <;> simp

/-- After a successful schema creation the database has both tables. -/
theorem metrics_db_add_schema_tables (env : DbEnv) (db : Database)
    (h : (metrics_db_add_schema env db).1 = .ok ()) :
    (Database.table (metrics_db_add_schema env db).2 "samples").isSome = true
    ∧ (Database.table (metrics_db_add_schema env db).2 "metrics").isSome = true := by
  rw [metrics_db_add_schema_eq] at h ⊢
  cases hs : env.samples_fails <;> cases hm : env.metrics_fails <;>
    simp only [hs, hm, Bool.false_eq_true, if_false, if_true] at h ⊢
  · exact ⟨ensureTable_has_other _ "metrics" "samples" _ (ensureTable_has db "samples" _),
      ensureTable_has _ "metrics" _⟩
  · cases h
  · cases h
  · cases h

/-- The maintenance step succeeds exactly when the environment lets it, and then
leaves every table, without rows. -/
theorem reverse_db_truncate_tables_result (env : DbEnv) (db : Database) :
    (env.truncate_errno = none →
      reverse_db_truncate_tables env db = (.ok (), db.map (fun t => { t with rows := [] })))
    ∧ (∀ e, env.truncate_errno = some e →
      reverse_db_truncate_tables env db = (.error e, db)) := by
  unfold reverse_db_truncate_tables
  cases env.truncate_errno <;> simp

/-- A row without `metric_name` is refused by a table with the columns of
`metrics`, whatever value is given for `metric_id`. -/
theorem insert_metrics_without_name (t : SqlTable) (id labels : SqlValue)
    (hc : t.columns =
      [{ name := "metric_id", type := .INTEGER, notNull := true, primaryKey := true,
         unique := false },
       { name := "metric_name", type := .TEXT, notNull := true, primaryKey := false,
         unique := false },
       { name := "metric_labels", type := .TEXT, notNull := false, primaryKey := false,
         unique := false }]) :
    t.insert [id, .null, labels] = .error .EINVAL := by
  unfold SqlTable.insert
  rw [hc]
  simp only [storedRow]
  cases hs : Column.stored
      { name := "metric_id", type := .INTEGER, notNull := true, primaryKey := true,
        unique := false } t.nextRowid id with
  | none => rfl
  | some w => simp [Column.stored, Column.isRowid, rowFits, Column.takes]

set_option maxRecDepth 100000 in
/-- The rowid column of the created table `metrics`: a row that gives null for
`metric_id` gets 1 in the empty table and one more than the largest
`metric_id` after that; the text `7` and the real number 7.0 are stored as the
integer 7; a text that is no number and the real number 7.5 are refused. -/
theorem insert_metrics_rowid :
    (createdTable "metrics").map (fun t =>
        (t.insertAll [[.null, .text "session", .null], [.int 5, .text "login", .null],
          [.null, .text "tls", .null]]).map (fun t2 => t2.rows)) =
      some (.ok [[.int 1, .text "session", .null], [.int 5, .text "login", .null],
        [.int 6, .text "tls", .null]])
    ∧ (createdTable "metrics").map (fun t =>
        (t.insertAll [[.text " 7", .text "session", .null]]).map (fun t2 => t2.rows)) =
      some (.ok [[.int 7, .text "session", .null]])
    ∧ (createdTable "metrics").map (fun t =>
        (t.insertAll [[.real ⟨70, 1⟩, .text "session", .null]]).map (fun t2 => t2.rows)) =
      some (.ok [[.int 7, .text "session", .null]])
    ∧ (createdTable "metrics").map (fun t =>
        t.insertAll [[.text "seven", .text "session", .null]]) = some (.error .EINVAL)
    ∧ (createdTable "metrics").map (fun t =>
        t.insertAll [[.real ⟨75, 1⟩, .text "session", .null]]) = some (.error .EINVAL) := by
  decide

/-- The narrowing of `atoi`: a text whose value an `int` holds converts to that
value, and the text `4294967376` converts to 80. -/
theorem atoi_narrows :
    atoi "9100" = 9100 ∧ atoi " -12x" = -12 ∧ atoi "4294967376" = 80
    ∧ atoi "2147483648" = -2147483648 ∧ atoi "99999999999999999999" = -1 := by
  decide

/-- The amounts `prom_log_retr` and `prom_log_stor` pass on when the registry
holds the byte metrics: with the engine on, the buckets in 0..1023 and a
non-negative byte count that does not overflow the 64-bit sum, the amount is
the quotient `(bucket + total_bytes) / 1024` reduced modulo `2 ^ 32`.  It is
the quotient itself when `bucket + total_bytes` is below `2 ^ 42`, and differs
from it for every larger sum. -/
theorem prom_log_bytes_amount (api : MetricApi) (st : Module) (s : Session)
    (hengine : st.prometheus_engine = true)
    (hx : (prom_registry_get_metric st.prometheus_registry
      (some "file_download_bytes")).toOption.isSome = true)
    (hy : (prom_registry_get_metric st.prometheus_registry
      (some "file_upload_bytes")).toOption.isSome = true)
    (hr : 0 ≤ st.prometheus_retr_bytes ∧ st.prometheus_retr_bytes ≤ 1023)
    (hs : 0 ≤ st.prometheus_stor_bytes ∧ st.prometheus_stor_bytes ≤ 1023)
    (hb : 0 ≤ s.total_bytes) (hmax : s.total_bytes + 1023 < 2 ^ 63) :
    incrementsOn "file_download_bytes" (prom_log_retr api st s).calls =
        [(((st.prometheus_retr_bytes + s.total_bytes) / 1024) % 2 ^ 32).toNat]
    ∧ incrementsOn "file_upload_bytes" (prom_log_stor api st s).calls =
        [(((st.prometheus_stor_bytes + s.total_bytes) / 1024) % 2 ^ 32).toNat]
    ∧ (st.prometheus_retr_bytes + s.total_bytes < 2 ^ 42 →
        incrementsOn "file_download_bytes" (prom_log_retr api st s).calls =
          [((st.prometheus_retr_bytes + s.total_bytes) / 1024).toNat])
    ∧ (st.prometheus_stor_bytes + s.total_bytes < 2 ^ 42 →
        incrementsOn "file_upload_bytes" (prom_log_stor api st s).calls =
          [((st.prometheus_stor_bytes + s.total_bytes) / 1024).toNat])
    ∧ (2 ^ 42 ≤ st.prometheus_retr_bytes + s.total_bytes →
        incrementsOn "file_download_bytes" (prom_log_retr api st s).calls ≠
          [((st.prometheus_retr_bytes + s.total_bytes) / 1024).toNat])
    ∧ (2 ^ 42 ≤ st.prometheus_stor_bytes + s.total_bytes →
        incrementsOn "file_upload_bytes" (prom_log_stor api st s).calls ≠
          [((st.prometheus_stor_bytes + s.total_bytes) / 1024).toNat]) := by
  obtain ⟨x, hx2⟩ := lookup_of_isSome _ _ hx
  obtain ⟨y, hy2⟩ := lookup_of_isSome _ _ hy
  obtain ⟨_, r2, _, _⟩ := prom_log_retr_step api st s x hengine hx2
  obtain ⟨_, s2, _, _⟩ := prom_log_stor_step api st s y hengine hy2
  rw [bucket_arith_wide _ _ hr.1 hr.2 hb hmax] at r2
  rw [bucket_arith_wide _ _ hs.1 hs.2 hb hmax] at s2
  have small : ∀ q : Int, 0 ≤ q → q < 2 ^ 42 → ((q / 1024) % 2 ^ 32).toNat = (q / 1024).toNat := by
    intro q h0 h1
    rw [Int.emod_eq_of_lt (Int.ediv_nonneg h0 (by decide)) (by omega)]
  have large : ∀ q : Int, 2 ^ 42 ≤ q → ((q / 1024) % 2 ^ 32).toNat ≠ (q / 1024).toNat := by
    intro q h1 he
    have h2 : (2 : Int) ^ 32 ≤ q / 1024 := by omega
    have h3 : (q / 1024) % 2 ^ 32 < 2 ^ 32 := Int.emod_lt_of_pos _ (by decide)
    have h4 : 0 ≤ (q / 1024) % 2 ^ 32 := Int.emod_nonneg _ (by decide)
    omega
  refine ⟨r2, s2, ?_, ?_, ?_, ?_⟩
  · intro h
    rw [r2, small _ (by omega) h]
  · intro h
    rw [s2, small _ (by omega) h]
  · intro h he
    rw [r2] at he
    exact large _ h (List.singleton_inj.mp he)
  · intro h he
    rw [s2] at he
    exact large _ h (List.singleton_inj.mp he)


/-! ## Claims -/

set_option maxRecDepth 100000 in
/-- C1: text rendering of a counter.  For a metric named `M` with a counter of
suffix `S` and help text `help`, `prom_metric_get_text` under the namespace `N`
yields the lines `# HELP N_M_S help` and `# TYPE N_M_S counter`, then one line
`N_M_S` + label text + ` ` + value per stored sample, followed by the lines of
the gauge and the histogram; the label text is empty for the empty label set
and `\x7bk1="v1",...,kn="vn"\x7d` otherwise; a label set recorded by
`prom_metric_incr` is stored under its names in ascending lexical order, with
the same pairs.  The scenario of `metric_get_text_test` yields the lines
`prt_test_total 6` and `prt_test_total\x7bfoo="BAR",protocol="ftp"\x7d 8` in the
text written out in full. -/
theorem C1_counter_text :
    (∀ (N M S help : String) (dbh : Dbh) (samples : Table Dec) (g : Option SubDef)
        (h : Option HistDef),
      prom_metric_get_text (some ())
          (some { name := M, dbh := dbh,
                  counter := some { suffix := some S, help := help, samples := samples },
                  gauge := g, histogram := h }) (some N) =
        .ok (joinLines
            (("# HELP " ++ N ++ "_" ++ M ++ "_" ++ S ++ " " ++ help) ::
             ("# TYPE " ++ N ++ "_" ++ M ++ "_" ++ S ++ " counter") ::
             samples.map (fun kv =>
               N ++ "_" ++ M ++ "_" ++ S ++ labelsText kv.1 ++ " " ++ kv.2.text)) ++
          joinLines (optLines (subDefLines N M "gauge") g ++ optLines (histLines N M) h)))
    ∧ labelsText [] = ""
    ∧ (∀ (kv : String × String) (rest : Labels),
        labelsText (kv :: rest) =
          "\x7b" ++ commaJoin ((kv :: rest).map (fun x => x.1 ++ "=\"" ++ x.2 ++ "\"")) ++ "\x7d")
    ∧ (∀ (M : String) (dbh : Dbh) (c : SubDef) (g : Option SubDef) (h : Option HistDef)
        (n : Nat) (L : Labels),
        ∃ m2 c2 v,
          prom_metric_incr (some ())
            (some { name := M, dbh := dbh, counter := some c, gauge := g, histogram := h })
            n (some L) = .ok m2
          ∧ m2.counter = some c2
          ∧ c2.suffix = c.suffix ∧ c2.help = c.help
          ∧ c2.samples.get (canonLabels L) = some v
          ∧ (canonLabels L, v) ∈ c2.samples
          ∧ keysAscending (canonLabels L)
          ∧ (canonLabels L).Perm L)
    ∧ textTestText = .ok
        ("# HELP prt_test_total counter testing\n" ++
         "# TYPE prt_test_total counter\n" ++
         "prt_test_total 6\n" ++
         "prt_test_total\x7bfoo=\"BAR\",protocol=\"ftp\"\x7d 8\n" ++
         "# HELP prt_test_count gauge testing\n" ++
         "# TYPE prt_test_count gauge\n" ++
         "prt_test_count 6\n" ++
         "prt_test_count\x7bfoo=\"BAR\",protocol=\"ftp\"\x7d 8\n" ++
         "# HELP prt_test_weight histogram testing\n" ++
         "# TYPE prt_test_weight histogram\n" ++
         "prt_test_weight_bucket\x7bfoo=\"BAR\",le=\"+Inf\",protocol=\"ftp\"\x7d 1\n" ++
         "prt_test_weight_count\x7bfoo=\"BAR\",protocol=\"ftp\"\x7d 1\n" ++
         "prt_test_weight_sum\x7bfoo=\"BAR\",protocol=\"ftp\"\x7d 76.42\n") := by
  refine ⟨?_, rfl, ?_, ?_, by decide⟩
  · intro N M S help dbh samples g h
    have e1 : fullName N M (some S) = N ++ "_" ++ M ++ "_" ++ S := by
      simp [fullName, String.append_assoc]
    have e2 : sampleLine (N ++ "_" ++ M ++ "_" ++ S) =
        fun kv => N ++ "_" ++ M ++ "_" ++ S ++ labelsText kv.1 ++ " " ++ kv.2.text := by
      funext kv
      simp [sampleLine, String.append_assoc]
    have e3 : ("# TYPE " ++ (N ++ "_" ++ M ++ "_" ++ S) ++ " " ++ "counter" : String) =
        "# TYPE " ++ N ++ "_" ++ M ++ "_" ++ S ++ " counter" := by
      have e : (" counter" : String) = " " ++ "counter" := by decide
      rw [e]
      simp [String.append_assoc]
    have e4 : ("# HELP " ++ (N ++ "_" ++ M ++ "_" ++ S) ++ " " ++ help : String) =
        "# HELP " ++ N ++ "_" ++ M ++ "_" ++ S ++ " " ++ help := by
      simp [String.append_assoc]
    show Except.ok (joinLines (metricLines N _)) = _
    congr 1
    unfold metricLines
    rw [List.append_assoc, joinLines_append]
    congr 1
    show joinLines (subDefLines N M "counter" _) = _
    unfold subDefLines headLines
    simp only [e1, e2, e3, e4]
    rfl
  · intro kv rest
    rfl
  · intro M dbh c g h n L
    have hget := Table.get_upsert_self (canonLabels L) (Dec.ofNat 0)
      (fun v => v.add (Dec.ofNat n)) c.samples
    refine ⟨{ name := M, dbh := dbh,
              counter := some (SubDef.addSample (canonLabels L) (Dec.ofNat n) c),
              gauge := g.map (SubDef.addSample (canonLabels L) (Dec.ofNat n)),
              histogram := h },
            SubDef.addSample (canonLabels L) (Dec.ofNat n) c, _, ?_, rfl, rfl, rfl, hget,
            Table.mem_of_get hget, canonLabels_ascending L, canonLabels_perm L⟩
    simp [prom_metric_incr, labelKey]

/-- C2: label-set canonicalisation does not depend on the order of insertion.
Two valid label sets holding the same pairs in different orders have the same
canonical key, with the names in ascending lexical order, and the same label
text; hence an increment under either is the same call, and an increment by
`n` under one followed by an increment by `k` under the other leaves what one
increment by `n + k` leaves: both accumulate into the same sample. -/
theorem C2_canonical_key (L1 L2 : Labels) (hv : validLabels L1) (hp : L1.Perm L2) :
    canonLabels L1 = canonLabels L2
    ∧ keysAscending (canonLabels L1)
    ∧ labelsText (canonLabels L1) = labelsText (canonLabels L2)
    ∧ (∀ (p : Option Pool) (metric : Option Metric) (n : Nat),
        prom_metric_incr p metric n (some L1) = prom_metric_incr p metric n (some L2))
    ∧ (∀ (p : Option Pool) (metric : Option Metric) (n k : Nat),
        (prom_metric_incr p metric n (some L1) >>= fun m1 =>
          prom_metric_incr p (some m1) k (some L2)) =
        prom_metric_incr p metric (n + k) (some L1))
    ∧ (∀ (M : String) (dbh : Dbh) (c : SubDef) (g : Option SubDef) (h : Option HistDef)
        (n k : Nat),
        ((prom_metric_incr (some ())
            (some { name := M, dbh := dbh, counter := some c, gauge := g, histogram := h })
            n (some L1) >>= fun m1 =>
          prom_metric_incr (some ()) (some m1) k (some L2)).toOption.bind
            (fun m2 => m2.counterValue (canonLabels L2))) =
          some ((((c.samples.get (canonLabels L1)).getD (Dec.ofNat 0)).add (Dec.ofNat n)).add
            (Dec.ofNat k))) := by
  have hc : canonLabels L1 = canonLabels L2 := canonLabels_eq_of_perm hv hp
  have hk : labelKey (some L1) = labelKey (some L2) := hc
  have hi : ∀ (p : Option Pool) (metric : Option Metric) (n : Nat),
      prom_metric_incr p metric n (some L1) = prom_metric_incr p metric n (some L2) := by
    intro p metric n
    cases p <;> cases metric <;> simp [prom_metric_incr, hk]
  refine ⟨hc, canonLabels_ascending L1, by rw [hc], hi, ?_, ?_⟩
  · intro p metric n k
    rw [← prom_metric_incr_incr p metric n k (some L1)]
    congr 1
    funext m1
    exact (hi p (some m1) k).symm
  · intro M dbh c g h n k
    have e : (prom_metric_incr (some ())
            (some { name := M, dbh := dbh, counter := some c, gauge := g, histogram := h })
            n (some L1) >>= fun m1 =>
          prom_metric_incr (some ()) (some m1) k (some L2)) =
        prom_metric_incr (some ())
            (some { name := M, dbh := dbh, counter := some c, gauge := g, histogram := h })
            (n + k) (some L1) := by
      rw [← prom_metric_incr_incr (some ()) _ n k (some L1)]
      congr 1
      funext m1
      exact (hi (some ()) (some m1) k).symm
    rw [e, ← hc]
    simp [prom_metric_incr, Except.toOption, Metric.counterValue, SubDef.addSample, labelKey,
      Table.get_upsert_self, Dec.add_ofNat_add_ofNat]

/-- Witness of C2 on the labels of the test suite, added as `protocol`, `foo`
and as `foo`, `protocol`. -/
theorem C2_canonical_key_witness :
    validLabels [("protocol", "ftp"), ("foo", "BAR")]
    ∧ List.Perm [("protocol", "ftp"), ("foo", "BAR")] [("foo", "BAR"), ("protocol", "ftp")]
    ∧ canonLabels [("protocol", "ftp"), ("foo", "BAR")] =
        canonLabels [("foo", "BAR"), ("protocol", "ftp")]
    ∧ canonLabels [("protocol", "ftp"), ("foo", "BAR")] = [("foo", "BAR"), ("protocol", "ftp")] :=
  ⟨by decide, List.Perm.swap _ _ _,
    (C2_canonical_key [("protocol", "ftp"), ("foo", "BAR")] [("foo", "BAR"), ("protocol", "ftp")]
      (by decide) (List.Perm.swap _ _ _)).1, by decide⟩

/-- C3: increment is additive per label set.  `prom_metric_incr` by `n` followed
by `prom_metric_incr` by `k` under the same labels leaves the metric exactly as
one `prom_metric_incr` by `n + k` does (and fails when that one fails).  On a
metric with a counter the call succeeds, the counter sample of the label set
becomes its former value (zero when there was none) plus `n` plus `k`, and the
counter sample of every other label set is what it was; the same holds for the
gauge of a metric with a gauge. -/
theorem C3_increment_additive (n k : Nat) (L : Option Labels) :
    (∀ (p : Option Pool) (metric : Option Metric),
      (prom_metric_incr p metric n L >>= fun m1 => prom_metric_incr p (some m1) k L) =
        prom_metric_incr p metric (n + k) L)
    ∧ (∀ (M : String) (dbh : Dbh) (c : SubDef) (g : Option SubDef) (h : Option HistDef),
        ∃ m2,
          (prom_metric_incr (some ())
              (some { name := M, dbh := dbh, counter := some c, gauge := g, histogram := h })
              n L >>= fun m1 => prom_metric_incr (some ()) (some m1) k L) = .ok m2
          ∧ m2.counterValue (labelKey L) =
              some ((((c.samples.get (labelKey L)).getD (Dec.ofNat 0)).add (Dec.ofNat n)).add
                (Dec.ofNat k))
          ∧ ∀ other : Labels, other ≠ labelKey L → m2.counterValue other = c.samples.get other)
    ∧ (∀ (M : String) (dbh : Dbh) (c : Option SubDef) (g : SubDef) (h : Option HistDef),
        ∃ m2,
          (prom_metric_incr (some ())
              (some { name := M, dbh := dbh, counter := c, gauge := some g, histogram := h })
              n L >>= fun m1 => prom_metric_incr (some ()) (some m1) k L) = .ok m2
          ∧ m2.gaugeValue (labelKey L) =
              some ((((g.samples.get (labelKey L)).getD (Dec.ofNat 0)).add (Dec.ofNat n)).add
                (Dec.ofNat k))
          ∧ ∀ other : Labels, other ≠ labelKey L → m2.gaugeValue other = g.samples.get other) := by
  refine ⟨fun p metric => prom_metric_incr_incr p metric n k L, ?_, ?_⟩
  · intro M dbh c g h
    rw [prom_metric_incr_incr]
    refine ⟨_, by simp [prom_metric_incr]; rfl, ?_, ?_⟩
    · simp [Metric.counterValue, SubDef.addSample, Table.get_upsert_self,
        Dec.add_ofNat_add_ofNat]
    · intro other hne
      simp [Metric.counterValue, SubDef.addSample, Table.get_upsert_other _ _ _ _ other hne]
  · intro M dbh c g h
    rw [prom_metric_incr_incr]
    refine ⟨_, by simp [prom_metric_incr]; rfl, ?_, ?_⟩
    · simp [Metric.gaugeValue, SubDef.addSample, Table.get_upsert_self,
        Dec.add_ofNat_add_ofNat]
    · intro other hne
      simp [Metric.gaugeValue, SubDef.addSample, Table.get_upsert_other _ _ _ _ other hne]

/-- An instance of C3 on the metric `test` with the counter `total`: increments by
6 and by 8 without labels leave what one increment by 14 leaves, the sample 14. -/
theorem C3_increment_additive_witness :
    (prom_metric_incr (some ())
        (some { name := "test", dbh := 1,
                counter := some { suffix := some "total", help := "testing", samples := [] },
                gauge := none, histogram := none }) 6 none >>= fun m1 =>
      prom_metric_incr (some ()) (some m1) 8 none) =
      prom_metric_incr (some ())
        (some { name := "test", dbh := 1,
                counter := some { suffix := some "total", help := "testing", samples := [] },
                gauge := none, histogram := none }) (6 + 8) none
    ∧ (prom_metric_incr (some ())
        (some { name := "test", dbh := 1,
                counter := some { suffix := some "total", help := "testing", samples := [] },
                gauge := none, histogram := none }) (6 + 8) none).toOption.bind
          (fun m => m.counterValue []) = some (Dec.ofNat 14) :=
  ⟨(C3_increment_additive 6 8 none).1 _ _, by decide⟩

/-- C4: histogram observation.  On a metric with a histogram,
`prom_metric_observe` of `v` under the labels `L` succeeds and leaves counter,
gauge and bounds as they were; in the row of `L` (all zeros, one bucket per
bound, when `L` had none) it adds 1 to the bucket of every bound `b` with
`v <= b` and leaves the other buckets, adds 1 to the `+Inf` bucket and to the
count, and adds `v` to the sum; the rows of the other label sets are what they
were.  With no bounds, after any sequence of observations the bucket, count and
sum arrays of `prom_metric_get` each hold two elements per distinct label
set. -/
theorem C4_observe (v : Dec) (L : Option Labels) :
    (∀ (M : String) (dbh : Dbh) (c g : Option SubDef) (hd : HistDef),
      ∃ m2 hd2 row2,
        prom_metric_observe (some ())
          (some { name := M, dbh := dbh, counter := c, gauge := g, histogram := some hd })
          v L = .ok m2
        ∧ m2.counter = c ∧ m2.gauge = g ∧ m2.histogram = some hd2
        ∧ hd2.bounds = hd.bounds
        ∧ hd2.rows.get (labelKey L) = some row2
        ∧ (∀ (i : Nat) (b cnt : Dec), hd.bounds[i]? = some b →
            ((hd.rows.get (labelKey L)).getD (zeroRow hd.bounds)).buckets[i]? = some cnt →
            row2.buckets[i]? = some (if v.le b then cnt.add (Dec.ofNat 1) else cnt))
        ∧ row2.buckets.length =
            min hd.bounds.length
              ((hd.rows.get (labelKey L)).getD (zeroRow hd.bounds)).buckets.length
        ∧ row2.inf =
            ((hd.rows.get (labelKey L)).getD (zeroRow hd.bounds)).inf.add (Dec.ofNat 1)
        ∧ row2.count =
            ((hd.rows.get (labelKey L)).getD (zeroRow hd.bounds)).count.add (Dec.ofNat 1)
        ∧ row2.sum = ((hd.rows.get (labelKey L)).getD (zeroRow hd.bounds)).sum.add v
        ∧ ∀ other : Labels, other ≠ labelKey L → hd2.rows.get other = hd.rows.get other)
    ∧ (∀ bounds : List Dec,
        (zeroRow bounds).buckets.length = bounds.length
        ∧ (∀ (i : Nat) (cnt : Dec), (zeroRow bounds).buckets[i]? = some cnt → cnt = Dec.ofNat 0)
        ∧ (zeroRow bounds).inf = Dec.ofNat 0 ∧ (zeroRow bounds).count = Dec.ofNat 0
        ∧ (zeroRow bounds).sum = Dec.ofNat 0)
    ∧ (∀ (M : String) (dbh : Dbh) (c g : Option SubDef) (suffix : Option String)
        (help : String) (obs : List (Dec × Option Labels)),
        ∃ m2 s,
          observeMany
            { name := M, dbh := dbh, counter := c, gauge := g,
              histogram := some { suffix := suffix, help := help, bounds := [], rows := [] } }
            obs = .ok m2
          ∧ prom_metric_get (some ()) (some m2) PROM_METRIC_TYPE_HISTOGRAM = .ok s
          ∧ nelts s.results = 2 * distinctLabelSets (obs.map Prod.snd)
          ∧ s.counts.map nelts = some (2 * distinctLabelSets (obs.map Prod.snd))
          ∧ s.sums.map nelts = some (2 * distinctLabelSets (obs.map Prod.snd))
          ∧ ∀ e ∈ s.results, ∃ k, e.1 = insertLabel ("le", "+Inf") k) := by
  refine ⟨?_, ?_, ?_⟩
  · intro M dbh c g hd
    have hget := Table.get_upsert_self (labelKey L) (zeroRow hd.bounds)
      (observeRow hd.bounds v) hd.rows
    refine ⟨{ name := M, dbh := dbh, counter := c, gauge := g,
              histogram := some (HistDef.observe (labelKey L) v hd) },
      HistDef.observe (labelKey L) v hd, _, ?_, rfl, rfl, rfl, rfl, hget, ?_, ?_,
      rfl, rfl, rfl, ?_⟩
    · simp [prom_metric_observe]
    · intro i b cnt hb hc
      exact bumpBuckets_get v _ _ i b cnt hb hc
    · exact bumpBuckets_length v _ _
    · intro other hne
      exact Table.get_upsert_other _ _ _ _ other hne
  · intro bounds
    refine ⟨by simp [zeroRow], ?_, rfl, rfl, rfl⟩
    intro i cnt hc
    simp only [zeroRow, List.getElem?_map] at hc
    cases hb : bounds[i]? with
    | none => simp [hb] at hc
    | some b =>
      simp [hb] at hc
      exact hc.symm
  · intro M dbh c g suffix help obs
    obtain ⟨rows2, h1, h2, h3⟩ := observeMany_spec obs M dbh c g
      { suffix := suffix, help := help, bounds := [], rows := [] } (by simp)
    have hlen : rows2.length = distinctLabelSets (obs.map Prod.snd) := by
      have := length_eq_distinct (rows2.map Prod.fst) (obs.map Prod.snd) h2
        (by intro k; simpa using h3 k)
      simpa using this
    refine ⟨_, { results := allBucketEntries [] rows2,
                 counts := some (rows2.map (fun kr => (kr.1, kr.2.count))),
                 sums := some (rows2.map (fun kr => (kr.1, kr.2.sum))) }, h1, ?_, ?_, ?_, ?_, ?_⟩
    · rfl
    · simp [nelts, allBucketEntries_length_nil, hlen]
    · simp [nelts, hlen]
    · simp [nelts, hlen]
    · intro e he
      simp only at he
      clear h1 h2 h3 hlen
      induction rows2 with
      | nil => simp [allBucketEntries] at he
      | cons kr rest ih =>
        obtain ⟨k, r⟩ := kr
        simp only [allBucketEntries, bucketEntries, List.zipWith_nil_left, List.nil_append,
          List.cons_append, List.mem_cons] at he
        rcases he with rfl | he
        · exact ⟨k, rfl⟩
        · exact ih he

/-- The scenario of `metric_observe_test`: a histogram without bounds, one
observation of 3.1415 without labels, then one under the test labels. -/
theorem C4_observe_witness :
    ∃ m2 s,
      observeMany
        { name := "test", dbh := 1, counter := none, gauge := none,
          histogram := some { suffix := some "units", help := "testing", bounds := [],
                              rows := [] } }
        [(⟨31415, 4⟩, none), (⟨31415, 4⟩, some testLabels)] = .ok m2
      ∧ prom_metric_get (some ()) (some m2) PROM_METRIC_TYPE_HISTOGRAM = .ok s
      ∧ nelts s.results = 2 * distinctLabelSets [none, some testLabels]
      ∧ s.counts.map nelts = some (2 * distinctLabelSets [none, some testLabels])
      ∧ s.sums.map nelts = some (2 * distinctLabelSets [none, some testLabels])
      ∧ distinctLabelSets [none, some testLabels] = 2 := by
  obtain ⟨m2, s, h1, h2, h3, h4, h5, _⟩ :=
    (C4_observe ⟨31415, 4⟩ none).2.2 "test" 1 none none (some "units") "testing"
      [(⟨31415, 4⟩, none), (⟨31415, 4⟩, some testLabels)]
  exact ⟨m2, s, h1, h2, h3, h4, h5, by decide⟩

/-- C5: a metric with both a counter and a gauge.  One `prom_metric_incr` by `n`
under the labels `L` succeeds and updates both: the counter sample and the
gauge sample of `L` are each their former value (zero when there was none)
plus `n`.  Starting from a freshly attached counter and gauge, after any
sequence of increments `prom_metric_get` returns as many array elements for
the counter as for the gauge: two per distinct label set incremented. -/
theorem C5_counter_and_gauge :
    (∀ (M : String) (dbh : Dbh) (c g : SubDef) (h : Option HistDef) (n : Nat)
        (L : Option Labels),
      ∃ m2,
        prom_metric_incr (some ())
          (some { name := M, dbh := dbh, counter := some c, gauge := some g, histogram := h })
          n L = .ok m2
        ∧ m2.counterValue (labelKey L) =
            some (((c.samples.get (labelKey L)).getD (Dec.ofNat 0)).add (Dec.ofNat n))
        ∧ m2.gaugeValue (labelKey L) =
            some (((g.samples.get (labelKey L)).getD (Dec.ofNat 0)).add (Dec.ofNat n)))
    ∧ (∀ (M : String) (dbh : Dbh) (cs gs : Option String) (chelp ghelp : String)
        (h : Option HistDef) (calls : List (Nat × Option Labels)),
        ∃ m2,
          incrMany
            { name := M, dbh := dbh,
              counter := some { suffix := cs, help := chelp, samples := [] },
              gauge := some { suffix := gs, help := ghelp, samples := [] },
              histogram := h } calls = .ok m2
          ∧ resultNelts (prom_metric_get (some ()) (some m2) PROM_METRIC_TYPE_COUNTER) =
              some (2 * distinctLabelSets (calls.map Prod.snd))
          ∧ resultNelts (prom_metric_get (some ()) (some m2) PROM_METRIC_TYPE_GAUGE) =
              some (2 * distinctLabelSets (calls.map Prod.snd)))
    ∧ (∃ m2,
        incrMany
          { name := "test", dbh := 1,
            counter := some { suffix := some "total", help := "testing", samples := [] },
            gauge := some { suffix := some "count", help := "testing", samples := [] },
            histogram := none }
          [(66, none), (66, some testLabels)] = .ok m2
        ∧ resultNelts (prom_metric_get (some ()) (some m2) PROM_METRIC_TYPE_COUNTER) = some 4
        ∧ resultNelts (prom_metric_get (some ()) (some m2) PROM_METRIC_TYPE_GAUGE) = some 4
        ∧ m2.counterValue [] = some (Dec.ofNat 66)
        ∧ m2.gaugeValue [] = some (Dec.ofNat 66)
        ∧ m2.counterValue (canonLabels testLabels) = some (Dec.ofNat 66)
        ∧ m2.gaugeValue (canonLabels testLabels) = some (Dec.ofNat 66)) := by
  refine ⟨?_, ?_, ?_⟩
  · intro M dbh c g h n L
    refine ⟨{ name := M, dbh := dbh,
              counter := some (SubDef.addSample (labelKey L) (Dec.ofNat n) c),
              gauge := some (SubDef.addSample (labelKey L) (Dec.ofNat n) g),
              histogram := h }, ?_, ?_, ?_⟩
    · simp [prom_metric_incr]
    · simp [Metric.counterValue, SubDef.addSample, Table.get_upsert_self]
    · simp [Metric.gaugeValue, SubDef.addSample, Table.get_upsert_self]
  · intro M dbh cs gs chelp ghelp h calls
    obtain ⟨ct, gt, h1, h2, h3, h4, h5⟩ := incrMany_spec calls M dbh
      { suffix := cs, help := chelp, samples := [] }
      { suffix := gs, help := ghelp, samples := [] } h (by simp) (by simp)
    have hc : ct.length = distinctLabelSets (calls.map Prod.snd) := by
      have := length_eq_distinct (ct.map Prod.fst) (calls.map Prod.snd) h2
        (by intro k; simpa using h4 k)
      simpa using this
    have hg : gt.length = distinctLabelSets (calls.map Prod.snd) := by
      have := length_eq_distinct (gt.map Prod.fst) (calls.map Prod.snd) h3
        (by intro k; simpa using h5 k)
      simpa using this
    refine ⟨_, h1, ?_, ?_⟩
    · simp [resultNelts, prom_metric_get, PROM_METRIC_TYPE_COUNTER, nelts, hc]
    · simp [resultNelts, prom_metric_get, PROM_METRIC_TYPE_COUNTER, PROM_METRIC_TYPE_GAUGE,
        nelts, hg]
  · exact ⟨_, rfl, by decide, by decide, by decide, by decide, by decide, by decide⟩

/-- C6: operations against a missing sub-definition.  `prom_metric_incr` and
`prom_metric_decr` on a metric without counter and gauge, `prom_metric_set` on
a metric without gauge and `prom_metric_observe` on a metric without histogram
fail with `EPERM` and leave the metric, hence every sample, as it was.  Once
the sub-definition is attached with a help text `help` that is not empty, the
same call succeeds. -/
theorem C6_missing_subdefinition (help : String) (hh : help ≠ "") (M : String) (dbh : Dbh)
    (suffix : Option String) (val : Nat) (v : Dec) (L : Option Labels) :
    (∀ h : Option HistDef,
      prom_metric_incr (some ())
        (some { name := M, dbh := dbh, counter := none, gauge := none, histogram := h })
        val L = .error .EPERM
      ∧ prom_metric_decr (some ())
        (some { name := M, dbh := dbh, counter := none, gauge := none, histogram := h })
        val L = .error .EPERM
      ∧ metricAfter { name := M, dbh := dbh, counter := none, gauge := none, histogram := h }
          (prom_metric_incr (some ())
            (some { name := M, dbh := dbh, counter := none, gauge := none, histogram := h })
            val L)
          = { name := M, dbh := dbh, counter := none, gauge := none, histogram := h }
      ∧ metricAfter { name := M, dbh := dbh, counter := none, gauge := none, histogram := h }
          (prom_metric_decr (some ())
            (some { name := M, dbh := dbh, counter := none, gauge := none, histogram := h })
            val L)
          = { name := M, dbh := dbh, counter := none, gauge := none, histogram := h })
    ∧ (∀ (c : Option SubDef) (h : Option HistDef),
      prom_metric_set (some ())
        (some { name := M, dbh := dbh, counter := c, gauge := none, histogram := h })
        val L = .error .EPERM
      ∧ metricAfter { name := M, dbh := dbh, counter := c, gauge := none, histogram := h }
          (prom_metric_set (some ())
            (some { name := M, dbh := dbh, counter := c, gauge := none, histogram := h })
            val L)
          = { name := M, dbh := dbh, counter := c, gauge := none, histogram := h })
    ∧ (∀ (c g : Option SubDef),
      prom_metric_observe (some ())
        (some { name := M, dbh := dbh, counter := c, gauge := g, histogram := none })
        v L = .error .EPERM
      ∧ metricAfter { name := M, dbh := dbh, counter := c, gauge := g, histogram := none }
          (prom_metric_observe (some ())
            (some { name := M, dbh := dbh, counter := c, gauge := g, histogram := none })
            v L)
          = { name := M, dbh := dbh, counter := c, gauge := g, histogram := none })
    ∧ (∀ h : Option HistDef, ∃ m1 m2,
        prom_metric_add_counter
          (some { name := M, dbh := dbh, counter := none, gauge := none, histogram := h })
          suffix (some help) = .ok m1
        ∧ prom_metric_incr (some ()) (some m1) val L = .ok m2
        ∧ m2.counterValue (labelKey L) = some ((Dec.ofNat 0).add (Dec.ofNat val)))
    ∧ (∀ (c : Option SubDef) (h : Option HistDef), ∃ m1 m2 m3 m4,
        prom_metric_add_gauge
          (some { name := M, dbh := dbh, counter := c, gauge := none, histogram := h })
          suffix (some help) = .ok m1
        ∧ prom_metric_incr (some ()) (some m1) val L = .ok m2
        ∧ prom_metric_decr (some ()) (some m1) val L = .ok m3
        ∧ m3.gaugeValue (labelKey L) = some ((Dec.ofNat 0).sub (Dec.ofNat val))
        ∧ prom_metric_set (some ()) (some m1) val L = .ok m4
        ∧ m4.gaugeValue (labelKey L) = some (Dec.ofNat val))
    ∧ (∀ (c g : Option SubDef), ∃ m1 m2,
        prom_metric_add_histogram
          (some { name := M, dbh := dbh, counter := c, gauge := g, histogram := none })
          suffix (some help) [] = .ok m1
        ∧ prom_metric_observe (some ()) (some m1) v L = .ok m2
        ∧ (m2.histRow (labelKey L)).map (fun r => (r.count, r.sum)) =
            some ((Dec.ofNat 0).add (Dec.ofNat 1), (Dec.ofNat 0).add v)) := by
  refine ⟨?_, ?_, ?_, ?_, ?_, ?_⟩
  · intro h
    simp [prom_metric_incr, prom_metric_decr, metricAfter]
  · intro c h
    simp [prom_metric_set, metricAfter]
  · intro c g
    simp [prom_metric_observe, metricAfter]
  · intro h
    refine ⟨_, _, by simp only [prom_metric_add_counter, hh, if_false, Option.isSome_none]; rfl,
      by simp only [prom_metric_incr]; rfl, ?_⟩
    simp [Metric.counterValue, SubDef.addSample, Table.upsert, Table.get, Table.insertRow]
  · intro c h
    refine ⟨_,
      { name := M, dbh := dbh,
        counter := c.map (SubDef.addSample (labelKey L) (Dec.ofNat val)),
        gauge := some (SubDef.addSample (labelKey L) (Dec.ofNat val)
          { suffix := suffix, help := help, samples := [] }),
        histogram := h }, _, _,
      by simp only [prom_metric_add_gauge, hh, if_false, Option.isSome_none]; rfl,
      ?_, by simp only [prom_metric_decr]; rfl, ?_, by simp only [prom_metric_set]; rfl, ?_⟩
    · simp [prom_metric_incr]
    · simp [Metric.gaugeValue, SubDef.subSample, Table.upsert, Table.get, Table.insertRow]
    · simp [Metric.gaugeValue, SubDef.setSample, Table.upsert, Table.get, Table.insertRow]
  · intro c g
    refine ⟨_, _, by simp only [prom_metric_add_histogram, hh, if_false, Option.isSome_none]; rfl,
      by simp only [prom_metric_observe]; rfl, ?_⟩
    simp [Metric.histRow, HistDef.observe, Table.upsert, Table.get, Table.insertRow, observeRow,
      zeroRow]

/-- The scenario of `metric_decr_test`: a decrement by 32 of the metric `test` is
refused before the gauge `count` is attached with the help text `testing`, and
succeeds after. -/
theorem C6_missing_subdefinition_witness :
    "testing" ≠ ""
    ∧ prom_metric_decr (some ())
        (some { name := "test", dbh := 1, counter := none, gauge := none, histogram := none })
        32 none = .error .EPERM
    ∧ (∃ m1 m2 m3 m4,
        prom_metric_add_gauge
          (some { name := "test", dbh := 1, counter := none, gauge := none, histogram := none })
          (some "count") (some "testing") = .ok m1
        ∧ prom_metric_incr (some ()) (some m1) 32 none = .ok m2
        ∧ prom_metric_decr (some ()) (some m1) 32 none = .ok m3
        ∧ m3.gaugeValue (labelKey none) = some ((Dec.ofNat 0).sub (Dec.ofNat 32))
        ∧ prom_metric_set (some ()) (some m1) 32 none = .ok m4
        ∧ m4.gaugeValue (labelKey none) = some (Dec.ofNat 32))
    ∧ (Dec.ofNat 0).sub (Dec.ofNat 32) = ⟨-32, 0⟩ :=
  ⟨by decide,
    ((C6_missing_subdefinition "testing" (by decide) "test" 1 (some "count") 32 ⟨31415, 4⟩
      none).1 none).2.1,
    (C6_missing_subdefinition "testing" (by decide) "test" 1 (some "count") 32 ⟨31415, 4⟩
      none).2.2.2.2.1 none none,
    by decide⟩

/-- C7: `prom_metric_get` on a kind without sub-definition fails with `EPERM`; on
a kind whose sub-definition has no samples it succeeds with an empty result
array (and, for a histogram, empty count and sum arrays); on a kind that is
none of counter, gauge and histogram it fails with `EINVAL`. -/
theorem C7_get (kind : Int) (h1 : kind ≠ PROM_METRIC_TYPE_COUNTER)
    (h2 : kind ≠ PROM_METRIC_TYPE_GAUGE) (h3 : kind ≠ PROM_METRIC_TYPE_HISTOGRAM) :
    (∀ (M : String) (dbh : Dbh) (g : Option SubDef) (h : Option HistDef),
      prom_metric_get (some ())
        (some { name := M, dbh := dbh, counter := none, gauge := g, histogram := h })
        PROM_METRIC_TYPE_COUNTER = .error .EPERM)
    ∧ (∀ (M : String) (dbh : Dbh) (c : Option SubDef) (h : Option HistDef),
      prom_metric_get (some ())
        (some { name := M, dbh := dbh, counter := c, gauge := none, histogram := h })
        PROM_METRIC_TYPE_GAUGE = .error .EPERM)
    ∧ (∀ (M : String) (dbh : Dbh) (c g : Option SubDef),
      prom_metric_get (some ())
        (some { name := M, dbh := dbh, counter := c, gauge := g, histogram := none })
        PROM_METRIC_TYPE_HISTOGRAM = .error .EPERM)
    ∧ (∀ (M : String) (dbh : Dbh) (suffix : Option String) (help : String) (g : Option SubDef)
        (h : Option HistDef),
      prom_metric_get (some ())
        (some { name := M, dbh := dbh,
                counter := some { suffix := suffix, help := help, samples := [] },
                gauge := g, histogram := h })
        PROM_METRIC_TYPE_COUNTER = .ok { results := [], counts := none, sums := none })
    ∧ (∀ (M : String) (dbh : Dbh) (suffix : Option String) (help : String) (c : Option SubDef)
        (h : Option HistDef),
      prom_metric_get (some ())
        (some { name := M, dbh := dbh, counter := c,
                gauge := some { suffix := suffix, help := help, samples := [] },
                histogram := h })
        PROM_METRIC_TYPE_GAUGE = .ok { results := [], counts := none, sums := none })
    ∧ (∀ (M : String) (dbh : Dbh) (suffix : Option String) (help : String) (bounds : List Dec)
        (c g : Option SubDef),
      prom_metric_get (some ())
        (some { name := M, dbh := dbh, counter := c, gauge := g,
                histogram := some { suffix := suffix, help := help, bounds := bounds,
                                    rows := [] } })
        PROM_METRIC_TYPE_HISTOGRAM = .ok { results := [], counts := some [], sums := some [] })
    ∧ (∀ m : Metric, prom_metric_get (some ()) (some m) kind = .error .EINVAL) := by
  refine ⟨?_, ?_, ?_, ?_, ?_, ?_, ?_⟩
  · intro M dbh g h
    simp [prom_metric_get]
  · intro M dbh c h
    simp [prom_metric_get, PROM_METRIC_TYPE_GAUGE, PROM_METRIC_TYPE_COUNTER]
  · intro M dbh c g
    simp [prom_metric_get, PROM_METRIC_TYPE_GAUGE, PROM_METRIC_TYPE_COUNTER,
      PROM_METRIC_TYPE_HISTOGRAM]
  · intro M dbh suffix help g h
    simp [prom_metric_get]
  · intro M dbh suffix help c h
    simp [prom_metric_get, PROM_METRIC_TYPE_GAUGE, PROM_METRIC_TYPE_COUNTER]
  · intro M dbh suffix help bounds c g
    simp [prom_metric_get, PROM_METRIC_TYPE_GAUGE, PROM_METRIC_TYPE_COUNTER,
      PROM_METRIC_TYPE_HISTOGRAM, allBucketEntries]
  · intro m
    simp [prom_metric_get, h1, h2, h3]

/-- The calls of `metric_get_test` on the freshly created metric `test`: the kind
`-1` is refused with `EINVAL`, the three known kinds with `EPERM`. -/
theorem C7_get_witness :
    (-1 : Int) ≠ PROM_METRIC_TYPE_COUNTER ∧ (-1 : Int) ≠ PROM_METRIC_TYPE_GAUGE
    ∧ (-1 : Int) ≠ PROM_METRIC_TYPE_HISTOGRAM
    ∧ prom_metric_get (some ())
        (some { name := "test", dbh := 1, counter := none, gauge := none, histogram := none })
        (-1) = .error .EINVAL
    ∧ prom_metric_get (some ())
        (some { name := "test", dbh := 1, counter := none, gauge := none, histogram := none })
        PROM_METRIC_TYPE_COUNTER = .error .EPERM
    ∧ prom_metric_get (some ())
        (some { name := "test", dbh := 1, counter := none, gauge := none, histogram := none })
        PROM_METRIC_TYPE_GAUGE = .error .EPERM
    ∧ prom_metric_get (some ())
        (some { name := "test", dbh := 1, counter := none, gauge := none, histogram := none })
        PROM_METRIC_TYPE_HISTOGRAM = .error .EPERM :=
  ⟨by decide, by decide, by decide,
    (C7_get (-1) (by decide) (by decide) (by decide)).2.2.2.2.2.2 _,
    (C7_get (-1) (by decide) (by decide) (by decide)).1 "test" 1 none none,
    (C7_get (-1) (by decide) (by decide) (by decide)).2.1 "test" 1 none none,
    (C7_get (-1) (by decide) (by decide) (by decide)).2.2.1 "test" 1 none none⟩

set_option maxRecDepth 100000 in
/-- C8: histogram rendering.  For a metric `M` with a histogram of suffix `S`,
`prom_metric_get_text` under the namespace `N` yields, after the lines of the
counter and the gauge, the lines `# HELP N_M_S help` and
`# TYPE N_M_S histogram` and then the lines of the rows, label set after label
set: for the labels `L` one `N_M_S_bucket` line per bound, in the order of the
bounds, then the `N_M_S_bucket` line of the bound `+Inf`, then `N_M_S_count`
and `N_M_S_sum` with the labels `L`.  In a bucket line the label `le` is
inserted among the labels of `L`, which keeps names in ascending order
ascending.  The scenario of `metric_get_text_test` (no bounds, 76.42 observed
under `protocol=ftp`, `foo=BAR`) ends with the three lines of the claim; with
the bounds 0.5, 1 and 5 an observation of 0.75 under `protocol=ftp` yields four
bucket lines in that order. -/
theorem C8_histogram_text :
    (∀ (N M S help : String) (dbh : Dbh) (c g : Option SubDef) (bounds : List Dec)
        (rows : Table HistRow),
      prom_metric_get_text (some ())
          (some { name := M, dbh := dbh, counter := c, gauge := g,
                  histogram := some { suffix := some S, help := help, bounds := bounds,
                                      rows := rows } }) (some N) =
        .ok (joinLines
              (optLines (subDefLines N M "counter") c ++ optLines (subDefLines N M "gauge") g) ++
            joinLines
              (("# HELP " ++ N ++ "_" ++ M ++ "_" ++ S ++ " " ++ help) ::
               ("# TYPE " ++ N ++ "_" ++ M ++ "_" ++ S ++ " histogram") ::
               histRowsLines (N ++ "_" ++ M ++ "_" ++ S) bounds rows)))
    ∧ (∀ (full : String) (bounds : List Dec), histRowsLines full bounds [] = [])
    ∧ (∀ (full : String) (bounds : List Dec) (L : Labels) (r : HistRow)
        (rest : Table HistRow),
        histRowsLines full bounds ((L, r) :: rest) =
          List.zipWith (fun b cnt =>
              full ++ "_bucket" ++ labelsText (insertLabel ("le", b.text) L) ++ " " ++ cnt.text)
            bounds r.buckets ++
          [full ++ "_bucket" ++ labelsText (insertLabel ("le", "+Inf") L) ++ " " ++ r.inf.text,
           full ++ "_count" ++ labelsText L ++ " " ++ r.count.text,
           full ++ "_sum" ++ labelsText L ++ " " ++ r.sum.text] ++
          histRowsLines full bounds rest)
    ∧ (∀ (t : String) (L : Labels),
        (insertLabel ("le", t) (canonLabels L)).Perm (("le", t) :: L)
        ∧ keysAscending (insertLabel ("le", t) (canonLabels L)))
    ∧ (∃ pre, textTestText = .ok (pre ++
        ("prt_test_weight_bucket\x7bfoo=\"BAR\",le=\"+Inf\",protocol=\"ftp\"\x7d 1\n" ++
         "prt_test_weight_count\x7bfoo=\"BAR\",protocol=\"ftp\"\x7d 1\n" ++
         "prt_test_weight_sum\x7bfoo=\"BAR\",protocol=\"ftp\"\x7d 76.42\n")))
    ∧ ((prom_metric_observe (some ())
          (some { name := "test", dbh := 1, counter := none, gauge := none,
                  histogram := some { suffix := some "weight", help := "histogram testing",
                                      bounds := [⟨5, 1⟩, ⟨1, 0⟩, ⟨5, 0⟩], rows := [] } })
          ⟨75, 2⟩ (some [("protocol", "ftp")]) >>= fun m =>
        prom_metric_get_text (some ()) (some m) (some "prt")) = .ok
        ("# HELP prt_test_weight histogram testing\n" ++
         "# TYPE prt_test_weight histogram\n" ++
         "prt_test_weight_bucket\x7ble=\"0.5\",protocol=\"ftp\"\x7d 0\n" ++
         "prt_test_weight_bucket\x7ble=\"1\",protocol=\"ftp\"\x7d 1\n" ++
         "prt_test_weight_bucket\x7ble=\"5\",protocol=\"ftp\"\x7d 1\n" ++
         "prt_test_weight_bucket\x7ble=\"+Inf\",protocol=\"ftp\"\x7d 1\n" ++
         "prt_test_weight_count\x7bprotocol=\"ftp\"\x7d 1\n" ++
         "prt_test_weight_sum\x7bprotocol=\"ftp\"\x7d 0.75\n")) := by
  refine ⟨?_, ?_, ?_, ?_, ?_, by decide⟩
  · intro N M S help dbh c g bounds rows
    have e1 : fullName N M (some S) = N ++ "_" ++ M ++ "_" ++ S := by
      simp [fullName, String.append_assoc]
    have e3 : ("# TYPE " ++ (N ++ "_" ++ M ++ "_" ++ S) ++ " " ++ "histogram" : String) =
        "# TYPE " ++ N ++ "_" ++ M ++ "_" ++ S ++ " histogram" := by
      have e : (" histogram" : String) = " " ++ "histogram" := by decide
      rw [e]
      simp [String.append_assoc]
    have e4 : ("# HELP " ++ (N ++ "_" ++ M ++ "_" ++ S) ++ " " ++ help : String) =
        "# HELP " ++ N ++ "_" ++ M ++ "_" ++ S ++ " " ++ help := by
      simp [String.append_assoc]
    show Except.ok (joinLines (metricLines N _)) = _
    congr 1
    unfold metricLines
    rw [joinLines_append]
    congr 1
    show joinLines (histLines N M _) = _
    unfold histLines headLines
    simp only [e1, e3, e4]
    rfl
  · intro full bounds
    rfl
  · intro full bounds L r rest
    simp only [histRowsLines, histRowLines, bucketEntries, sampleLine, List.map_append,
      List.map_zipWith, List.map_cons, List.map_nil, List.append_assoc, List.cons_append,
      List.nil_append, String.append_assoc]
  · intro t L
    exact ⟨(insertLabel_perm _ _).trans ((canonLabels_perm L).cons _),
      insertLabel_ascending _ _ (canonLabels_ascending L)⟩
  · exact ⟨"# HELP prt_test_total counter testing\n" ++
         "# TYPE prt_test_total counter\n" ++
         "prt_test_total 6\n" ++
         "prt_test_total\x7bfoo=\"BAR\",protocol=\"ftp\"\x7d 8\n" ++
         "# HELP prt_test_count gauge testing\n" ++
         "# TYPE prt_test_count gauge\n" ++
         "prt_test_count 6\n" ++
         "prt_test_count\x7bfoo=\"BAR\",protocol=\"ftp\"\x7d 8\n" ++
         "# HELP prt_test_weight histogram testing\n" ++
         "# TYPE prt_test_weight histogram\n", by decide⟩

/-- C9: attaching a sub-definition validates its input.
`prom_metric_add_counter`, `prom_metric_add_gauge` and
`prom_metric_add_histogram` fail with `EINVAL` when the metric is null, when
the help text is null or empty, and when a sub-definition of that kind is
already attached; a failed call leaves the metric as it was.  With a help text
`help` that is not empty, on a metric lacking that kind, they succeed and
attach the sub-definition without samples; for the histogram this holds for
strictly ascending `bounds` and for the empty bound list, after which an
observation fills the `+Inf` bucket alone. -/
theorem C9_add_validation (help : String) (hh : help ≠ "") (bounds : List Dec)
    (hb : ascendingBounds bounds = true) :
    (∀ (suffix hp : Option String) (bs : List Dec),
      prom_metric_add_counter none suffix hp = .error .EINVAL
      ∧ prom_metric_add_gauge none suffix hp = .error .EINVAL
      ∧ prom_metric_add_histogram none suffix hp bs = .error .EINVAL)
    ∧ (∀ (m : Metric) (suffix : Option String) (bs : List Dec),
      prom_metric_add_counter (some m) suffix none = .error .EINVAL
      ∧ prom_metric_add_counter (some m) suffix (some "") = .error .EINVAL
      ∧ prom_metric_add_gauge (some m) suffix none = .error .EINVAL
      ∧ prom_metric_add_gauge (some m) suffix (some "") = .error .EINVAL
      ∧ prom_metric_add_histogram (some m) suffix none bs = .error .EINVAL
      ∧ prom_metric_add_histogram (some m) suffix (some "") bs = .error .EINVAL)
    ∧ (∀ (M : String) (dbh : Dbh) (c g : Option SubDef) (h : Option HistDef) (d : SubDef)
        (hd : HistDef) (suffix hp : Option String) (bs : List Dec),
      prom_metric_add_counter
        (some { name := M, dbh := dbh, counter := some d, gauge := g, histogram := h })
        suffix hp = .error .EINVAL
      ∧ prom_metric_add_gauge
        (some { name := M, dbh := dbh, counter := c, gauge := some d, histogram := h })
        suffix hp = .error .EINVAL
      ∧ prom_metric_add_histogram
        (some { name := M, dbh := dbh, counter := c, gauge := g, histogram := some hd })
        suffix hp bs = .error .EINVAL)
    ∧ (∀ (m : Metric) (suffix hp : Option String) (bs : List Dec),
      (prom_metric_add_counter (some m) suffix hp = .error .EINVAL →
        metricAfter m (prom_metric_add_counter (some m) suffix hp) = m)
      ∧ (prom_metric_add_gauge (some m) suffix hp = .error .EINVAL →
        metricAfter m (prom_metric_add_gauge (some m) suffix hp) = m)
      ∧ (prom_metric_add_histogram (some m) suffix hp bs = .error .EINVAL →
        metricAfter m (prom_metric_add_histogram (some m) suffix hp bs) = m))
    ∧ (∀ (M : String) (dbh : Dbh) (c g : Option SubDef) (h : Option HistDef)
        (suffix : Option String),
      prom_metric_add_counter
        (some { name := M, dbh := dbh, counter := none, gauge := g, histogram := h })
        suffix (some help)
        = .ok { name := M, dbh := dbh,
                counter := some { suffix := suffix, help := help, samples := [] },
                gauge := g, histogram := h }
      ∧ prom_metric_add_gauge
        (some { name := M, dbh := dbh, counter := c, gauge := none, histogram := h })
        suffix (some help)
        = .ok { name := M, dbh := dbh, counter := c,
                gauge := some { suffix := suffix, help := help, samples := [] },
                histogram := h }
      ∧ prom_metric_add_histogram
        (some { name := M, dbh := dbh, counter := c, gauge := g, histogram := none })
        suffix (some help) bounds
        = .ok { name := M, dbh := dbh, counter := c, gauge := g,
                histogram := some { suffix := suffix, help := help, bounds := bounds,
                                    rows := [] } }
      ∧ prom_metric_add_histogram
        (some { name := M, dbh := dbh, counter := c, gauge := g, histogram := none })
        suffix (some help) []
        = .ok { name := M, dbh := dbh, counter := c, gauge := g,
                histogram := some { suffix := suffix, help := help, bounds := [],
                                    rows := [] } })
    ∧ (∀ (key : Labels) (r : HistRow),
        bucketEntries [] key r = [(insertLabel ("le", "+Inf") key, r.inf)]) := by
  refine ⟨?_, ?_, ?_, ?_, ?_, ?_⟩
  · intro suffix hp bs
    exact ⟨rfl, rfl, rfl⟩
  · intro m suffix bs
    exact ⟨rfl, rfl, rfl, rfl, rfl, rfl⟩
  · intro M dbh c g h d hd suffix hp bs
    cases hp with
    | none => exact ⟨rfl, rfl, rfl⟩
    | some t =>
      by_cases ht : t = ""
      · simp [prom_metric_add_counter, prom_metric_add_gauge, prom_metric_add_histogram, ht]
      · simp [prom_metric_add_counter, prom_metric_add_gauge, prom_metric_add_histogram, ht]
  · intro m suffix hp bs
    refine ⟨fun e => ?_, fun e => ?_, fun e => ?_⟩ <;> rw [e] <;> rfl
  · intro M dbh c g h suffix
    simp [prom_metric_add_counter, prom_metric_add_gauge, prom_metric_add_histogram, hh, hb,
      ascendingBounds]
  · intro key r
    rfl

/-- The calls of the `metric_add_*` tests on the metric `test`: a null help text
is refused, the help text `testing` is accepted, for the histogram with no
bounds; a second counter is refused. -/
theorem C9_add_validation_witness :
    "testing" ≠ "" ∧ ascendingBounds [⟨5, 1⟩, ⟨1, 0⟩, ⟨25, 1⟩] = true
    ∧ prom_metric_add_counter
        (some { name := "test", dbh := 1, counter := none, gauge := none, histogram := none })
        (some "total") none = .error .EINVAL
    ∧ prom_metric_add_counter
        (some { name := "test", dbh := 1, counter := none, gauge := none, histogram := none })
        (some "total") (some "testing")
        = .ok { name := "test", dbh := 1,
                counter := some { suffix := some "total", help := "testing", samples := [] },
                gauge := none, histogram := none }
    ∧ prom_metric_add_histogram
        (some { name := "test", dbh := 1, counter := none, gauge := none, histogram := none })
        (some "weight") (some "testing") []
        = .ok { name := "test", dbh := 1, counter := none, gauge := none,
                histogram := some { suffix := some "weight", help := "testing", bounds := [],
                                    rows := [] } }
    ∧ prom_metric_add_histogram
        (some { name := "test", dbh := 1, counter := none, gauge := none, histogram := none })
        (some "weight") (some "testing") [⟨5, 1⟩, ⟨1, 0⟩, ⟨25, 1⟩]
        = .ok { name := "test", dbh := 1, counter := none, gauge := none,
                histogram := some { suffix := some "weight", help := "testing",
                                    bounds := [⟨5, 1⟩, ⟨1, 0⟩, ⟨25, 1⟩], rows := [] } }
    ∧ prom_metric_add_counter
        (some { name := "test", dbh := 1,
                counter := some { suffix := some "total", help := "testing", samples := [] },
                gauge := none, histogram := none })
        (some "total") (some "testing") = .error .EINVAL
    ∧ metricAfter
        { name := "test", dbh := 1, counter := none, gauge := none, histogram := none }
        (prom_metric_add_counter
          (some { name := "test", dbh := 1, counter := none, gauge := none, histogram := none })
          (some "total") none)
        = { name := "test", dbh := 1, counter := none, gauge := none, histogram := none } :=
  ⟨by decide, by decide,
    ((C9_add_validation "testing" (by decide) [⟨5, 1⟩, ⟨1, 0⟩, ⟨25, 1⟩] (by decide)).2.1
      _ _ []).1,
    ((C9_add_validation "testing" (by decide) [⟨5, 1⟩, ⟨1, 0⟩, ⟨25, 1⟩] (by decide)).2.2.2.2.1
      "test" 1 none none none (some "total")).1,
    ((C9_add_validation "testing" (by decide) [⟨5, 1⟩, ⟨1, 0⟩, ⟨25, 1⟩] (by decide)).2.2.2.2.1
      "test" 1 none none none (some "weight")).2.2.2,
    ((C9_add_validation "testing" (by decide) [⟨5, 1⟩, ⟨1, 0⟩, ⟨25, 1⟩] (by decide)).2.2.2.2.1
      "test" 1 none none none (some "weight")).2.2.1,
    ((C9_add_validation "testing" (by decide) [⟨5, 1⟩, ⟨1, 0⟩, ⟨25, 1⟩] (by decide)).2.2.1
      "test" 1 none none none { suffix := some "total", help := "testing", samples := [] }
      { suffix := none, help := "", bounds := [], rows := [] } (some "total") (some "testing")
      []).1,
    ((C9_add_validation "testing" (by decide) [⟨5, 1⟩, ⟨1, 0⟩, ⟨25, 1⟩] (by decide)).2.2.2.1
      { name := "test", dbh := 1, counter := none, gauge := none, histogram := none }
      (some "total") none []).1 rfl⟩

/-- C10: registering a metric under a name that is taken.  When the name of
`m1` is not yet in the registry `r`, registering `m1` succeeds and adds one
metric, found by lookup; registering after it a metric `m2` of the same name
fails with `EEXIST` and leaves the registry as it was: lookup of the name
still returns `m1` and the number of registered metrics is unchanged.  In any
registry where lookup of the name of a metric finds a metric, registering it
fails with `EEXIST`. -/
theorem C10_duplicate_registration (r : Registry) (m1 m2 : Metric)
    (hname : m2.name = m1.name)
    (hfresh : prom_registry_get_metric (some r) (some m1.name) = .error .ENOENT) :
    (∃ r1,
      prom_registry_add_metric (some r) (some m1) = .ok r1
      ∧ r1.count = r.count + 1
      ∧ prom_registry_get_metric (some r1) (some m1.name) = .ok m1
      ∧ prom_registry_add_metric (some r1) (some m2) = .error .EEXIST
      ∧ registryAfter r1 (prom_registry_add_metric (some r1) (some m2)) = r1
      ∧ prom_registry_get_metric
          (some (registryAfter r1 (prom_registry_add_metric (some r1) (some m2))))
          (some m2.name) = .ok m1
      ∧ (registryAfter r1 (prom_registry_add_metric (some r1) (some m2))).count = r1.count)
    ∧ (∀ (r0 : Registry) (m m0 : Metric),
        prom_registry_get_metric (some r0) (some m.name) = .ok m0 →
        prom_registry_add_metric (some r0) (some m) = .error .EEXIST
        ∧ registryAfter r0 (prom_registry_add_metric (some r0) (some m)) = r0) := by
  have hnone : findMetric m1.name r.metrics = none := by
    cases hf : findMetric m1.name r.metrics with
    | none => rfl
    | some x => simp [prom_registry_get_metric, hf] at hfresh
  have hfound : findMetric m1.name (r.metrics ++ [m1]) = some m1 := by
    rw [findMetric_append_of_none m1.name m1 r.metrics hnone]
    simp
  have hadd2 : prom_registry_add_metric (some { r with metrics := r.metrics ++ [m1] }) (some m2)
      = .error .EEXIST := by
    simp [prom_registry_add_metric, hname, hfound]
  refine ⟨⟨{ r with metrics := r.metrics ++ [m1] }, ?_, ?_, ?_, hadd2, ?_, ?_, ?_⟩, ?_⟩
  · simp [prom_registry_add_metric, hnone]
  · simp [Registry.count]
  · simp [prom_registry_get_metric, hfound]
  · rw [hadd2]
    rfl
  · rw [hadd2]
    simp [registryAfter, prom_registry_get_metric, hname, hfound]
  · rw [hadd2]
    rfl
  · intro r0 m m0 hget
    have hsome : findMetric m.name r0.metrics = some m0 := by
      cases hf : findMetric m.name r0.metrics with
      | none => simp [prom_registry_get_metric, hf] at hget
      | some x =>
        simp [prom_registry_get_metric, hf] at hget
        rw [hget]
    simp [prom_registry_add_metric, hsome, registryAfter]

/-- Registering the metric `directory_list` of `create_session_metrics` twice in
the registry `proftpd`: the second registration is refused and the first
metric, with its counter, stays the one that lookup returns. -/
theorem C10_duplicate_registration_witness :
    ∃ r1 : Registry,
      prom_registry_add_metric (some { name := "proftpd", metrics := [] })
        (some { name := "directory_list", dbh := 1,
                counter := some { suffix := some "total",
                                  help := "Number of directory listings", samples := [] },
                gauge := none, histogram := none }) = .ok r1
      ∧ r1.count = 1
      ∧ prom_registry_add_metric (some r1)
          (some { name := "directory_list", dbh := 1, counter := none, gauge := none,
                  histogram := none }) = .error .EEXIST
      ∧ prom_registry_get_metric
          (some (registryAfter r1 (prom_registry_add_metric (some r1)
            (some { name := "directory_list", dbh := 1, counter := none, gauge := none,
                    histogram := none }))))
          (some "directory_list")
          = .ok { name := "directory_list", dbh := 1,
                  counter := some { suffix := some "total",
                                    help := "Number of directory listings", samples := [] },
                  gauge := none, histogram := none } := by
  obtain ⟨r1, h1, h2, _, h4, _, h6, _⟩ :=
    (C10_duplicate_registration { name := "proftpd", metrics := [] }
      { name := "directory_list", dbh := 1,
        counter := some { suffix := some "total",
                          help := "Number of directory listings", samples := [] },
        gauge := none, histogram := none }
      { name := "directory_list", dbh := 1, counter := none, gauge := none, histogram := none }
      rfl (by decide)).1
  exact ⟨r1, h1, h2, h4, h6⟩

/-- C11 at a store that holds recorded samples.  The tables directory
`/var/proftpd/prometheus` holds the sample rows 5 and 76.42.
`prom_metric_db_open` returns a handle and leaves the rows as they are, on
every store.  `prom_metric_db_init`, called with the flag `VACUUM` as
`prom_sess_init` calls it, returns a handle and leaves no sample row: it runs
the truncation whatever its flags, so after every call that returns a handle
the store holds no sample row. -/
theorem C11_init_truncates :
    sampleRows recordedDisk "/var/proftpd/prometheus" =
      [[.int 1, .int 1, .real ⟨5, 0⟩], [.int 2, .int 2, .real ⟨7642, 2⟩]]
    ∧ (prom_metric_db_open (DbEnv.healthy 7) (some "/var/proftpd/prometheus")
        recordedDisk).dbh = some 7
    ∧ sampleRows (prom_metric_db_open (DbEnv.healthy 7) (some "/var/proftpd/prometheus")
        recordedDisk).disk "/var/proftpd/prometheus" =
      [[.int 1, .int 1, .real ⟨5, 0⟩], [.int 2, .int 2, .real ⟨7642, 2⟩]]
    ∧ (prom_metric_db_init (DbEnv.healthy 7) (some "/var/proftpd/prometheus")
        [OpenFlag.VACUUM] recordedDisk).dbh = some 7
    ∧ sampleRows (prom_metric_db_init (DbEnv.healthy 7) (some "/var/proftpd/prometheus")
        [OpenFlag.VACUUM] recordedDisk).disk "/var/proftpd/prometheus" = []
    ∧ (∀ (env : DbEnv) (dir : String) (flags : List OpenFlag) (disk : Disk),
        (prom_metric_db_init env (some dir) flags disk).dbh.isSome = true →
        sampleRows (prom_metric_db_init env (some dir) flags disk).disk dir = [])
    ∧ (∀ (env : DbEnv) (dir : String) (disk : Disk),
        sampleRows (prom_metric_db_open env (some dir) disk).disk dir = sampleRows disk dir) := by
  refine ⟨by decide, by decide, by decide, by decide, by decide, ?_, ?_⟩
  · intro env dir flags disk h
    unfold prom_metric_db_init at h ⊢
    simp only at h ⊢
    cases ho : env.open_errno with
    | some e => simp [prom_db_open_with_version, ho] at h
    | none =>
      simp only [prom_db_open_with_version, ho] at h ⊢
      cases hsch : metrics_db_add_schema env ((disk.read (pdircat (some dir) "metrics.db")).getD [])
        with
      | mk r db1 =>
        cases r with
        | error e => simp [hsch] at h
        | ok u =>
          simp only [hsch] at h ⊢
          cases ht : env.truncate_errno with
          | some e => simp [reverse_db_truncate_tables, ht] at h
          | none =>
            simp only [reverse_db_truncate_tables, ht, sampleRows, Disk.read_write,
              Database.table_map_clear]
            cases db1.table "samples" <;> rfl
  · intro env dir disk
    unfold prom_metric_db_open
    cases ho : env.open_errno with
    | some e => simp [prom_db_open_with_version, ho]
    | none =>
      simp only [prom_db_open_with_version, ho, sampleRows, Disk.read_write]
      cases hr : disk.read (pdircat (some dir) "metrics.db") with
      | none => simp [Database.table]
      | some db => simp

/-- C12: every command handler of the module returns `DECLINED`, for every
pair of metric operations the module is linked against, whatever they return,
for every state of the module (engine on or off, no registry, a registry
without the metric, a registry with it) and every session; so does every
entry of the command table `prometheus_cmdtab`. -/
theorem C12_handlers_decline (api : MetricApi) (st : Module) (s : Session) :
    (prom_pre_list api st s).ret = .DECLINED
    ∧ (prom_log_list api st s).ret = .DECLINED
    ∧ (prom_err_list api st s).ret = .DECLINED
    ∧ (prom_pre_user api st s).ret = .DECLINED
    ∧ (prom_log_pass api st s).ret = .DECLINED
    ∧ (prom_err_login api st s).ret = .DECLINED
    ∧ (prom_pre_retr api st s).ret = .DECLINED
    ∧ (prom_log_retr api st s).ret = .DECLINED
    ∧ (prom_err_retr api st s).ret = .DECLINED
    ∧ (prom_pre_stor api st s).ret = .DECLINED
    ∧ (prom_log_stor api st s).ret = .DECLINED
    ∧ (prom_err_stor api st s).ret = .DECLINED
    ∧ (prom_log_auth api st s).ret = .DECLINED
    ∧ (∀ entry ∈ prometheus_cmdtab, (entry.2.2 api st s).ret = .DECLINED) := by
  have h1 : (prom_pre_list api st s).ret = .DECLINED := by
    unfold prom_pre_list; split <;> rfl
  have h2 : (prom_log_list api st s).ret = .DECLINED := by
    unfold prom_log_list; split <;> rfl
  have h3 : (prom_err_list api st s).ret = .DECLINED := by
    unfold prom_err_list; split <;> rfl
  have h4 : (prom_pre_user api st s).ret = .DECLINED := by
    unfold prom_pre_user; split <;> rfl
  have h5 : (prom_log_pass api st s).ret = .DECLINED := by
    unfold prom_log_pass; split <;> rfl
  have h6 : (prom_err_login api st s).ret = .DECLINED := by
    unfold prom_err_login; split <;> rfl
  have h7 : (prom_pre_retr api st s).ret = .DECLINED := by
    unfold prom_pre_retr; split <;> rfl
  have h8 : (prom_log_retr api st s).ret = .DECLINED := by
    unfold prom_log_retr
    split
    · rfl
    · simp only
      split <;> rfl
  have h9 : (prom_err_retr api st s).ret = .DECLINED := by
    unfold prom_err_retr; split <;> rfl
  have h10 : (prom_pre_stor api st s).ret = .DECLINED := by
    unfold prom_pre_stor; split <;> rfl
  have h11 : (prom_log_stor api st s).ret = .DECLINED := by
    unfold prom_log_stor
    split
    · rfl
    · simp only
      split <;> rfl
  have h12 : (prom_err_stor api st s).ret = .DECLINED := by
    unfold prom_err_stor; split <;> rfl
  have h13 : (prom_log_auth api st s).ret = .DECLINED := by
    unfold prom_log_auth; split <;> rfl
  refine ⟨h1, h2, h3, h4, h5, h6, h7, h8, h9, h10, h11, h12, h13, ?_⟩
  intro entry he
  simp only [prometheus_cmdtab, List.mem_cons, List.mem_singleton, List.not_mem_nil,
    or_false] at he
  rcases he with h | h | h | h | h | h | h | h | h | h | h | h | h | h | h | h | h | h | h | h <;>
    subst h <;> assumption

/-- C13: `prom_event_incr` against its reference behaviour, for every 32-bit
signed `incr`, every pair of metric operations, every state and session.  When
the registry lookup of the name finds nothing, no metric operation is called,
nothing is logged and the module is as it was.  When it finds a metric, that
metric has the name, and exactly one operation is called on it: an increment
by `incr` when `incr >= 0`, a decrement by the magnitude of `incr` when
`incr < 0`; the labels are the table that starts with `protocol` set to the
session protocol and to which the pairs are added in order, which is the list
of `protocol` followed by the pairs when their keys are distinct and none is
`protocol`.  The calls do not depend on what the operation returns; a failed
operation leaves one log line and the module as it was. -/
theorem C13_event_incr (api : MetricApi) (st : Module) (s : Session) (metric_name : String)
    (incr : Int) (pairs : List (String × String))
    (hlo : -2 ^ 31 ≤ incr) (hhi : incr < 2 ^ 31) :
    (∀ e, prom_registry_get_metric st.prometheus_registry (some metric_name) = .error e →
      (prom_event_incr api st s metric_name incr pairs).calls = []
      ∧ (prom_event_incr api st s metric_name incr pairs).logs = []
      ∧ (prom_event_incr api st s metric_name incr pairs).st = st)
    ∧ (∀ metric, prom_registry_get_metric st.prometheus_registry (some metric_name) = .ok metric →
      metric.name = metric_name
      ∧ (0 ≤ incr →
          (prom_event_incr api st s metric_name incr pairs).calls =
            [{ op := .incr, metric_name := metric_name, val := incr.toNat,
               labels := pairs.foldl (fun t kv => pr_table_add t kv.1 kv.2)
                 [("protocol", s.protocol)] }]
          ∧ (prom_event_incr api st s metric_name incr pairs).st =
              st.record (api.incr (some ()) (some metric) incr.toNat
                (some (pairs.foldl (fun t kv => pr_table_add t kv.1 kv.2)
                  [("protocol", s.protocol)]))))
      ∧ (incr < 0 →
          (prom_event_incr api st s metric_name incr pairs).calls =
            [{ op := .decr, metric_name := metric_name, val := incr.natAbs,
               labels := pairs.foldl (fun t kv => pr_table_add t kv.1 kv.2)
                 [("protocol", s.protocol)] }]
          ∧ (prom_event_incr api st s metric_name incr pairs).st =
              st.record (api.decr (some ()) (some metric) incr.natAbs
                (some (pairs.foldl (fun t kv => pr_table_add t kv.1 kv.2)
                  [("protocol", s.protocol)]))))
      ∧ (prom_event_incr api st s metric_name incr pairs).calls =
          (prom_event_incr (MetricApi.failing .EPERM) st s metric_name incr pairs).calls
      ∧ (prom_event_incr (MetricApi.failing .EPERM) st s metric_name incr pairs).st = st
      ∧ (prom_event_incr (MetricApi.failing .EPERM) st s metric_name incr pairs).logs =
          [{ decrementing := decide (incr < 0), metric_name := metric_name, errno := .EPERM }])
    ∧ (("protocol" :: pairs.map Prod.fst).Nodup →
        pairs.foldl (fun t kv => pr_table_add t kv.1 kv.2) [("protocol", s.protocol)] =
          ("protocol", s.protocol) :: pairs) := by
  refine ⟨?_, ?_, ?_⟩
  · intro e he
    simp [prom_event_incr, he]
  · intro metric hm
    have hn := prom_registry_get_metric_name _ _ _ hm
    have hp : prom_get_labels s = [("protocol", s.protocol)] := rfl
    refine ⟨hn, ?_, ?_, ?_, ?_, ?_⟩
    · intro h0
      have hv : toUint32 incr = incr.toNat := by
        unfold toUint32
        rw [Int.emod_eq_of_lt h0 (by omega)]
      simp [prom_event_incr, hm, h0, hv, hp, hn, MetricApi.run]
    · intro h0
      have hneg : ¬ (incr ≥ 0) := by omega
      have hv : toUint32 (negInt32 incr) = incr.natAbs := by
        unfold toUint32 negInt32
        have e1 : (-incr + 2 ^ 31) % 2 ^ 32 =
            -incr + 2 ^ 31 - (if incr = -2 ^ 31 then 2 ^ 32 else 0) := by
          split
          · next h => subst h; decide
          · next h => rw [Int.emod_eq_of_lt (by omega) (by omega)]; simp
        rw [e1]
        split
        · next h => subst h; decide
        · next h =>
          have : (-incr + 2 ^ 31 - 0 - 2 ^ 31) = -incr := by ring
          rw [this, Int.emod_eq_of_lt (by omega) (by omega)]
          omega
      simp [prom_event_incr, hm, hneg, hv, hp, hn, MetricApi.run]
    · simp [prom_event_incr, hm]
    · simp [prom_event_incr, hm, MetricApi.run_failing, Module.record]
    · simp [prom_event_incr, hm, MetricApi.run_failing]
  · intro hnd
    have := pr_table_add_all pairs [("protocol", s.protocol)] (by simpa using hnd)
    simpa using this

/-- C13 at the end of an FTP session after a successful start-up:
`prom_event_incr("session", -1, NULL)` finds the metric and calls one decrement
by 1 with the label `protocol="ftp"`. -/
theorem C13_event_incr_witness :
    (-2 ^ 31 : Int) ≤ -1 ∧ (-1 : Int) < 2 ^ 31
    ∧ prom_registry_get_metric startedModule.prometheus_registry (some "session") =
        .ok sessionMetric
    ∧ (prom_event_incr MetricApi.standard startedModule ftpSession "session" (-1) []).calls =
        [{ op := .decr, metric_name := "session", val := 1, labels := [("protocol", "ftp")] }] :=
  ⟨by decide, by decide, by decide,
    (((C13_event_incr MetricApi.standard startedModule ftpSession "session" (-1) []
      (by decide) (by decide)).2.1 sessionMetric (by decide)).2.2.1 (by decide)).1⟩

/-- C14, as the code has it: when the engine is configured on, a tables
directory is configured and `prom_metric_init` returns no handle,
`prom_postparse_ev` logs that it is failing to start up and requests a
disconnect with the reason `PR_SESS_DISCONNECT_BAD_CONFIG`; it does not set
`prometheus_engine` to FALSE for that failure.  When the disconnect ends the
process, the event ends there with the engine on and no handle.  When the
disconnect comes back, the event goes on with the null handle: it creates the
registry, calls `create_metrics` on the null handle, which registers no
metric, and the engine is on at the end exactly when an exporter address is
configured and the exporter process was started. -/
theorem C14_storage_failure (env : StartEnv) (st : Module) (dir : String) (e : Errno)
    (hengine : env.engine_conf = some true)
    (htables : env.tables_conf = some dir)
    (hinit : env.metric_init (some dir) = .error e) :
    [StartEvent.metric_init dir,
      StartEvent.log "unable to initialize metrics, failing to start up",
      StartEvent.disconnect "PR_SESS_DISCONNECT_BAD_CONFIG" "Failed metrics initialization"]
      <+: (prom_postparse_ev env st).events
    ∧ (env.disconnect_returns = false →
        (prom_postparse_ev env st).ended = true
        ∧ (prom_postparse_ev env st).events =
            [StartEvent.metric_init dir,
              StartEvent.log "unable to initialize metrics, failing to start up",
              StartEvent.disconnect "PR_SESS_DISCONNECT_BAD_CONFIG"
                "Failed metrics initialization"]
        ∧ (prom_postparse_ev env st).st.prometheus_engine = true
        ∧ (prom_postparse_ev env st).st.prometheus_dbh = none)
    ∧ (env.disconnect_returns = true →
        (prom_postparse_ev env st).ended = false
        ∧ StartEvent.create_metrics none ∈ (prom_postparse_ev env st).events
        ∧ (∀ addr, env.exporter_conf = some addr →
            StartEvent.exporter_start none addr ∈ (prom_postparse_ev env st).events)
        ∧ ((prom_postparse_ev env st).st.prometheus_engine = true ↔
            (env.exporter_conf.isSome = true ∧ prom_exporter_start env.fork_result ≠ 0))
        ∧ (∀ r, (prom_postparse_ev env st).st.prometheus_registry = some r → r.metrics = [])) := by
  have hcm : create_metrics env.proftpd_version env.mod_version env.now none
      (prom_registry_init (some ()) (some "proftpd")).toOption =
      some { name := "proftpd", metrics := [] } :=
    create_metrics_null env.proftpd_version env.mod_version env.now "proftpd"
  unfold prom_postparse_ev
  simp only [hengine, htables, hinit, Except.toOption, Bool.true_eq_false, if_false]
  cases env.log_fd <;> simp only [] <;> cases hd : env.disconnect_returns
  · simp
  · simp only [if_true, Bool.true_eq_false, false_implies, true_implies, true_and]
    unfold startRegistry
    simp only [hcm]
    cases hx : env.exporter_conf with
    | none => simp [List.IsPrefix]
    | some addr =>
      cases env.http_init with
      | error e2 =>
        simp only [hd, if_true]
        unfold startExporter
        simp only
        split <;> simp_all [List.IsPrefix]
      | ok u =>
        simp only
        unfold startExporter
        simp only
        split <;> simp_all [List.IsPrefix]
  · simp
  · simp only [if_true, Bool.true_eq_false, false_implies, true_implies, true_and]
    unfold startRegistry
    simp only [hcm]
    cases hx : env.exporter_conf with
    | none => simp [List.IsPrefix]
    | some addr =>
      cases env.http_init with
      | error e2 =>
        simp only [hd, if_true]
        unfold startExporter
        simp only
        split <;> simp_all [List.IsPrefix]
      | ok u =>
        simp only
        unfold startExporter
        simp only
        split <;> simp_all [List.IsPrefix]

/-- C14 at a configuration with a tables directory and an exporter address, on
a system where `prom_metric_init` fails and the disconnect ends the process:
the disconnect is requested and the engine is not turned off. -/
theorem C14_storage_failure_witness :
    (storageFailureEnv false).engine_conf = some true
    ∧ (storageFailureEnv false).tables_conf = some "/var/proftpd/prometheus"
    ∧ (storageFailureEnv false).metric_init (some "/var/proftpd/prometheus") = .error .EPERM
    ∧ (prom_postparse_ev (storageFailureEnv false) Module.initial).ended = true
    ∧ (prom_postparse_ev (storageFailureEnv false) Module.initial).events =
        [StartEvent.metric_init "/var/proftpd/prometheus",
          StartEvent.log "unable to initialize metrics, failing to start up",
          StartEvent.disconnect "PR_SESS_DISCONNECT_BAD_CONFIG" "Failed metrics initialization"]
    ∧ (prom_postparse_ev (storageFailureEnv false) Module.initial).st.prometheus_engine = true
    ∧ (prom_postparse_ev (storageFailureEnv false) Module.initial).st.prometheus_dbh = none :=
  ⟨rfl, rfl, rfl,
    (C14_storage_failure (storageFailureEnv false) Module.initial "/var/proftpd/prometheus"
      .EPERM rfl rfl rfl).2.1 rfl⟩

/-- C14 fails as stated: with the engine on, a tables directory and an exporter
address configured, and `prom_metric_init` returning no handle, the event
requests a disconnect, ends with `prometheus_engine` TRUE, and, the disconnect
having come back as in the test suite, has called `create_metrics` and started
the exporter with the null handle. -/
theorem C14_disconnect_requested :
    (storageFailureEnv true).metric_init (some "/var/proftpd/prometheus") = .error .EPERM
    ∧ (prom_postparse_ev (storageFailureEnv true) Module.initial).st.prometheus_engine = true
    ∧ (prom_postparse_ev (storageFailureEnv true) Module.initial).events =
        [StartEvent.metric_init "/var/proftpd/prometheus",
          StartEvent.log "unable to initialize metrics, failing to start up",
          StartEvent.disconnect "PR_SESS_DISCONNECT_BAD_CONFIG" "Failed metrics initialization",
          StartEvent.registry_init "proftpd",
          StartEvent.create_metrics none,
          StartEvent.http_init,
          StartEvent.exporter_start none "0.0.0.0:9273"]
    ∧ (prom_postparse_ev (storageFailureEnv true) Module.initial).st.prometheus_exporter_pid = 4321
    ∧ (prom_postparse_ev (storageFailureEnv false) Module.initial).st.prometheus_engine = true
    ∧ StartEvent.disconnect "PR_SESS_DISCONNECT_BAD_CONFIG" "Failed metrics initialization" ∈
        (prom_postparse_ev (storageFailureEnv false) Module.initial).events := by
  decide

/-- C15: the two-level stop escalation of `prom_exporter_stop`, for every
system, every number of loop iterations followed, every module state and
every PID.  For the PID 0 nothing is done.  For a PID whose probe reports
`ESRCH` no signal is sent.  Otherwise the signals sent are `SIGTERM` alone, or
`SIGTERM` followed by `SIGKILL` and nothing after it; in the second case the
clock, read after the sleeps of the run, shows more than
`prometheus_exporter_timeout` whole seconds since the start.  Every signal goes
to the PID the function was called with. -/
theorem C15_stop_escalation (env : StopEnv) (fuel : Nat) (st : Module) (exporter_pid : Int) :
    (exporter_pid = 0 → (prom_exporter_stop env fuel st exporter_pid).events = [])
    ∧ (env.probe = .error .ESRCH →
        signalsSent (prom_exporter_stop env fuel st exporter_pid).events = [])
    ∧ (exporter_pid ≠ 0 → env.probe ≠ .error .ESRCH →
        signalsSent (prom_exporter_stop env fuel st exporter_pid).events = [.SIGTERM]
        ∨ (signalsSent (prom_exporter_stop env fuel st exporter_pid).events =
              [.SIGTERM, .SIGKILL]
            ∧ env.clock (sleepCount (prom_exporter_stop env fuel st exporter_pid).events)
                - env.clock 0 > st.prometheus_exporter_timeout))
    ∧ (∀ p sig, StopEvent.signal p sig ∈ (prom_exporter_stop env fuel st exporter_pid).events →
        p = exporter_pid) := by
  have hl := stopLoop_signals env exporter_pid (env.clock 0) st.prometheus_exporter_timeout fuel
    (env.waitpid 1) 1 0
  have hp := stopLoop_signal_pid env exporter_pid (env.clock 0) st.prometheus_exporter_timeout
    fuel (env.waitpid 1) 1 0
  refine ⟨?_, ?_, ?_, ?_⟩
  · intro h
    simp [prom_exporter_stop, h]
  · intro h
    unfold prom_exporter_stop
    by_cases h0 : exporter_pid = 0
    · simp [h0, signalsSent]
    · simp [h0, h, signalsSent]
  · intro h0 h1
    obtain ⟨hs, hc⟩ := prom_exporter_stop_signals env fuel st exporter_pid h0 h1
    rw [hs, hc]
    rcases hl with h | ⟨h, _, h3⟩
    · left
      rw [h]
    · right
      rw [h]
      exact ⟨rfl, h3⟩
  · intro p sig hmem
    by_cases h0 : exporter_pid = 0
    · simp [prom_exporter_stop, h0] at hmem
    · by_cases h1 : env.probe = .error .ESRCH
      · simp [prom_exporter_stop, h0, h1] at hmem
      · obtain ⟨tail, he, ht⟩ := prom_exporter_stop_events env fuel st exporter_pid h0 h1
        rw [he] at hmem
        simp only [List.mem_append] at hmem
        rcases hmem with (((h | h) | h) | h) | h
        · simp only [List.mem_cons, List.mem_singleton, List.not_mem_nil, or_false] at h
          rcases h with h | h | h
          · cases h
          · cases h
          · cases h; rfl
        · exact absurd h (signal_not_mem_signalError p sig .SIGTERM env.term)
        · simp at h
        · exact (hp p sig h).1
        · rcases ht with rfl | ⟨status, rfl⟩
          · simp at h
          · simp at h

/-- C16 fails in the code: an exporter that exits after the first poll is still
sent `SIGKILL`.  The exporter is running at the first poll, after 500 ms, and
has exited at every later poll; the clock shows 1 second, which is not more
than the timeout of 1 second, after the second sleep.  `prom_exporter_stop`
calls `waitpid` once, sleeps on without asking again, and sends `SIGKILL` once
the clock shows 2 seconds.  In every run `waitpid` is called at most once, and
what `waitpid` would return after the first call changes nothing. -/
theorem C16_kill_after_exit :
    exitsAfterFirstPoll 1 = .running
    ∧ (∀ n, 2 ≤ n → exitsAfterFirstPoll n = .exited 0)
    ∧ listeningModule.prometheus_exporter_timeout = 1
    ∧ (pollingEnv exitsAfterFirstPoll).clock 2 - (pollingEnv exitsAfterFirstPoll).clock 0 = 1
    ∧ (prom_exporter_stop (pollingEnv exitsAfterFirstPoll) 100 listeningModule 4321).events =
        [.probe 4321, .http_stop, .signal 4321 .SIGTERM, .sleep, .waitpid 4321,
          .sleep, .sleep, .sleep, .timeout_exceeded, .signal 4321 .SIGKILL, .report none]
    ∧ (prom_exporter_stop (pollingEnv exitsAfterFirstPoll) 100 listeningModule 4321).ending =
        .completed
    ∧ (∀ (env : StopEnv) (fuel : Nat) (st : Module) (exporter_pid : Int),
        (prom_exporter_stop env fuel st exporter_pid).events.count (.waitpid exporter_pid) ≤ 1)
    ∧ (∀ (env : StopEnv) (w : Nat → WaitRes) (fuel : Nat) (st : Module) (exporter_pid : Int),
        w 1 = env.waitpid 1 →
        prom_exporter_stop { env with waitpid := w } fuel st exporter_pid =
          prom_exporter_stop env fuel st exporter_pid) := by
  refine ⟨by decide, ?_, by decide, by decide, by decide, by decide, ?_, ?_⟩
  · intro n hn
    unfold exitsAfterFirstPoll
    rw [if_neg (by omega)]
  · intro env fuel st exporter_pid
    by_cases h0 : exporter_pid = 0
    · simp [prom_exporter_stop, h0]
    · by_cases h1 : env.probe = .error .ESRCH
      · simp [prom_exporter_stop, h0, h1]
      · obtain ⟨tail, he, ht⟩ := prom_exporter_stop_events env fuel st exporter_pid h0 h1
        have hn := stopLoop_no_waitpid env exporter_pid (env.clock 0)
          st.prometheus_exporter_timeout fuel (env.waitpid 1) 1 0 exporter_pid
        have he2 : (signalError .SIGTERM env.term).count (.waitpid exporter_pid) = 0 := by
          cases env.term <;> simp [signalError]
        have ht2 : tail.count (.waitpid exporter_pid) = 0 := by
          rcases ht with rfl | ⟨status, rfl⟩ <;> simp
        rw [he]
        simp only [List.count_append, List.count_eq_zero_of_not_mem hn, he2, ht2]
        simp [List.count_cons]
  · intro env w fuel st exporter_pid hw
    unfold prom_exporter_stop
    simp only [stopLoop_waitpid, hw]

/-- C18 fails in the code: stopping does not reset the recorded exporter PID.
No run of `prom_exporter_stop`, `prom_restart_ev` or `prom_shutdown_ev` changes
`prometheus_exporter_pid`, and a run that returns early changes nothing at
all.  For the module with the running exporter 4321 whose `waitpid` reports the
exit, the first stop completes and leaves the listener null and the PID 4321;
a second stop on that state, on a system where a process 4321 exists that is
not a child, probes it and sends it `SIGTERM`.  So does the shutdown that
follows a restart after which the engine is configured off. -/
theorem C18_pid_not_reset :
    (∀ (env : StopEnv) (fuel : Nat) (st : Module) (exporter_pid : Int),
        (prom_exporter_stop env fuel st exporter_pid).st.prometheus_exporter_pid =
          st.prometheus_exporter_pid
        ∧ ((prom_exporter_stop env fuel st exporter_pid).ending = .returned →
            (prom_exporter_stop env fuel st exporter_pid).st = st))
    ∧ (∀ (env : StopEnv) (fuel : Nat) (st : Module),
        (prom_restart_ev env fuel st).st.prometheus_exporter_pid = st.prometheus_exporter_pid
        ∧ (prom_shutdown_ev env fuel st).st.prometheus_exporter_pid =
            st.prometheus_exporter_pid)
    ∧ (prom_exporter_stop (pollingEnv (fun _ => .exited 0)) 100 listeningModule
        listeningModule.prometheus_exporter_pid).ending = .completed
    ∧ (prom_exporter_stop (pollingEnv (fun _ => .exited 0)) 100 listeningModule
        listeningModule.prometheus_exporter_pid).st.prometheus_exporter_http = none
    ∧ (prom_exporter_stop (pollingEnv (fun _ => .exited 0)) 100 listeningModule
        listeningModule.prometheus_exporter_pid).st.prometheus_exporter_pid = 4321
    ∧ (prom_exporter_stop (pollingEnv (fun _ => .failed .ECHILD)) 100
        (prom_exporter_stop (pollingEnv (fun _ => .exited 0)) 100 listeningModule
          listeningModule.prometheus_exporter_pid).st
        (prom_exporter_stop (pollingEnv (fun _ => .exited 0)) 100 listeningModule
          listeningModule.prometheus_exporter_pid).st.prometheus_exporter_pid).events =
        [.probe 4321, .http_stop, .signal 4321 .SIGTERM, .sleep, .waitpid 4321]
    ∧ (prom_postparse_ev engineOffEnv
        (prom_restart_ev (pollingEnv (fun _ => .exited 0)) 100 listeningModule).st).st.prometheus_exporter_pid
        = 4321
    ∧ signalsSent (prom_shutdown_ev (pollingEnv (fun _ => .failed .ECHILD)) 100
        (prom_postparse_ev engineOffEnv
          (prom_restart_ev (pollingEnv (fun _ => .exited 0)) 100 listeningModule).st).st).events =
        [.SIGTERM] := by
  have hstop : ∀ (env : StopEnv) (fuel : Nat) (st : Module) (exporter_pid : Int),
      (prom_exporter_stop env fuel st exporter_pid).st.prometheus_exporter_pid =
        st.prometheus_exporter_pid
      ∧ ((prom_exporter_stop env fuel st exporter_pid).ending = .returned →
          (prom_exporter_stop env fuel st exporter_pid).st = st) := by
    intro env fuel st exporter_pid
    unfold prom_exporter_stop
    by_cases h0 : exporter_pid = 0
    · simp [h0]
    · by_cases h1 : env.probe = .error .ESRCH
      · simp [h0, h1]
      · simp only [h0, h1, if_false]
        split <;> simp
  refine ⟨hstop, ?_, by decide, by decide, by decide, by decide, by decide, by decide⟩
  intro env fuel st
  constructor
  · unfold prom_restart_ev
    split
    · rfl
    · simp only
      split
      · exact (hstop env fuel st st.prometheus_exporter_pid).1
      · exact (hstop env fuel st st.prometheus_exporter_pid).1
  · unfold prom_shutdown_ev
    simp only
    split
    · exact (hstop env fuel st st.prometheus_exporter_pid).1
    · exact (hstop env fuel st st.prometheus_exporter_pid).1

/-- C19: schema creation is idempotent.  On an engine that fails on neither
statement, `metrics_db_add_schema` succeeds on every database and leaves both
tables present; every table the database had is still there with its rows; on
a database that already has the tables `samples` and `metrics` it changes
nothing.  Running it a second time gives the result and the database of the
first run, also on an engine that fails on a statement. -/
theorem C19_schema_idempotent (env : DbEnv) (db : Database)
    (hs : env.samples_fails = false) (hm : env.metrics_fails = false) :
    (metrics_db_add_schema env db).1 = .ok ()
    ∧ (Database.table (metrics_db_add_schema env db).2 "samples").isSome = true
    ∧ (Database.table (metrics_db_add_schema env db).2 "metrics").isSome = true
    ∧ (∀ t ∈ db, t ∈ (metrics_db_add_schema env db).2)
    ∧ (∀ (name : String) (t : SqlTable), db.table name = some t →
        Database.table (metrics_db_add_schema env db).2 name = some t)
    ∧ ((db.table "samples").isSome = true → (db.table "metrics").isSome = true →
        metrics_db_add_schema env db = (.ok (), db))
    ∧ metrics_db_add_schema env (metrics_db_add_schema env db).2 =
        metrics_db_add_schema env db
    ∧ (∀ env2 : DbEnv,
        metrics_db_add_schema env2 (metrics_db_add_schema env2 db).2 =
          metrics_db_add_schema env2 db) := by
  have e := metrics_db_add_schema_eq env db
  rw [hs, hm] at e
  simp only [Bool.false_eq_true, if_false] at e
  refine ⟨by rw [e], ?_, ?_, ?_, ?_, ?_, metrics_db_add_schema_twice env db,
    fun env2 => metrics_db_add_schema_twice env2 db⟩
  · rw [e]
    exact ensureTable_has_other _ "metrics" "samples" _ (ensureTable_has db "samples" _)
  · rw [e]
    exact ensureTable_has _ "metrics" _
  · intro t ht
    rw [e]
    exact (ensureTable_keeps _ "metrics" _).1 t ((ensureTable_keeps db "samples" _).1 t ht)
  · intro name t ht
    rw [e]
    exact (ensureTable_keeps _ "metrics" _).2 name t
      ((ensureTable_keeps db "samples" _).2 name t ht)
  · intro h1 h2
    rw [metrics_db_add_schema_of_tables env db h1 h2]
    simp [hs, hm]

/-- C19 on the store that holds two recorded samples: the schema creation
succeeds and leaves the store as it is. -/
theorem C19_schema_idempotent_witness :
    (DbEnv.healthy 7).samples_fails = false ∧ (DbEnv.healthy 7).metrics_fails = false
    ∧ (∃ db : Database,
        recordedDisk.read "/var/proftpd/prometheus/metrics.db" = some db
        ∧ metrics_db_add_schema (DbEnv.healthy 7) db = (.ok (), db))
    ∧ (metrics_db_add_schema (DbEnv.healthy 7) []).1 = .ok ()
    ∧ metrics_db_add_schema (DbEnv.healthy 7) (metrics_db_add_schema (DbEnv.healthy 7) []).2 =
        metrics_db_add_schema (DbEnv.healthy 7) [] :=
  ⟨rfl, rfl,
    ⟨_, rfl, (C19_schema_idempotent (DbEnv.healthy 7) _ rfl rfl).2.2.2.2.2.1 (by decide)
      (by decide)⟩,
    (C19_schema_idempotent (DbEnv.healthy 7) [] rfl rfl).1,
    (C19_schema_idempotent (DbEnv.healthy 7) [] rfl rfl).2.2.2.2.2.2.1⟩

/-- C20, as the code has it: the schema `metrics_db_add_schema` creates.  The
two statements are the texts of the source.  Table `samples` has `sample_id`
as primary key and the required columns `metric_id` and `sample_value`, a
`FLOAT`; table `metrics` has `metric_id` as primary key, the required column
`metric_name`, which is not declared unique, and the optional column
`metric_labels`.  A row without `metric_name` is refused, a second row with a
stored `metric_id` is refused, and a second row with a stored `metric_name`
and another `metric_id` is stored. -/
theorem C20_schema_layout :
    samplesStmt.sql = samplesSql ∧ metricsStmt.sql = metricsSql
    ∧ (metrics_db_add_schema (DbEnv.healthy 1) []) =
        (.ok (),
         [{ name := "samples",
            columns :=
              [{ name := "sample_id", type := .INTEGER, notNull := true, primaryKey := true,
                 unique := false },
               { name := "metric_id", type := .INTEGER, notNull := true, primaryKey := false,
                 unique := false },
               { name := "sample_value", type := .FLOAT, notNull := true, primaryKey := false,
                 unique := false }],
            rows := [] },
          { name := "metrics",
            columns :=
              [{ name := "metric_id", type := .INTEGER, notNull := true, primaryKey := true,
                 unique := false },
               { name := "metric_name", type := .TEXT, notNull := true, primaryKey := false,
                 unique := false },
               { name := "metric_labels", type := .TEXT, notNull := false, primaryKey := false,
                 unique := false }],
            rows := [] }])
    ∧ (∀ (rows : List (List SqlValue)) (id labels : SqlValue),
        SqlTable.insert
          { name := "metrics",
            columns :=
              [{ name := "metric_id", type := .INTEGER, notNull := true, primaryKey := true,
                 unique := false },
               { name := "metric_name", type := .TEXT, notNull := true, primaryKey := false,
                 unique := false },
               { name := "metric_labels", type := .TEXT, notNull := false, primaryKey := false,
                 unique := false }],
            rows := rows } [id, .null, labels] = .error .EINVAL)
    ∧ (createdTable "metrics").map (fun t =>
          t.insertAll [[.int 1, .text "session", .null], [.int 1, .text "login", .null]]) =
        some (.error .EEXIST)
    ∧ (createdTable "metrics").map (fun t =>
          (t.insertAll [[.int 1, .text "session", .null],
            [.int 2, .text "session", .text "again"]]).map (fun t2 => t2.rows)) =
        some (.ok [[.int 1, .text "session", .null], [.int 2, .text "session", .text "again"]]) := by
  refine ⟨by decide, by decide, by decide, ?_, by decide, by decide⟩
  intro rows id labels
  exact insert_metrics_without_name _ id labels rfl

/-- C20 fails as stated: in the table `metrics` that `metrics_db_add_schema`
creates, the column `metric_name` is not declared unique, and two rows with the
same `metric_name` are stored. -/
theorem C20_metric_name_not_unique :
    (createdTable "metrics").map (fun t =>
        (t.columns.filter (fun c => c.name = "metric_name")).map (fun c => c.unique)) =
      some [false]
    ∧ (createdTable "metrics").map (fun t =>
          (t.insertAll [[.int 1, .text "session", .null],
            [.int 2, .text "session", .null]]).map (fun t2 => t2.rows)) =
        some (.ok [[.int 1, .text "session", .null], [.int 2, .text "session", .null]]) := by
  decide

/-- C21: closing the sample store.  `prom_metric_db_close` returns -1 exactly
when the pool is null, and then it has set `EINVAL` and closed nothing.  For a
pool that is not null it returns 0 for a null handle, which it does not pass
on, for a handle whose close succeeds, and for a handle whose close fails,
which it logs.  In every case the files are as they were. -/
theorem C21_close (env : DbEnv) (p : Option Pool) (dbh : Option Dbh) (disk : Disk) :
    ((prom_metric_db_close env p dbh disk).res = -1 ↔ p = none)
    ∧ (p = none →
        (prom_metric_db_close env p dbh disk).errno = some .EINVAL
        ∧ (prom_metric_db_close env p dbh disk).closed = [])
    ∧ (p ≠ none → (prom_metric_db_close env p dbh disk).res = 0)
    ∧ (p ≠ none → dbh = none →
        (prom_metric_db_close env p dbh disk).closed = []
        ∧ (prom_metric_db_close env p dbh disk).errno = none)
    ∧ (∀ h, p ≠ none → dbh = some h →
        (prom_metric_db_close env p dbh disk).closed = [h]
        ∧ (prom_metric_db_close env p dbh disk).errno = env.close_errno
        ∧ ((prom_metric_db_close env p dbh disk).logs = [] ↔ env.close_errno = none))
    ∧ (prom_metric_db_close env p dbh disk).disk = disk
    ∧ (prom_metric_db_close { env with close_errno := some Errno.EIO } (some ()) (some 7)
        recordedDisk).res = 0
    ∧ (prom_metric_db_close { env with close_errno := some Errno.EIO } (some ()) (some 7)
        recordedDisk).disk = recordedDisk := by
  refine ⟨?_, ?_, ?_, ?_, ?_, ?_, rfl, rfl⟩
  · cases p with
    | none => simp [prom_metric_db_close]
    | some u =>
      cases dbh with
      | none => simp [prom_metric_db_close]
      | some h =>
        cases hc : env.close_errno <;> simp [prom_metric_db_close, prom_db_close, hc]
  · intro hp
    subst hp
    exact ⟨rfl, rfl⟩
  · intro hp
    cases p with
    | none => exact absurd rfl hp
    | some u =>
      cases dbh with
      | none => rfl
      | some h => cases hc : env.close_errno <;> simp [prom_metric_db_close, prom_db_close, hc]
  · intro hp hd
    subst hd
    cases p with
    | none => exact absurd rfl hp
    | some u => exact ⟨rfl, rfl⟩
  · intro h hp hd
    subst hd
    cases p with
    | none => exact absurd rfl hp
    | some u => cases hc : env.close_errno <;> simp [prom_metric_db_close, prom_db_close, hc]
  · cases p with
    | none => rfl
    | some u =>
      cases dbh with
      | none => rfl
      | some h => cases hc : env.close_errno <;> simp [prom_metric_db_close, prom_db_close, hc]

/-- C22: `prom_metric_db_init` is all-or-nothing, for every environment, tables
path, flag list and store.  A null tables path fails with `EINVAL`; nothing is
opened and the files are as they were.  When a handle is returned, the
opening, both schema statements and the maintenance step have succeeded, no
handle was closed and no `errno` is reported.  When no handle is returned,
either the opening itself failed, with its `errno`, and there is no handle to
close, or the opened handle was passed to the close and the `errno` reported is
that of the failed step: `EPERM` for the schema creation, the `errno` of the
maintenance step for that step.  Whether the close fails, and with which
`errno`, changes nothing of the result.  On the store: the file `metrics.db`
of the tables path is opened with the version check, the integrity check and,
unless `SKIP_VACUUM` is passed, the vacuum; a failed opening writes nothing; a
returned handle is that of the opening, and the store it stands for is the
opened one after the schema creation and the maintenance step, which both
succeeded on it: it has the tables `samples` and `metrics` and no table of it
has a row; the handle is returned whenever the three steps succeed; after a
failed schema creation or maintenance step the store is as the schema
creation left it. -/
theorem C22_init_all_or_nothing (env : DbEnv) (tables_path : Option String)
    (flags : List OpenFlag) (disk : Disk) :
    (tables_path = none →
      prom_metric_db_init env tables_path flags disk =
        { dbh := none, errno := some .EINVAL, disk := disk, db_flags := [], closed := [] })
    ∧ (∀ h, (prom_metric_db_init env tables_path flags disk).dbh = some h →
        h = env.handle
        ∧ env.open_errno = none ∧ env.samples_fails = false ∧ env.metrics_fails = false
        ∧ env.truncate_errno = none
        ∧ (prom_metric_db_init env tables_path flags disk).closed = []
        ∧ (prom_metric_db_init env tables_path flags disk).errno = none)
    ∧ ((prom_metric_db_init env tables_path flags disk).dbh = none →
        tables_path ≠ none →
        (env.open_errno ≠ none
          ∧ (prom_metric_db_init env tables_path flags disk).errno = env.open_errno
          ∧ (prom_metric_db_init env tables_path flags disk).closed = [])
        ∨ (env.open_errno = none
          ∧ (env.samples_fails = true ∨ env.metrics_fails = true)
          ∧ (prom_metric_db_init env tables_path flags disk).errno = some .EPERM
          ∧ (prom_metric_db_init env tables_path flags disk).closed = [env.handle])
        ∨ (env.open_errno = none ∧ env.samples_fails = false ∧ env.metrics_fails = false
          ∧ env.truncate_errno ≠ none
          ∧ (prom_metric_db_init env tables_path flags disk).errno = env.truncate_errno
          ∧ (prom_metric_db_init env tables_path flags disk).closed = [env.handle]))
    ∧ (∀ c : Option Errno,
        prom_metric_db_init { env with close_errno := c } tables_path flags disk =
          prom_metric_db_init env tables_path flags disk)
    ∧ (∀ dir, tables_path = some dir →
        (prom_metric_db_init env tables_path flags disk).db_flags =
          (if OpenFlag.SKIP_VACUUM ∈ flags then
            [OpenFlag.SCHEMA_VERSION_CHECK, OpenFlag.INTEGRITY_CHECK]
          else [OpenFlag.SCHEMA_VERSION_CHECK, OpenFlag.INTEGRITY_CHECK, OpenFlag.VACUUM])
        ∧ (env.open_errno ≠ none → (prom_metric_db_init env tables_path flags disk).disk = disk)
        ∧ (∀ h, (prom_metric_db_init env tables_path flags disk).dbh = some h →
            (metrics_db_add_schema env
              ((disk.read (pdircat (some dir) "metrics.db")).getD [])).1 = .ok ()
            ∧ (reverse_db_truncate_tables env (metrics_db_add_schema env
                ((disk.read (pdircat (some dir) "metrics.db")).getD [])).2).1 = .ok ()
            ∧ (prom_metric_db_init env tables_path flags disk).disk =
                disk.write (pdircat (some dir) "metrics.db")
                  (reverse_db_truncate_tables env (metrics_db_add_schema env
                    ((disk.read (pdircat (some dir) "metrics.db")).getD [])).2).2
            ∧ ∃ db, (prom_metric_db_init env tables_path flags disk).disk.read
                  (pdircat (some dir) "metrics.db") = some db
                ∧ (Database.table db "samples").isSome = true
                ∧ (Database.table db "metrics").isSome = true
                ∧ ∀ t ∈ db, t.rows = [])
        ∧ (env.open_errno = none → env.samples_fails = false → env.metrics_fails = false →
            env.truncate_errno = none →
            (prom_metric_db_init env tables_path flags disk).dbh = some env.handle)
        ∧ ((prom_metric_db_init env tables_path flags disk).dbh = none →
            env.open_errno = none →
            (prom_metric_db_init env tables_path flags disk).disk =
              disk.write (pdircat (some dir) "metrics.db")
                (metrics_db_add_schema env
                  ((disk.read (pdircat (some dir) "metrics.db")).getD [])).2)) := by
  cases tables_path with
  | none =>
    refine ⟨fun _ => rfl, ?_, ?_, fun c => rfl, fun dir hd => Option.noConfusion hd⟩
    · intro h hh
      simp [prom_metric_db_init] at hh
    · intro _ hne
      exact absurd rfl hne
  | some dir =>
    refine ⟨fun h => Option.noConfusion h, ?_⟩
    have hclose : ∀ c : Option Errno,
        prom_metric_db_init { env with close_errno := c } (some dir) flags disk =
          prom_metric_db_init env (some dir) flags disk := fun c => rfl
    have hsr := metrics_db_add_schema_result env
      ((disk.read (pdircat (some dir) "metrics.db")).getD [])
    have htr := reverse_db_truncate_tables_result env (metrics_db_add_schema env
      ((disk.read (pdircat (some dir) "metrics.db")).getD [])).2
    have hopen : (∃ e, env.open_errno = some e) ∨ env.open_errno = none := by
      cases env.open_errno <;> simp
    have htrunc : (∃ e, env.truncate_errno = some e) ∨ env.truncate_errno = none := by
      cases env.truncate_errno <;> simp
    rcases hopen with ⟨e, ho⟩ | ho
    · have heq := prom_metric_db_init_open_fails env dir flags disk e ho
      refine ⟨?_, ?_, hclose, ?_⟩
      · intro h hh
        rw [heq] at hh
        cases hh
      · intro _ _
        left
        rw [heq]
        exact ⟨by simp [ho], ho.symm, rfl⟩
      · intro d hd
        cases hd
        rw [heq]
        refine ⟨rfl, fun _ => rfl, fun h hh => (by cases hh), ?_, fun _ hn => ?_⟩
        · intro hn
          rw [ho] at hn
          cases hn
        · rw [ho] at hn
          cases hn
    · by_cases hf : env.samples_fails = true ∨ env.metrics_fails = true
      · have heq := prom_metric_db_init_schema_fails env dir flags disk .EPERM ho (hsr.2 hf)
        refine ⟨?_, ?_, hclose, ?_⟩
        · intro h hh
          rw [heq] at hh
          cases hh
        · intro _ _
          right
          left
          rw [heq]
          exact ⟨ho, hf, rfl, rfl⟩
        · intro d hd
          cases hd
          rw [heq]
          refine ⟨rfl, fun hn => absurd ho hn, fun h hh => (by cases hh), ?_, fun _ _ => rfl⟩
          intro _ hs hm _
          rcases hf with h1 | h1
          · rw [hs] at h1
            cases h1
          · rw [hm] at h1
            cases h1
      · have hs : env.samples_fails = false := by
          cases h : env.samples_fails
          · rfl
          · exact absurd (Or.inl h) hf
        have hm : env.metrics_fails = false := by
          cases h : env.metrics_fails
          · rfl
          · exact absurd (Or.inr h) hf
        have hok := hsr.1 hs hm
        rcases htrunc with ⟨e, ht⟩ | ht
        · have hte := htr.2 e ht
          have heq := prom_metric_db_init_truncate_fails env dir flags disk e ho hok
            (by rw [hte])
          refine ⟨?_, ?_, hclose, ?_⟩
          · intro h hh
            rw [heq] at hh
            cases hh
          · intro _ _
            right
            right
            rw [heq]
            exact ⟨ho, hs, hm, by simp [ht], ht.symm, rfl⟩
          · intro d hd
            cases hd
            rw [heq]
            refine ⟨rfl, fun hn => absurd ho hn, fun h hh => (by cases hh), ?_, ?_⟩
            · intro _ _ _ hn
              rw [ht] at hn
              cases hn
            · intro _ _
              simp only [hte]
        · have hte := htr.1 ht
          have heq := prom_metric_db_init_succeeds env dir flags disk ho hok (by rw [hte])
          have htab := metrics_db_add_schema_tables env
            ((disk.read (pdircat (some dir) "metrics.db")).getD []) hok
          refine ⟨?_, ?_, hclose, ?_⟩
          · intro h hh
            rw [heq] at hh ⊢
            simp only [Option.some.injEq] at hh
            exact ⟨hh.symm, ho, hs, hm, ht, rfl, rfl⟩
          · intro hh _
            rw [heq] at hh
            cases hh
          · intro d hd
            cases hd
            rw [heq]
            refine ⟨rfl, fun hn => absurd ho hn, ?_, fun _ _ _ _ => rfl, fun hn => (by cases hn)⟩
            intro h _
            refine ⟨hok, by rw [hte], rfl, _, Disk.read_write _ _ _, ?_, ?_, ?_⟩
            · rw [hte, Database.table_map_clear]
              simpa using htab.1
            · rw [hte, Database.table_map_clear]
              simpa using htab.2
            · intro t hmem
              rw [hte] at hmem
              simp only [List.mem_map] at hmem
              obtain ⟨u, _, rfl⟩ := hmem
              rfl

/-- C23: the four forms of the `PrometheusExporter` parameter, for a directive
in the server context.  `A` has no `:` and no bracket, `X` is any text, `P` is
made of decimal digits and `atoi` converts it to a port in 1..65535.  For `A`
and for `[X]` no port delimiter is found and the port is the default 9273; for
`A:P` and `[X]:P` the last `:` is the delimiter and the port is that of `P`.
The address that is resolved is `A`, or `X` without its brackets.  A `:` is the
port delimiter exactly when it is the last `:` of the parameter and no `]`
stands after it.  An address that is no wildcard and resolves is stored with
the port. -/
theorem C23_exporter_forms (env : ConfEnv) (A X P : String) (rest : List String)
    (hroot : env.in_root = true)
    (hA : ':' ∉ A.data ∧ '[' ∉ A.data ∧ ']' ∉ A.data)
    (hP : ∀ c ∈ P.data, c.isDigit = true)
    (h1 : 1 ≤ env.atoi P) (h2 : env.atoi P ≤ 65535) :
    set_prometheusexporter env (A :: rest) = resolveExporter env A 9273
    ∧ set_prometheusexporter env ((A ++ ":" ++ P) :: rest) = resolveExporter env A (env.atoi P)
    ∧ set_prometheusexporter env (("[" ++ X ++ "]") :: rest) = resolveExporter env X 9273
    ∧ set_prometheusexporter env (("[" ++ X ++ "]:" ++ P) :: rest) =
        resolveExporter env X (env.atoi P)
    ∧ (∀ (arg : String) (i : Nat),
        portDelimiter arg.data = some i ↔
          ∃ l r, arg.data = l ++ ':' :: r ∧ i = l.length ∧ ':' ∉ r ∧ ']' ∉ r)
    ∧ (∀ (addr a : String) (port : Int),
        addr ≠ "0.0.0.0" → addr ≠ "::" → env.get_addr addr = some a →
        resolveExporter env addr port =
          { ret := .ok (), added := true, value := some { addr := .resolved a, port := port } }) := by
  obtain ⟨hp1, hp2⟩ := digit_not_colon P.data hP
  have hport : ¬ (env.atoi P < 1 ∨ env.atoi P > 65535) := by omega
  refine ⟨?_, ?_, ?_, ?_, fun arg i => portDelimiter_iff arg.data i, ?_⟩
  · unfold set_prometheusexporter
    simp only [hroot, Bool.true_eq_false, if_false,
      portDelimiter_none_of_no_colon A.data hA.1, stripBrackets_plain A hA.2.1]
    rfl
  · have hd : (A ++ ":" ++ P).data = A.data ++ ':' :: P.data := by
      simp [String.data_append]
    have hdel : portDelimiter (A ++ ":" ++ P).data = some A.data.length := by
      rw [hd]
      exact (portDelimiter_iff _ _).2 ⟨A.data, P.data, rfl, rfl, hp1, hp2⟩
    unfold set_prometheusexporter
    simp only [hroot, Bool.true_eq_false, if_false, hdel]
    have e1 : String.mk ((A ++ ":" ++ P).data.drop (A.data.length + 1)) = P := by
      rw [hd, drop_after]
    have e2 : String.mk ((A ++ ":" ++ P).data.take A.data.length) = A := by
      rw [hd, take_before]
    simp only [e1, e2, hport, if_false, stripBrackets_plain A hA.2.1]
  · have hd : ("[" ++ X ++ "]").data = '[' :: X.data ++ [']'] := by
      simp [String.data_append]
    have hs : stripBrackets ("[" ++ X ++ "]") = X := by
      have e : ("[" ++ X ++ "]") = String.mk ('[' :: X.data ++ [']']) := by
        rw [← hd]
      rw [e, stripBrackets_bracketed]
    unfold set_prometheusexporter
    simp only [hroot, Bool.true_eq_false, if_false, hd, portDelimiter_bracketed, hs]
    rfl
  · have hd : ("[" ++ X ++ "]:" ++ P).data = ('[' :: X.data ++ [']']) ++ ':' :: P.data := by
      simp [String.data_append]
    have hdel : portDelimiter ("[" ++ X ++ "]:" ++ P).data =
        some ('[' :: X.data ++ [']']).length := by
      rw [hd]
      exact (portDelimiter_iff _ _).2 ⟨_, P.data, rfl, rfl, hp1, hp2⟩
    unfold set_prometheusexporter
    simp only [hroot, Bool.true_eq_false, if_false, hdel]
    have e1 : String.mk (("[" ++ X ++ "]:" ++ P).data.drop
        (('[' :: X.data ++ [']']).length + 1)) = P := by
      rw [hd, drop_after]
    have e2 : String.mk (("[" ++ X ++ "]:" ++ P).data.take
        ('[' :: X.data ++ [']']).length) = String.mk ('[' :: X.data ++ [']']) := by
      rw [hd, take_before]
    simp only [e1, e2, hport, if_false, stripBrackets_bracketed]
  · intro addr a port hw h6 hr
    unfold resolveExporter
    simp [hw, h6, hr]

/-- C23 for the address `127.0.0.1`, the bracketed address `::1` and the port
text `9100`, on a server whose resolver knows every name as itself. -/
theorem C23_exporter_forms_witness :
    ConfEnv.standard.in_root = true
    ∧ ConfEnv.standard.atoi "9100" = 9100
    ∧ set_prometheusexporter ConfEnv.standard ["127.0.0.1"] =
        { ret := .ok (), added := true
          value := some { addr := .resolved "127.0.0.1", port := 9273 } }
    ∧ set_prometheusexporter ConfEnv.standard ["127.0.0.1:9100"] =
        { ret := .ok (), added := true
          value := some { addr := .resolved "127.0.0.1", port := 9100 } }
    ∧ set_prometheusexporter ConfEnv.standard ["[::1]"] =
        { ret := .ok (), added := true, value := some { addr := .resolved "::1", port := 9273 } }
    ∧ set_prometheusexporter ConfEnv.standard ["[::1]:9100"] =
        { ret := .ok (), added := true, value := some { addr := .resolved "::1", port := 9100 } } :=
  ⟨rfl, by decide,
    (C23_exporter_forms ConfEnv.standard "127.0.0.1" "::1" "9100" [] rfl (by decide) (by decide)
      (by decide) (by decide)).1.trans (by decide),
    (C23_exporter_forms ConfEnv.standard "127.0.0.1" "::1" "9100" [] rfl (by decide) (by decide)
      (by decide) (by decide)).2.1.trans (by decide),
    (C23_exporter_forms ConfEnv.standard "127.0.0.1" "::1" "9100" [] rfl (by decide) (by decide)
      (by decide) (by decide)).2.2.1.trans (by decide),
    (C23_exporter_forms ConfEnv.standard "127.0.0.1" "::1" "9100" [] rfl (by decide) (by decide)
      (by decide) (by decide)).2.2.2.1.trans (by decide)⟩

/-- C24: the port check of `set_prometheusexporter`, for every `atoi`.  When a
port delimiter is found in a directive in the server context and `atoi`
converts the text after it to a value below 1 or above 65535, the handler
returns the error `port must be between 1-65535` and the record holds no
address.  Every address the handler stores has a port in 1..65535, and a
handled directive has stored one.  An empty, a non-numeric, a zero, a negative
and a too large port text are rejected. -/
theorem C24_port_range (env : ConfEnv) (arg : String) (rest : List String) :
    (∀ ptr, env.in_root = true → portDelimiter arg.data = some ptr →
        (env.atoi (String.mk (arg.data.drop (ptr + 1))) < 1
          ∨ env.atoi (String.mk (arg.data.drop (ptr + 1))) > 65535) →
        set_prometheusexporter env (arg :: rest) =
          { ret := .error "port must be between 1-65535", added := true, value := none })
    ∧ (∀ v, (set_prometheusexporter env (arg :: rest)).value = some v →
        1 ≤ v.port ∧ v.port ≤ 65535)
    ∧ ((set_prometheusexporter env (arg :: rest)).ret = .ok () →
        ∃ v, (set_prometheusexporter env (arg :: rest)).value = some v
          ∧ 1 ≤ v.port ∧ v.port ≤ 65535)
    ∧ (set_prometheusexporter env []).value = none
    ∧ atoi "" = 0 ∧ atoi "http" = 0
    ∧ (["host:", "host:http", "host:0", "host:-1", "host:65536", "[::1]:"].map
        (fun a => set_prometheusexporter ConfEnv.standard [a])) =
        List.replicate 6
          { ret := .error "port must be between 1-65535", added := true, value := none } := by
  have hres : ∀ (addr : String) (port : Int), 1 ≤ port → port ≤ 65535 →
      (∀ v, (resolveExporter env addr port).value = some v → 1 ≤ v.port ∧ v.port ≤ 65535)
      ∧ ((resolveExporter env addr port).ret = .ok () →
          ∃ v, (resolveExporter env addr port).value = some v ∧ 1 ≤ v.port ∧ v.port ≤ 65535) := by
    intro addr port hlo hhi
    unfold resolveExporter
    split
    · exact ⟨fun v hv => (by cases hv; exact ⟨hlo, hhi⟩), fun _ => ⟨_, rfl, hlo, hhi⟩⟩
    · split
      · exact ⟨fun v hv => (by cases hv; exact ⟨hlo, hhi⟩), fun _ => ⟨_, rfl, hlo, hhi⟩⟩
      · split
        · exact ⟨fun v hv => (by cases hv), fun h => (by cases h)⟩
        · exact ⟨fun v hv => (by cases hv; exact ⟨hlo, hhi⟩), fun _ => ⟨_, rfl, hlo, hhi⟩⟩
  have hall : (∀ v, (set_prometheusexporter env (arg :: rest)).value = some v →
        1 ≤ v.port ∧ v.port ≤ 65535)
      ∧ ((set_prometheusexporter env (arg :: rest)).ret = .ok () →
        ∃ v, (set_prometheusexporter env (arg :: rest)).value = some v
          ∧ 1 ≤ v.port ∧ v.port ≤ 65535) := by
    unfold set_prometheusexporter
    simp only
    split
    · exact ⟨fun v hv => (by cases hv), fun h => (by cases h)⟩
    · split
      · split
        · exact ⟨fun v hv => (by cases hv), fun h => (by cases h)⟩
        · next hport =>
          exact hres _ _ (by omega) (by omega)
      · exact hres _ _ (by decide) (by decide)
  refine ⟨?_, hall.1, hall.2, rfl, by decide, by decide, by decide⟩
  intro ptr hroot hdel hbad
  unfold set_prometheusexporter
  simp only [hroot, Bool.true_eq_false, if_false, hdel, hbad, if_true]

/-- C25: the byte bucket loses no bytes.  The engine is on, the registry holds
`file_download_bytes` and `file_upload_bytes`, both buckets are in 0..1023, and
every byte count is non-negative and below `2 ^ 42 - 1023`, so that the
quotient fits in 32 bits.  Then one `prom_log_retr` increments
`file_download_bytes` once, by `(bucket + bytes) / 1024`, and leaves
`(bucket + bytes) % 1024` in the bucket; after every sequence of downloads the
bucket is in 0..1023 and 1024 times the sum of the increments plus the bucket
is the first bucket plus the sum of the bytes.  The same holds for
`prom_log_stor`, `file_upload_bytes` and its bucket, whatever the metric
operations return. -/
theorem C25_bucket_loses_no_bytes (api : MetricApi) (s : Session) (st : Module)
    (downloads uploads : List Int)
    (hengine : st.prometheus_engine = true)
    (hx : (prom_registry_get_metric st.prometheus_registry
      (some "file_download_bytes")).toOption.isSome = true)
    (hy : (prom_registry_get_metric st.prometheus_registry
      (some "file_upload_bytes")).toOption.isSome = true)
    (hr : 0 ≤ st.prometheus_retr_bytes ∧ st.prometheus_retr_bytes ≤ 1023)
    (hs : 0 ≤ st.prometheus_stor_bytes ∧ st.prometheus_stor_bytes ≤ 1023)
    (hd : ∀ b ∈ downloads, 0 ≤ b ∧ b + 1023 < 2 ^ 42)
    (hu : ∀ b ∈ uploads, 0 ≤ b ∧ b + 1023 < 2 ^ 42) :
    (∀ b : Int, 0 ≤ b → b + 1023 < 2 ^ 42 →
      incrementsOn "file_download_bytes"
          (prom_log_retr api st { s with total_bytes := b }).calls =
        [((st.prometheus_retr_bytes + b) / 1024).toNat]
      ∧ (prom_log_retr api st { s with total_bytes := b }).st.prometheus_retr_bytes =
          (st.prometheus_retr_bytes + b) % 1024
      ∧ incrementsOn "file_upload_bytes"
          (prom_log_stor api st { s with total_bytes := b }).calls =
        [((st.prometheus_stor_bytes + b) / 1024).toNat]
      ∧ (prom_log_stor api st { s with total_bytes := b }).st.prometheus_stor_bytes =
          (st.prometheus_stor_bytes + b) % 1024)
    ∧ (0 ≤ (retrRun api s st downloads).1.prometheus_retr_bytes
      ∧ (retrRun api s st downloads).1.prometheus_retr_bytes ≤ 1023
      ∧ 1024 * (((retrRun api s st downloads).2.sum : Nat) : Int)
          + (retrRun api s st downloads).1.prometheus_retr_bytes =
          st.prometheus_retr_bytes + downloads.sum
      ∧ (retrRun api s st downloads).2.length = downloads.length)
    ∧ (0 ≤ (storRun api s st uploads).1.prometheus_stor_bytes
      ∧ (storRun api s st uploads).1.prometheus_stor_bytes ≤ 1023
      ∧ 1024 * (((storRun api s st uploads).2.sum : Nat) : Int)
          + (storRun api s st uploads).1.prometheus_stor_bytes =
          st.prometheus_stor_bytes + uploads.sum
      ∧ (storRun api s st uploads).2.length = uploads.length) := by
  obtain ⟨x, hx2⟩ := lookup_of_isSome _ _ hx
  obtain ⟨y, hy2⟩ := lookup_of_isSome _ _ hy
  refine ⟨?_, retrRun_spec api s downloads st x hengine hx2 hr.1 hr.2 hd,
    storRun_spec api s uploads st y hengine hy2 hs.1 hs.2 hu⟩
  intro b hb0 hb1
  obtain ⟨r1, r2, _, _⟩ := prom_log_retr_step api st { s with total_bytes := b } x hengine hx2
  obtain ⟨s1, s2, _, _⟩ := prom_log_stor_step api st { s with total_bytes := b } y hengine hy2
  obtain ⟨a1, a2, _, _, _⟩ := bucket_arith st.prometheus_retr_bytes b hr.1 hr.2 hb0 hb1
  obtain ⟨b1, b2, _, _, _⟩ := bucket_arith st.prometheus_stor_bytes b hs.1 hs.2 hb0 hb1
  simp only at r1 r2 s1 s2
  rw [a1] at r1
  rw [a2] at r2
  rw [b1] at s1
  rw [b2] at s2
  exact ⟨r2, r1, s2, s1⟩

/-- C25 for downloads and uploads of 999 and 999 bytes on a module that holds
the two byte metrics: the increments are 0 and 1, and 974 bytes are held. -/
theorem C25_bucket_loses_no_bytes_witness :
    byteCountingModule.prometheus_engine = true
    ∧ (retrRun MetricApi.standard ftpSession byteCountingModule [999, 999]).2 = [0, 1]
    ∧ (retrRun MetricApi.standard ftpSession byteCountingModule
        [999, 999]).1.prometheus_retr_bytes = 974
    ∧ (storRun MetricApi.standard ftpSession byteCountingModule [999, 999]).2 = [0, 1]
    ∧ 1024 * (((retrRun MetricApi.standard ftpSession byteCountingModule
          [999, 999]).2.sum : Nat) : Int)
        + (retrRun MetricApi.standard ftpSession byteCountingModule
          [999, 999]).1.prometheus_retr_bytes =
        byteCountingModule.prometheus_retr_bytes + [999, 999].sum :=
  ⟨by decide, by decide, by decide, by decide,
    (C25_bucket_loses_no_bytes MetricApi.standard ftpSession byteCountingModule [999, 999]
      [999, 999] (by decide) (by decide) (by decide) (by decide) (by decide) (by decide)
      (by decide)).2.1.2.2.1⟩

/-- C26, as the code has it: with the engine on and the metric `session` in the
registry, `prom_sess_init` makes one increment by 1 on `session` under the
protocol the session has at its start, and `prom_exit_ev`, for a disconnect
reason that is none of banned, config ACL, module ACL, session-init failure
and segfault, makes one decrement by 1 on `session` under the protocol the
session has at its end.  The two label sets are the same exactly when the
protocol has not changed in between. -/
theorem C26_session_gauge (api : MetricApi) (dbenv : DbEnv) (st : Module)
    (atStart atEnd : Session) (disk : Disk)
    (hengine : st.prometheus_engine = true)
    (hm : (prom_registry_get_metric st.prometheus_registry
      (some "session")).toOption.isSome = true)
    (h1 : atEnd.disconnect_reason ≠ PR_SESS_DISCONNECT_BANNED)
    (h2 : atEnd.disconnect_reason ≠ PR_SESS_DISCONNECT_CONFIG_ACL)
    (h3 : atEnd.disconnect_reason ≠ PR_SESS_DISCONNECT_MODULE_ACL)
    (h4 : atEnd.disconnect_reason ≠ PR_SESS_DISCONNECT_SESSION_INIT_FAILED)
    (h5 : atEnd.disconnect_reason ≠ PR_SESS_DISCONNECT_SEGFAULT) :
    (prom_sess_init api dbenv st atStart disk).calls =
        [{ op := .incr, metric_name := "session", val := 1,
           labels := [("protocol", atStart.protocol)] }]
    ∧ (prom_exit_ev api (prom_sess_init api dbenv st atStart disk).st atEnd).calls =
        [{ op := .decr, metric_name := "session", val := 1,
           labels := [("protocol", atEnd.protocol)] }]
    ∧ (([("protocol", atStart.protocol)] : Labels) = [("protocol", atEnd.protocol)] ↔
        atStart.protocol = atEnd.protocol) := by
  obtain ⟨x, hx⟩ := lookup_of_isSome _ _ hm
  have hn := prom_registry_get_metric_name _ _ _ hx
  refine ⟨?_, ?_, by simp⟩
  · unfold prom_sess_init
    simp only [hx, Except.toOption, hn]
    rfl
  · have hst : (prom_sess_init api dbenv st atStart disk).st =
        Module.record { st with prometheus_dbh := none }
          (api.incr (some ()) (some x) 1 (some (pr_table_add [] "protocol" atStart.protocol))) := by
      unfold prom_sess_init
      simp only [hx, Except.toOption]
    obtain ⟨y, hy⟩ := lookup_record { st with prometheus_dbh := none }
      (api.incr (some ()) (some x) 1 (some (pr_table_add [] "protocol" atStart.protocol)))
      "session" x hx
    rw [← hst] at hy
    have he : (prom_sess_init api dbenv st atStart disk).st.prometheus_engine = true := by
      rw [hst, (Module.record_fields _ _).1]
      exact hengine
    unfold prom_exit_ev
    simp only [he, Bool.true_eq_false, if_false, h1, h2, h3, h4, h5, or_self]
    exact prom_event_incr_minus_one api _ atEnd "session" y hy

/-- C26 for an FTP session whose protocol stays `ftp`, after a successful
start-up: one increment and one decrement under `protocol="ftp"`. -/
theorem C26_session_gauge_witness :
    startedModule.prometheus_engine = true
    ∧ (prom_sess_init MetricApi.standard (DbEnv.healthy 7) startedModule ftpSession
        recordedDisk).calls =
        [{ op := .incr, metric_name := "session", val := 1, labels := [("protocol", "ftp")] }]
    ∧ (prom_exit_ev MetricApi.standard
        (prom_sess_init MetricApi.standard (DbEnv.healthy 7) startedModule ftpSession
          recordedDisk).st ftpSession).calls =
        [{ op := .decr, metric_name := "session", val := 1, labels := [("protocol", "ftp")] }] :=
  ⟨by decide,
    (C26_session_gauge MetricApi.standard (DbEnv.healthy 7) startedModule ftpSession ftpSession
      recordedDisk (by decide) (by decide) (by decide) (by decide) (by decide) (by decide)
      (by decide)).1,
    (C26_session_gauge MetricApi.standard (DbEnv.healthy 7) startedModule ftpSession ftpSession
      recordedDisk (by decide) (by decide) (by decide) (by decide) (by decide) (by decide)
      (by decide)).2.1⟩

set_option maxRecDepth 100000 in
/-- C26 fails as stated: an FTP session that starts with the protocol `ftp` and
is secured with TLS ends with the protocol `ftps`.  The increment is made under
`protocol="ftp"` and the decrement under `protocol="ftps"`, so after the
session the gauge of `session` stands at 1 for `ftp` and at -1 for `ftps`. -/
theorem C26_protocol_changes :
    ftpsSession.disconnect_reason = 0
    ∧ (prom_sess_init MetricApi.standard (DbEnv.healthy 7) startedModule ftpSession
        recordedDisk).calls =
        [{ op := .incr, metric_name := "session", val := 1, labels := [("protocol", "ftp")] }]
    ∧ (prom_exit_ev MetricApi.standard
        (prom_sess_init MetricApi.standard (DbEnv.healthy 7) startedModule ftpSession
          recordedDisk).st ftpsSession).calls =
        [{ op := .decr, metric_name := "session", val := 1, labels := [("protocol", "ftps")] }]
    ∧ gaugeOf (prom_exit_ev MetricApi.standard
        (prom_sess_init MetricApi.standard (DbEnv.healthy 7) startedModule ftpSession
          recordedDisk).st ftpsSession).st "session" [("protocol", "ftp")] = some ⟨1, 0⟩
    ∧ gaugeOf (prom_exit_ev MetricApi.standard
        (prom_sess_init MetricApi.standard (DbEnv.healthy 7) startedModule ftpSession
          recordedDisk).st ftpsSession).st "session" [("protocol", "ftps")] = some ⟨-1, 0⟩
    ∧ gaugeOf (prom_exit_ev MetricApi.standard
        (prom_sess_init MetricApi.standard (DbEnv.healthy 7) startedModule ftpSession
          recordedDisk).st ftpSession).st "session" [("protocol", "ftp")] = some ⟨0, 0⟩ := by
  decide

set_option maxRecDepth 100000 in
/-- C27 fails in the code: `create_metrics` registers eighteen metrics, and
`file_download_bytes` and `file_upload_bytes` are not among them.  Of the
metrics the handlers, the listeners and `prom_sess_init` call an operation on
when every lookup finds its metric, exactly these two are not registered.
After a successful start-up their lookup reports `ENOENT`: `prom_log_retr` and
`prom_log_stor` make the decrement of the transfer gauge only, no KB is
counted and the byte bucket is left as it was. -/
theorem C27_byte_metrics_missing :
    registeredNames startedModule.prometheus_registry =
      ["build_info", "connection_refused", "directory_list", "directory_list_error",
       "file_download", "file_download_error", "file_upload", "file_upload_error",
       "handshake_error", "log_message", "login", "login_error", "segfault", "session",
       "sftp_protocol", "startup_time_seconds", "timeout", "tls_protocol"]
    ∧ calledNames .incr byteCountingModule ftpSession ++
        calledNames .decr byteCountingModule ftpSession =
      ["directory_list", "directory_list_error", "file_download", "file_download_bytes",
       "file_download_error", "file_upload", "file_upload_bytes", "file_upload_error",
       "tls_protocol", "connection_refused", "segfault", "timeout", "handshake_error", "login",
       "login_error", "sftp_protocol", "session",
       "directory_list", "login", "file_download", "file_upload", "session"]
    ∧ (calledNames .incr byteCountingModule ftpSession ++
        calledNames .decr byteCountingModule ftpSession).filter
        (fun n => n ∉ registeredNames startedModule.prometheus_registry) =
      ["file_download_bytes", "file_upload_bytes"]
    ∧ prom_registry_get_metric startedModule.prometheus_registry (some "file_download_bytes") =
        .error .ENOENT
    ∧ prom_registry_get_metric startedModule.prometheus_registry (some "file_upload_bytes") =
        .error .ENOENT
    ∧ ftpSession.total_bytes = 2500
    ∧ (prom_log_retr MetricApi.standard startedModule ftpSession).calls =
        [{ op := .decr, metric_name := "file_download", val := 1,
           labels := [("protocol", "ftp")] }]
    ∧ (prom_log_retr MetricApi.standard startedModule ftpSession).st.prometheus_retr_bytes = 0
    ∧ (prom_log_stor MetricApi.standard startedModule ftpSession).calls =
        [{ op := .decr, metric_name := "file_upload", val := 1,
           labels := [("protocol", "ftp")] }]
    ∧ (prom_log_stor MetricApi.standard startedModule ftpSession).st.prometheus_stor_bytes = 0
    ∧ (prom_log_retr MetricApi.standard byteCountingModule ftpSession).calls =
        [{ op := .decr, metric_name := "file_download", val := 1,
           labels := [("protocol", "ftp")] },
         { op := .incr, metric_name := "file_download_bytes", val := 2,
           labels := [("protocol", "ftp")] }] := by
  decide

set_option maxRecDepth 100000 in
/-- C28 fails in the code: the metrics the module decrements are
`directory_list`, `login`, `file_download`, `file_upload` and `session`, and
`create_metrics` gives a gauge to all of them but `login`, which has a counter
only.  After a successful start-up the decrement of `prom_log_pass` on `login`
is refused with `EPERM` and changes nothing; so is the decrement of
`prom_err_login`, which then increments `login_error`. -/
theorem C28_login_without_gauge :
    calledNames .decr byteCountingModule ftpSession =
      ["directory_list", "login", "file_download", "file_upload", "session"]
    ∧ ["directory_list", "login", "file_download", "file_upload", "session"].map
        (hasGauge startedModule) = [some true, some false, some true, some true, some true]
    ∧ (prom_log_pass MetricApi.standard startedModule ftpSession).calls =
        [{ op := .decr, metric_name := "login", val := 1, labels := [("protocol", "ftp")] }]
    ∧ (prom_registry_get_metric startedModule.prometheus_registry (some "login")).toOption.map
        (fun m => prom_metric_decr (some ()) (some m) 1 (some [("protocol", "ftp")])) =
        some (.error .EPERM)
    ∧ (prom_log_pass MetricApi.standard startedModule ftpSession).st = startedModule
    ∧ (prom_err_login MetricApi.standard startedModule ftpSession).calls =
        [{ op := .decr, metric_name := "login", val := 1, labels := [("protocol", "ftp")] },
         { op := .incr, metric_name := "login_error", val := 1,
           labels := [("protocol", "ftp")] }]
    ∧ gaugeOf (prom_err_login MetricApi.standard startedModule ftpSession).st "login"
        [("protocol", "ftp")] = none
    ∧ (prom_event_incr MetricApi.standard startedModule ftpSession "login" (-1) []).logs =
        [{ decrementing := true, metric_name := "login", errno := .EPERM }] := by
  decide

/-- C30: `set_prometheusoptions` accepts no directive.  For every parameter list
and every context it returns an error and stores no mask.  Without parameters
the error is `wrong number of parameters`; with parameters, in the server
context, it is `: unknown PrometheusOption` with the first parameter in
quotes, and outside the server context it is the context error.  With no
stored mask to read, start-up leaves `prometheus_opts` at its initial 0. -/
theorem C30_options_rejected (env : ConfEnv) (args : List String) :
    (set_prometheusoptions env args).ret ≠ .ok ()
    ∧ (set_prometheusoptions env args).value = none
    ∧ (args = [] →
        (set_prometheusoptions env args).ret = .error "wrong number of parameters")
    ∧ (∀ opt rest, args = opt :: rest → env.in_root = true →
        (set_prometheusoptions env args).ret =
          .error (": unknown PrometheusOption '" ++ opt ++ "'"))
    ∧ (∀ opt rest, args = opt :: rest → env.in_root = false →
        (set_prometheusoptions env args).ret = .error (contextError env))
    ∧ (∀ senv : StartEnv,
        (prom_postparse_ev { senv with options_conf := [] } Module.initial).st.prometheus_opts
          = 0)
    ∧ set_prometheusoptions ConfEnv.standard ["NoVacuum", "Other"] =
        { ret := .error ": unknown PrometheusOption 'NoVacuum'", added := true, value := none } := by
  refine ⟨?_, ?_, ?_, ?_, ?_, ?_, by decide⟩
  · unfold set_prometheusoptions
    cases args with
    | nil => simp
    | cons opt rest =>
      cases hr : env.in_root <;> simp
  · unfold set_prometheusoptions
    cases args with
    | nil => simp
    | cons opt rest =>
      cases hr : env.in_root <;> simp
  · intro h
    subst h
    rfl
  · intro opt rest h hr
    subst h
    simp [set_prometheusoptions, hr]
  · intro opt rest h hr
    subst h
    simp [set_prometheusoptions, hr]
  · intro senv
    rcases prom_postparse_ev_opts { senv with options_conf := [] } Module.initial with h | h
    · rw [h]
      rfl
    · rw [h]
      rfl

end Prometheus
